import Mathlib

/-!
# User mode process timers (kernel/ps/utimer.c)

A shallow embedding of the process timer support of the kernel: the
`PROCESS_TIMER` record, the `PsSysTimerControl` system call (create, delete,
get, set), process teardown, and the expiry pipeline made of the DPC routine,
the work routine and the signal completion routine.  The definitions come
first; they are followed by the theorems, grouped by the property they settle:
numbering on create, the order of timer numbers, create followed by delete,
lookup failures, set and get, creation failures, the completion routine, the
invariants of the expiry pipeline, coalescing, and delivery after delete.

Conventions of the embedding.

* `ULONG` fields are natural numbers kept below `2 ^ 32`; every arithmetic
  step on them is reduced modulo `2 ^ 32` as `RtlAtomicAdd32` does.
* `LONG` fields are integers kept in `[-2 ^ 31, 2 ^ 31)`; `+` on them is
  followed by `toLONG`, the two's complement wrap.  The signal parameter, a
  `UINTN` in the C code, is kept as the integer stored into it, because no
  property here depends on its width.
* `ASSERT` is taken as compiled out: it has no effect on the state.
* `ULONGLONG` fields are natural numbers; the code only copies and compares
  them.
* The process timer list (a circular doubly linked list headed at
  `Process->TimerList`) is a `List PROCESS_TIMER` in list order; the backing
  objects a record points to (kernel timer, DPC, work item) and its embedded
  signal queue entry are fields holding the state of those objects.
* The scheduler, the DPC queue, the work queue, the signal queue, the pool
  allocator and the object manager are not part of `utimer.c`.  Each routine of
  theirs that the file calls is modelled by a small definition whose comment
  says so, and every call is recorded, in program order, in a list of `KCALL`.
  Outcomes that the callee decides (allocation failure, rejection of a timer,
  whether a DPC could still be cancelled, the value of the time counter) are
  read from an `ENVIRONMENT` argument.
-/

namespace Utimer

/-! ## Machine integers -/

/-- Number of values of a 32-bit word. -/
def ULONG_MODULUS : Nat := 4294967296

/-- Largest value of a `LONG`. -/
def LONG_MAX : Int := 2147483647

/-- Smallest value of a `LONG`. -/
def LONG_MIN : Int := -2147483648

/-- Two's complement reduction of an integer to the range of a `LONG`: the
value congruent to the argument modulo `2 ^ 32` that lies in
`[-2 ^ 31, 2 ^ 31)`. -/
def toLONG (Value : Int) : Int := (2147483648 + Value) % 4294967296 - 2147483648

/-- Reduction of a natural number to the range of a `ULONG`. -/
def toULONG (Value : Nat) : Nat := Value % ULONG_MODULUS

/-- The `ULONG` value of `-Value`, as in the argument `-OverflowCount` of
`RtlAtomicAdd32`. -/
def negULONG (Value : Nat) : Nat := (ULONG_MODULUS - Value % ULONG_MODULUS) % ULONG_MODULUS

/-- The `ULONG` value of `Left - Right`. -/
def subULONG (Left Right : Nat) : Nat := toULONG (negULONG Right + Left)

/-! ## Status codes, operations and system call parameters -/

/-- Modelled from the spec: the status codes `TimerControl` can return.  The
header that defines `KSTATUS` is not part of the sources; the error taxonomy
lists invalid handle, insufficient resources, invalid parameter and the
failure status with which the scheduler rejects a timer, which carries the
scheduler's own code. -/
inductive KSTATUS where
  | STATUS_SUCCESS
  | STATUS_INVALID_HANDLE
  | STATUS_INSUFFICIENT_RESOURCES
  | STATUS_INVALID_PARAMETER
  | STATUS_SCHEDULER_FAILURE (Code : Nat)
  deriving DecidableEq, Repr

/-- The `KSUCCESS` test on a status. -/
def KSUCCESS (Status : KSTATUS) : Bool :=
  match Status with
  | .STATUS_SUCCESS => true
  | _ => false

/-- The operation tag of a timer control request.  The four tags are the
cases of the switch in `PsSysTimerControl`; any other value of the C
enumeration is `TimerOperationUnrecognized`. -/
inductive TIMER_OPERATION where
  | TimerOperationCreateTimer
  | TimerOperationDeleteTimer
  | TimerOperationGetTimer
  | TimerOperationSetTimer
  | TimerOperationUnrecognized (Tag : Nat)
  deriving DecidableEq, Repr

/-- The `TIMER_INFORMATION` block exchanged by get and set. -/
structure TIMER_INFORMATION where
  DueTime : Nat
  Period : Nat
  OverflowCount : Nat
  deriving DecidableEq, Repr

/-- The `SYSTEM_CALL_TIMER_CONTROL` parameter block. -/
structure SYSTEM_CALL_TIMER_CONTROL where
  Operation : TIMER_OPERATION
  UseTimerNumber : Bool
  TimerNumber : Int
  SignalNumber : Nat
  SignalValue : Int
  TimerInformation : TIMER_INFORMATION
  Status : KSTATUS
  deriving DecidableEq, Repr

/-! ## Backing objects -/

/-- The queue type handed to `KeQueueTimer`; the file only uses soft wake. -/
inductive TIMER_QUEUE_TYPE where
  | TimerQueueSoftWake
  deriving DecidableEq, Repr

/-- What the scheduler holds for a queued kernel timer: the arguments of the
`KeQueueTimer` call that queued it. -/
structure QUEUED_TIMER where
  QueueType : TIMER_QUEUE_TYPE
  DueTime : Nat
  Period : Nat
  Flags : Nat
  HasDpc : Bool
  deriving DecidableEq, Repr

/-- State of a kernel timer: `none` when it is not queued. -/
structure KTIMER where
  Queue : Option QUEUED_TIMER
  deriving DecidableEq, Repr

/-- State of a DPC: whether it is queued to run. -/
structure DPC where
  Queued : Bool
  deriving DecidableEq, Repr

/-- State of a work item: whether it is queued on the work queue. -/
structure WORK_ITEM where
  Queued : Bool
  deriving DecidableEq, Repr

/-- The signal code field; zeroed memory holds no code. -/
inductive SIGNAL_CODE where
  | SIGNAL_CODE_ZERO
  | SIGNAL_CODE_TIMER
  deriving DecidableEq, Repr

/-- The `Parameters` of a signal queue entry that the file writes. -/
structure SIGNAL_PARAMETERS where
  SignalNumber : Nat
  SignalCode : SIGNAL_CODE
  Parameter : Int
  OverflowCount : Nat
  deriving DecidableEq, Repr

/-- The embedded signal queue entry: its parameters, whether its completion
routine is `PspProcessTimerSignalCompletion`, and whether it currently sits on
the signal queue of the process. -/
structure SIGNAL_QUEUE_ENTRY where
  Parameters : SIGNAL_PARAMETERS
  HasCompletionRoutine : Bool
  Queued : Bool
  deriving DecidableEq, Repr

/-- The `PROCESS_TIMER` record.  `ListEntry` is the position in the list and
`Process` is the process whose list holds the record. -/
structure PROCESS_TIMER where
  ReferenceCount : Nat
  TimerNumber : Int
  DueTime : Nat
  Interval : Nat
  ExpirationCount : Nat
  OverflowCount : Nat
  Timer : KTIMER
  Dpc : DPC
  WorkItem : WORK_ITEM
  SignalQueueEntry : SIGNAL_QUEUE_ENTRY
  deriving DecidableEq, Repr

/-- The part of a process the timer code touches: its timer list and the
number of references held on the process object. -/
structure KPROCESS where
  TimerList : List PROCESS_TIMER
  ReferenceCount : Nat
  deriving DecidableEq, Repr

/-! ## Calls to the rest of the kernel -/

/-- One call made by the timer code to a routine outside the file, with the
arguments that matter and, where the callee can fail, whether it succeeded. -/
inductive KCALL where
  | MmAllocateNonPagedPool (Succeeded : Bool)
  | MmFreeNonPagedPool
  | KeCreateTimer (Succeeded : Bool)
  | KeDestroyTimer
  | KeCreateDpc (Succeeded : Bool)
  | KeDestroyDpc
  | KeCreateWorkItem (Succeeded : Bool)
  | KeDestroyWorkItem
  | ObAddReference
  | ObReleaseReference
  | KeAcquireQueuedLock
  | KeReleaseQueuedLock
  | KeGetTimerDueTime
  | HlQueryTimeCounter
  | KeCancelTimer
  | KeQueueTimer (QueueType : TIMER_QUEUE_TYPE) (DueTime Period Flags : Nat)
      (WithDpc : Bool) (Succeeded : Bool)
  | KeCancelDpc (Succeeded : Bool)
  | KeFlushDpc
  | KeFlushWorkQueue
  | PspCancelQueuedSignal
  | KeQueueWorkItem
  | PsSignalProcess (SignalNumber : Nat) (OverflowCount : Nat)
  deriving DecidableEq, Repr

/-- Outcomes decided outside the file for one run of a routine. -/
structure ENVIRONMENT where
  AllocateSucceeds : Bool
  CreateTimerSucceeds : Bool
  CreateDpcSucceeds : Bool
  CreateWorkItemSucceeds : Bool
  TimeCounter : Nat
  QueueTimerRejection : Option Nat
  CancelDpcSucceeds : Bool
  deriving DecidableEq, Repr

/-- Modelled from the spec: `get_due_time(timer)` of the scheduler, which is
not part of the sources.  It returns the due time the timer was last queued
with, or 0 when the timer is not queued. -/
def KeGetTimerDueTime (Timer : KTIMER) : Nat :=
  match Timer.Queue with
  | none => 0
  | some Queued => Queued.DueTime

/-- Modelled from the spec: `cancel_timer` of the scheduler, which is not part
of the sources.  The timer is no longer queued afterwards. -/
def KeCancelTimer (_Timer : KTIMER) : KTIMER :=
  { Queue := none }

/-- Modelled from the spec: `queue_timer(timer, policy, due, interval, dpc)`
of the scheduler, which is not part of the sources.  Either the scheduler
rejects the request, returns its failure status and leaves the timer as it
was, or the timer is queued with the given arguments. -/
def KeQueueTimer (Rejection : Option Nat) (Timer : KTIMER)
    (QueueType : TIMER_QUEUE_TYPE) (DueTime Period Flags : Nat) (WithDpc : Bool) :
    KSTATUS × KTIMER :=
  match Rejection with
  | some Code => (.STATUS_SCHEDULER_FAILURE Code, Timer)
  | none =>
    (.STATUS_SUCCESS,
      { Queue := some { QueueType := QueueType, DueTime := DueTime, Period := Period,
                        Flags := Flags, HasDpc := WithDpc } })

/-- Modelled from the spec: `queue_work_item` of the work queue, which is not
part of the sources.  The work item is queued afterwards. -/
def KeQueueWorkItem (_WorkItem : WORK_ITEM) : WORK_ITEM :=
  { Queued := true }

/-- Modelled from the spec: `signal_process(process, signal_number, entry)` of
the signal queue, which is not part of the sources.  The entry is handed to
the signal queue of the process and stays there until user mode consumes it or
it is cancelled. -/
def PsSignalProcess (Entry : SIGNAL_QUEUE_ENTRY) : SIGNAL_QUEUE_ENTRY :=
  { Entry with Queued := true }

/-- Modelled from the spec: `cancel_queued_signal(process, entry)` of the
signal queue, which is not part of the sources.  A pending entry is taken off
the signal queue; nothing else is said of it. -/
def PspCancelQueuedSignal (Entry : SIGNAL_QUEUE_ENTRY) : SIGNAL_QUEUE_ENTRY :=
  { Entry with Queued := false }

/-- Modelled from the spec: `cancel_dpc` of the DPC queue, which is not part
of the sources.  A queued DPC that has not been dispatched yet is taken off
the queue and the call succeeds; otherwise the call fails and the DPC is left
as it is. -/
def KeCancelDpc (NotYetDispatched : Bool) (Dpc : DPC) : Bool × DPC :=
  if Dpc.Queued && NotYetDispatched then (true, { Queued := false }) else (false, Dpc)

/-! ## Reference counting and destruction -/

/-- Result of a routine that may release the last reference of a record: the
record as the routine left it, whether the record was destroyed, and the calls
made. -/
structure RELEASE_RESULT where
  Timer : PROCESS_TIMER
  Destroyed : Bool
  Calls : List KCALL
  deriving DecidableEq, Repr

/-- The routine `PspProcessTimerAddReference`: an atomic add of 1. -/
def PspProcessTimerAddReference (Timer : PROCESS_TIMER) : PROCESS_TIMER :=
  { Timer with ReferenceCount := toULONG (Timer.ReferenceCount + 1) }

/-- The calls of `PspDestroyProcessTimer`, in program order. -/
def PspDestroyProcessTimer : List KCALL :=
  [.KeDestroyTimer, .KeDestroyDpc, .KeDestroyWorkItem, .ObReleaseReference,
   .MmFreeNonPagedPool]

/-- The routine `PspProcessTimerReleaseReference`: an atomic add of -1, and
destruction when the value before the add was 1. -/
def PspProcessTimerReleaseReference (Timer : PROCESS_TIMER) : RELEASE_RESULT :=
  let Previous := Timer.ReferenceCount
  let Released := { Timer with ReferenceCount := toULONG (negULONG 1 + Previous) }
  if Previous = 1 then
    { Timer := Released, Destroyed := true, Calls := PspDestroyProcessTimer }
  else
    { Timer := Released, Destroyed := false, Calls := [] }

/-! ## The expiry pipeline -/

/-- The routine `PspProcessTimerDpcRoutine`: add 1 to the expiration count
and, when the count was 0 before, take a reference and queue the work item. -/
def PspProcessTimerDpcRoutine (Timer : PROCESS_TIMER) : PROCESS_TIMER × List KCALL :=
  let Previous := Timer.ExpirationCount
  let Counted := { Timer with ExpirationCount := toULONG (Previous + 1) }
  if Previous = 0 then
    let Referenced := PspProcessTimerAddReference Counted
    ({ Referenced with WorkItem := KeQueueWorkItem Referenced.WorkItem }, [.KeQueueWorkItem])
  else
    (Counted, [])

/-- The routine `PspProcessTimerWorkRoutine`: read the expiration count, store
the count minus one as overflow count in the record and in the signal
parameters, and signal the process. -/
def PspProcessTimerWorkRoutine (Timer : PROCESS_TIMER) : PROCESS_TIMER × List KCALL :=
  let ExpirationCount := Timer.ExpirationCount
  let Overflow := subULONG ExpirationCount 1
  let Entry : SIGNAL_QUEUE_ENTRY :=
    { Timer.SignalQueueEntry with
      Parameters := { Timer.SignalQueueEntry.Parameters with OverflowCount := Overflow } }
  ({ Timer with OverflowCount := Overflow, SignalQueueEntry := PsSignalProcess Entry },
   [.PsSignalProcess Entry.Parameters.SignalNumber Overflow])

/-- The routine `PspProcessTimerSignalCompletion`: zero the overflow count,
subtract the old overflow count plus one from the expiration count, and either
queue the work item again, when the difference is not 0, or release a
reference. -/
def PspProcessTimerSignalCompletion (Timer : PROCESS_TIMER) : RELEASE_RESULT :=
  let OverflowCount := toULONG (Timer.OverflowCount + 1)
  let ExpirationCount := Timer.ExpirationCount
  let Drained :=
    { Timer with
      OverflowCount := 0,
      ExpirationCount := toULONG (negULONG OverflowCount + ExpirationCount) }
  if subULONG ExpirationCount OverflowCount ≠ 0 then
    { Timer := { Drained with WorkItem := KeQueueWorkItem Drained.WorkItem },
      Destroyed := false,
      Calls := [.KeQueueWorkItem] }
  else
    PspProcessTimerReleaseReference Drained

/-- Modelled from the spec: `flush_dpc` of the DPC queue, which is not part of
the sources.  It returns once the DPC is no longer queued or running: a DPC
that was already dispatched runs its routine to completion. -/
def KeFlushDpc (Timer : PROCESS_TIMER) : PROCESS_TIMER :=
  if Timer.Dpc.Queued then
    (PspProcessTimerDpcRoutine { Timer with Dpc := { Queued := false } }).1
  else Timer

/-- Modelled from the spec: `flush_work_queue` of the work queue, which is not
part of the sources.  It returns once every queued work item has run: a queued
work item of the record runs the work routine. -/
def KeFlushWorkQueue (Timer : PROCESS_TIMER) : PROCESS_TIMER :=
  if Timer.WorkItem.Queued then
    (PspProcessTimerWorkRoutine { Timer with WorkItem := { Queued := false } }).1
  else Timer

/-- The routine `PspFlushProcessTimer`: cancel the kernel timer, cancel the
DPC or else flush it, flush the work queue, cancel the queued signal. -/
def PspFlushProcessTimer (Env : ENVIRONMENT) (Timer : PROCESS_TIMER) :
    PROCESS_TIMER × List KCALL :=
  let Step1 := { Timer with Timer := KeCancelTimer Timer.Timer }
  let Cancel := KeCancelDpc Env.CancelDpcSucceeds Step1.Dpc
  let Step2 :=
    if Cancel.1 then { Step1 with Dpc := Cancel.2 } else KeFlushDpc Step1
  let DpcCalls : List KCALL :=
    if Cancel.1 then [.KeCancelDpc true] else [.KeCancelDpc false, .KeFlushDpc]
  let Step3 := KeFlushWorkQueue Step2
  let Step4 :=
    { Step3 with SignalQueueEntry := PspCancelQueuedSignal Step3.SignalQueueEntry }
  (Step4, [.KeCancelTimer] ++ DpcCalls ++ [.KeFlushWorkQueue, .PspCancelQueuedSignal])

/-! ## Creation -/

/-- A record as `RtlZeroMemory` leaves it. -/
def ZeroedTimer : PROCESS_TIMER :=
  { ReferenceCount := 0, TimerNumber := 0, DueTime := 0, Interval := 0,
    ExpirationCount := 0, OverflowCount := 0,
    Timer := { Queue := none }, Dpc := { Queued := false },
    WorkItem := { Queued := false },
    SignalQueueEntry :=
      { Parameters := { SignalNumber := 0, SignalCode := .SIGNAL_CODE_ZERO,
                        Parameter := 0, OverflowCount := 0 },
        HasCompletionRoutine := false, Queued := false } }

/-- The cleanup at `CreateProcessTimerEnd` on failure, for a record that was
allocated: destroy each backing object whose pointer is not null, then free
the record. -/
def CreateProcessTimerEnd (HasTimer HasDpc HasWorkItem : Bool) : List KCALL :=
  (if HasTimer then [KCALL.KeDestroyTimer] else []) ++
  (if HasDpc then [KCALL.KeDestroyDpc] else []) ++
  (if HasWorkItem then [KCALL.KeDestroyWorkItem] else []) ++
  [KCALL.MmFreeNonPagedPool]

/-- The routine `PspCreateProcessTimer`: the status, the new record on
success, and the calls made. -/
def PspCreateProcessTimer (Env : ENVIRONMENT) :
    KSTATUS × Option PROCESS_TIMER × List KCALL :=
  if !Env.AllocateSucceeds then
    (.STATUS_INSUFFICIENT_RESOURCES, none, [.MmAllocateNonPagedPool false])
  else
    let NewTimer := { ZeroedTimer with ReferenceCount := 1 }
    if !Env.CreateTimerSucceeds then
      (.STATUS_INSUFFICIENT_RESOURCES, none,
        [.MmAllocateNonPagedPool true, .KeCreateTimer false]
          ++ CreateProcessTimerEnd false false false)
    else if !Env.CreateDpcSucceeds then
      (.STATUS_INSUFFICIENT_RESOURCES, none,
        [.MmAllocateNonPagedPool true, .KeCreateTimer true, .KeCreateDpc false]
          ++ CreateProcessTimerEnd true false false)
    else if !Env.CreateWorkItemSucceeds then
      (.STATUS_INSUFFICIENT_RESOURCES, none,
        [.MmAllocateNonPagedPool true, .KeCreateTimer true, .KeCreateDpc true,
         .KeCreateWorkItem false]
          ++ CreateProcessTimerEnd true true false)
    else
      (.STATUS_SUCCESS,
        some { NewTimer with
               SignalQueueEntry :=
                 { NewTimer.SignalQueueEntry with HasCompletionRoutine := true } },
        [.MmAllocateNonPagedPool true, .KeCreateTimer true, .KeCreateDpc true,
         .KeCreateWorkItem true])

/-! ## The timer control system call -/

/-- The lookup loop of `PsSysTimerControl`: the first record, in list order,
whose timer number equals the requested one, with its position in the list. -/
def FindTimer : List PROCESS_TIMER → Int → Option (Nat × PROCESS_TIMER)
  | [], _ => none
  | CurrentTimer :: Rest, TimerNumber =>
    if CurrentTimer.TimerNumber = TimerNumber then some (0, CurrentTimer)
    else (FindTimer Rest TimerNumber).map (fun Found => (Found.1 + 1, Found.2))

/-- The number a new record gets: 1 when the list is empty, otherwise the
number of the last record (`Process->TimerList.Previous`) plus one, as a
`LONG`. -/
def NextTimerNumber (TimerList : List PROCESS_TIMER) : Int :=
  match TimerList.getLast? with
  | none => 1
  | some PreviousTimer => toLONG (PreviousTimer.TimerNumber + 1)

/-- What one run of `PsSysTimerControl` leaves behind: the process, the
parameter block copied back to user mode, the calls made, and, for a delete,
the record that was unlinked, in the state the call left it, and whether the
call destroyed it. -/
structure TIMER_CONTROL_RESULT where
  Process : KPROCESS
  Parameters : SYSTEM_CALL_TIMER_CONTROL
  Calls : List KCALL
  Unlinked : Option PROCESS_TIMER
  Destroyed : Bool
  deriving DecidableEq, Repr

/-- The record the create case links into the list: the signal template is
filled in, the number is assigned, and the signal parameter is replaced by the
number when the caller asked for that. -/
def NewProcessTimer (Parameters : SYSTEM_CALL_TIMER_CONTROL) (TimerNumber : Int)
    (NewTimer : PROCESS_TIMER) : PROCESS_TIMER :=
  { NewTimer with
    TimerNumber := TimerNumber,
    SignalQueueEntry :=
      { NewTimer.SignalQueueEntry with
        Parameters :=
          { NewTimer.SignalQueueEntry.Parameters with
            SignalNumber := Parameters.SignalNumber,
            SignalCode := .SIGNAL_CODE_TIMER,
            Parameter :=
              if Parameters.UseTimerNumber then TimerNumber else Parameters.SignalValue } } }

/-- The create case of `PsSysTimerControl`. -/
def TimerControlCreate (Env : ENVIRONMENT) (Process : KPROCESS)
    (Parameters : SYSTEM_CALL_TIMER_CONTROL) : TIMER_CONTROL_RESULT :=
  match PspCreateProcessTimer Env with
  | (Status, none, Calls) =>
    { Process := Process, Parameters := { Parameters with Status := Status },
      Calls := Calls, Unlinked := none, Destroyed := false }
  | (Status, some NewTimer, Calls) =>
    if !KSUCCESS Status then
      { Process := Process, Parameters := { Parameters with Status := Status },
        Calls := Calls, Unlinked := none, Destroyed := false }
    else
      let Timer := NewProcessTimer Parameters (NextTimerNumber Process.TimerList) NewTimer
      { Process :=
          { TimerList := Process.TimerList ++ [Timer],
            ReferenceCount := Process.ReferenceCount + 1 },
        Parameters :=
          { Parameters with TimerNumber := Timer.TimerNumber, Status := .STATUS_SUCCESS },
        Calls := Calls ++ [.ObAddReference, .KeAcquireQueuedLock, .KeReleaseQueuedLock],
        Unlinked := none, Destroyed := false }

/-- The delete case of `PsSysTimerControl`, for the record found at `Index`:
unlink, drop the lock, flush, release the reference of the list. -/
def TimerControlDelete (Env : ENVIRONMENT) (Process : KPROCESS)
    (Parameters : SYSTEM_CALL_TIMER_CONTROL) (Index : Nat) (Timer : PROCESS_TIMER) :
    TIMER_CONTROL_RESULT :=
  let Flushed := PspFlushProcessTimer Env Timer
  let Released := PspProcessTimerReleaseReference Flushed.1
  { Process :=
      { TimerList := Process.TimerList.eraseIdx Index,
        ReferenceCount :=
          if Released.Destroyed then Process.ReferenceCount - 1
          else Process.ReferenceCount },
    Parameters := { Parameters with Status := .STATUS_SUCCESS },
    Calls := [.KeAcquireQueuedLock, .KeReleaseQueuedLock] ++ Flushed.2 ++ Released.Calls,
    Unlinked := some Released.Timer,
    Destroyed := Released.Destroyed }

/-- The get case of `PsSysTimerControl`, for the record `Timer`. -/
def TimerControlGet (Process : KPROCESS) (Parameters : SYSTEM_CALL_TIMER_CONTROL)
    (Timer : PROCESS_TIMER) : TIMER_CONTROL_RESULT :=
  { Process := Process,
    Parameters :=
      { Parameters with
        TimerInformation :=
          { DueTime := KeGetTimerDueTime Timer.Timer,
            Period := Timer.Interval,
            OverflowCount := Timer.OverflowCount },
        Status := .STATUS_SUCCESS },
    Calls := [.KeAcquireQueuedLock, .KeGetTimerDueTime, .KeReleaseQueuedLock],
    Unlinked := none, Destroyed := false }

/-- What the set case does to the record it found: the record afterwards, the
status, the information to return on success, and the scheduler and time
counter calls made. -/
structure SET_TIMER_RESULT where
  Timer : PROCESS_TIMER
  Status : KSTATUS
  OriginalInformation : TIMER_INFORMATION
  Calls : List KCALL
  deriving DecidableEq, Repr

/-- The body of the set case of `PsSysTimerControl` on the record `Timer`:
save the original information, cancel the kernel timer when the record's due
time is not 0, write the new due time and interval, and, when either is not 0,
queue the kernel timer, starting at the current time counter when the new due
time is 0. -/
def SetProcessTimer (Env : ENVIRONMENT) (New : TIMER_INFORMATION)
    (Timer : PROCESS_TIMER) : SET_TIMER_RESULT :=
  let OriginalInformation : TIMER_INFORMATION :=
    { DueTime := KeGetTimerDueTime Timer.Timer, Period := Timer.Interval,
      OverflowCount := 0 }
  let Cancelled : PROCESS_TIMER :=
    if Timer.DueTime ≠ 0 then { Timer with Timer := KeCancelTimer Timer.Timer } else Timer
  let CancelCalls : List KCALL := if Timer.DueTime ≠ 0 then [.KeCancelTimer] else []
  let Written : PROCESS_TIMER :=
    { Cancelled with DueTime := New.DueTime, Interval := New.Period }
  if Written.DueTime ≠ 0 ∨ Written.Interval ≠ 0 then
    let Started : PROCESS_TIMER :=
      if Written.DueTime = 0 then { Written with DueTime := Env.TimeCounter } else Written
    let CounterCalls : List KCALL :=
      if Written.DueTime = 0 then [.HlQueryTimeCounter] else []
    let Queue :=
      KeQueueTimer Env.QueueTimerRejection Started.Timer .TimerQueueSoftWake
        Started.DueTime Started.Interval 0 true
    { Timer := { Started with Timer := Queue.2 },
      Status := Queue.1,
      OriginalInformation := OriginalInformation,
      Calls := [.KeGetTimerDueTime] ++ CancelCalls ++ CounterCalls ++
        [.KeQueueTimer .TimerQueueSoftWake Started.DueTime Started.Interval 0 true
          (KSUCCESS Queue.1)] }
  else
    { Timer := Written,
      Status := .STATUS_SUCCESS,
      OriginalInformation := OriginalInformation,
      Calls := [.KeGetTimerDueTime] ++ CancelCalls }

/-- The set case of `PsSysTimerControl`, for the record found at `Index`.  The
original information is copied to the parameter block only when the call did
not fail. -/
def TimerControlSet (Env : ENVIRONMENT) (Process : KPROCESS)
    (Parameters : SYSTEM_CALL_TIMER_CONTROL) (Index : Nat) (Timer : PROCESS_TIMER) :
    TIMER_CONTROL_RESULT :=
  let Outcome := SetProcessTimer Env Parameters.TimerInformation Timer
  { Process := { Process with TimerList := Process.TimerList.set Index Outcome.Timer },
    Parameters :=
      if !KSUCCESS Outcome.Status then { Parameters with Status := Outcome.Status }
      else { Parameters with
             TimerInformation := Outcome.OriginalInformation, Status := Outcome.Status },
    Calls := [.KeAcquireQueuedLock] ++ Outcome.Calls ++ [.KeReleaseQueuedLock],
    Unlinked := none, Destroyed := false }

/-- The end of `PsSysTimerControl` for a request that changes nothing but the
status: the lock taken for the lookup is dropped and the status stored. -/
def TimerControlEnd (Process : KPROCESS) (Parameters : SYSTEM_CALL_TIMER_CONTROL)
    (Status : KSTATUS) : TIMER_CONTROL_RESULT :=
  { Process := Process,
    Parameters := { Parameters with Status := Status },
    Calls := [.KeAcquireQueuedLock, .KeReleaseQueuedLock],
    Unlinked := none, Destroyed := false }

/-- The routine `PsSysTimerControl`.  For every operation but create the
record is looked up first, under the process lock, and a miss ends the call
with `STATUS_INVALID_HANDLE`; then the switch on the operation runs. -/
def PsSysTimerControl (Env : ENVIRONMENT) (Process : KPROCESS)
    (Parameters : SYSTEM_CALL_TIMER_CONTROL) : TIMER_CONTROL_RESULT :=
  match Parameters.Operation with
  | .TimerOperationCreateTimer => TimerControlCreate Env Process Parameters
  | Operation =>
    match FindTimer Process.TimerList Parameters.TimerNumber with
    | none => TimerControlEnd Process Parameters .STATUS_INVALID_HANDLE
    | some (Index, Timer) =>
      match Operation with
      | .TimerOperationDeleteTimer => TimerControlDelete Env Process Parameters Index Timer
      | .TimerOperationGetTimer => TimerControlGet Process Parameters Timer
      | .TimerOperationSetTimer => TimerControlSet Env Process Parameters Index Timer
      | _ => TimerControlEnd Process Parameters .STATUS_INVALID_PARAMETER

/-- The loop of `PspDestroyProcessTimers` over the timer list: each record is
unlinked, its kernel timer cancelled, its DPC cancelled or else flushed, and
the reference of the list released.  The result lists the records in the state
the loop left them, with whether each was destroyed. -/
def DestroyProcessTimersLoop (Env : ENVIRONMENT) :
    List PROCESS_TIMER → List (PROCESS_TIMER × Bool)
  | [] => []
  | Timer :: Rest =>
    let Step1 := { Timer with Timer := KeCancelTimer Timer.Timer }
    let Cancel := KeCancelDpc Env.CancelDpcSucceeds Step1.Dpc
    let Step2 := if Cancel.1 then { Step1 with Dpc := Cancel.2 } else KeFlushDpc Step1
    let Released := PspProcessTimerReleaseReference Step2
    (Released.Timer, Released.Destroyed) :: DestroyProcessTimersLoop Env Rest

/-- The routine `PspDestroyProcessTimers`: the timer list ends empty, and the
process loses one reference for each record that was destroyed. -/
def PspDestroyProcessTimers (Env : ENVIRONMENT) (Process : KPROCESS) :
    KPROCESS × List (PROCESS_TIMER × Bool) :=
  let Torn := DestroyProcessTimersLoop Env Process.TimerList
  ({ TimerList := [],
     ReferenceCount := Process.ReferenceCount - (Torn.filter (fun Entry => Entry.2)).length },
   Torn)

/-! ## Sequences of requests on one process -/

/-- One event in the life of the timer list of a process: a timer control
system call, with the outcomes the rest of the kernel decides for it, or the
teardown of the process timers. -/
inductive REQUEST where
  | Control (Env : ENVIRONMENT) (Parameters : SYSTEM_CALL_TIMER_CONTROL)
  | Teardown (Env : ENVIRONMENT)
  deriving DecidableEq, Repr

/-- The process after one request. -/
def ApplyRequest (Process : KPROCESS) (Request : REQUEST) : KPROCESS :=
  match Request with
  | .Control Env Parameters => (PsSysTimerControl Env Process Parameters).Process
  | .Teardown Env => (PspDestroyProcessTimers Env Process).1

/-- The process after a sequence of requests, applied in order. -/
def RunRequests (Process : KPROCESS) (Requests : List REQUEST) : KPROCESS :=
  Requests.foldl ApplyRequest Process

/-- The statuses returned by the timer control calls of a sequence of
requests, in order, paired with the timer number copied back. -/
def RunReturns : KPROCESS → List REQUEST → List (KSTATUS × Int)
  | _, [] => []
  | Process, .Control Env Parameters :: Rest =>
    let Result := PsSysTimerControl Env Process Parameters
    (Result.Parameters.Status, Result.Parameters.TimerNumber) :: RunReturns Result.Process Rest
  | Process, .Teardown Env :: Rest =>
    RunReturns (PspDestroyProcessTimers Env Process).1 Rest

/-- A sequence of requests never creates a timer while the last record of the
list carries the largest `LONG`. -/
def NoWrapRun : KPROCESS → List REQUEST → Prop
  | _, [] => True
  | Process, Request :: Rest =>
    (∀ Env Parameters, Request = .Control Env Parameters →
      Parameters.Operation = .TimerOperationCreateTimer →
      ∀ PreviousTimer, Process.TimerList.getLast? = some PreviousTimer →
        PreviousTimer.TimerNumber < LONG_MAX) ∧
    NoWrapRun (ApplyRequest Process Request) Rest

/-- The timer numbers of a list, in list order. -/
def TimerNumbers (TimerList : List PROCESS_TIMER) : List Int :=
  TimerList.map (fun Timer => Timer.TimerNumber)

/-- Timer numbers are strictly increasing along list order. -/
def StrictlyIncreasing (TimerList : List PROCESS_TIMER) : Prop :=
  List.Pairwise (fun A B => A < B) (TimerNumbers TimerList)

/-- An environment in which every call to the rest of the kernel succeeds. -/
def AllSucceed (TimeCounter : Nat) : ENVIRONMENT :=
  { AllocateSucceeds := true, CreateTimerSucceeds := true, CreateDpcSucceeds := true,
    CreateWorkItemSucceeds := true, TimeCounter := TimeCounter,
    QueueTimerRejection := none, CancelDpcSucceeds := true }

/-- A request block for the given operation and timer number, with the other
fields zero. -/
def Request (Operation : TIMER_OPERATION) (TimerNumber : Int) : SYSTEM_CALL_TIMER_CONTROL :=
  { Operation := Operation, UseTimerNumber := false, TimerNumber := TimerNumber,
    SignalNumber := 0, SignalValue := 0,
    TimerInformation := { DueTime := 0, Period := 0, OverflowCount := 0 },
    Status := .STATUS_SUCCESS }

/-- A process that holds no timer. -/
def EmptyProcess : KPROCESS := { TimerList := [], ReferenceCount := 1 }

/-- The record `PspCreateProcessTimer` returns on success. -/
def CreatedTimer : PROCESS_TIMER :=
  { ZeroedTimer with
    ReferenceCount := 1,
    SignalQueueEntry := { ZeroedTimer.SignalQueueEntry with HasCompletionRoutine := true } }

/-- A value lies in the range of a `LONG`. -/
def IsLONG (Value : Int) : Prop := LONG_MIN ≤ Value ∧ Value ≤ LONG_MAX

/-- The record a create with the request block `Request TimerOperationCreateTimer 0`
links into the list when it assigns the given number. -/
def NumberedTimer (TimerNumber : Int) : PROCESS_TIMER :=
  NewProcessTimer (Request .TimerOperationCreateTimer 0) TimerNumber CreatedTimer

/-- The scenario of id allocation across gaps: create three timers, delete the
second, create a fourth. -/
def AllocationScenario : List REQUEST :=
  [.Control (AllSucceed 0) (Request .TimerOperationCreateTimer 0),
   .Control (AllSucceed 0) (Request .TimerOperationCreateTimer 0),
   .Control (AllSucceed 0) (Request .TimerOperationCreateTimer 0),
   .Control (AllSucceed 0) (Request .TimerOperationDeleteTimer 2),
   .Control (AllSucceed 0) (Request .TimerOperationCreateTimer 0)]

/-- A request is a create or a delete system call. -/
def IsCreateOrDelete : REQUEST → Prop
  | .Control _ Parameters =>
    Parameters.Operation = .TimerOperationCreateTimer ∨
    Parameters.Operation = .TimerOperationDeleteTimer
  | .Teardown _ => False

/-- The record `First` sits at `Index` in the list and is the first record, in
list order, that carries `TimerNumber`. -/
def IsFirstWithNumber (TimerList : List PROCESS_TIMER) (TimerNumber : Int) (Index : Nat)
    (First : PROCESS_TIMER) : Prop :=
  TimerList[Index]? = some First ∧ First.TimerNumber = TimerNumber ∧
  ∀ Earlier Other, Earlier < Index → TimerList[Earlier]? = some Other →
    Other.TimerNumber ≠ TimerNumber

/-- The due time the set case stores: the current time counter when the new
due time is 0 and the new period is not, the new due time otherwise. -/
def StoredDueTime (Env : ENVIRONMENT) (New : TIMER_INFORMATION) : Nat :=
  if New.DueTime = 0 ∧ New.Period ≠ 0 then Env.TimeCounter else New.DueTime

/-- A call is a call to `KeCancelTimer`. -/
def IsCancelTimerCall : KCALL → Bool
  | .KeCancelTimer => true
  | _ => false

/-- A request block for a set of the given timer to the given due time and
period. -/
def SetRequest (TimerNumber : Int) (DueTime Period : Nat) : SYSTEM_CALL_TIMER_CONTROL :=
  { Operation := .TimerOperationSetTimer, UseTimerNumber := false, TimerNumber := TimerNumber,
    SignalNumber := 0, SignalValue := 0,
    TimerInformation := { DueTime := DueTime, Period := Period, OverflowCount := 0 },
    Status := .STATUS_SUCCESS }

/-- A record whose due time is 0, the value that marks it as not armed, has no
queued backing timer. -/
def TimerConsistent (Timer : PROCESS_TIMER) : Prop :=
  Timer.DueTime = 0 → Timer.Timer.Queue = none

/-- An environment in which every allocation succeeds and the scheduler
rejects the kernel timer with the given code. -/
def Rejecting (TimeCounter Code : Nat) : ENVIRONMENT :=
  { AllocateSucceeds := true, CreateTimerSucceeds := true, CreateDpcSucceeds := true,
    CreateWorkItemSucceeds := true, TimeCounter := TimeCounter,
    QueueTimerRejection := some Code, CancelDpcSucceeds := true }

/-- An environment in which the record and its kernel timer are created and
the creation of the DPC fails. -/
def DpcCreationFails : ENVIRONMENT :=
  { AllocateSucceeds := true, CreateTimerSucceeds := true, CreateDpcSucceeds := false,
    CreateWorkItemSucceeds := true, TimeCounter := 0,
    QueueTimerRejection := none, CancelDpcSucceeds := true }

/-! ## The expiry pipeline of one record as a state machine -/

/-- An event in the life of one record while it is in the timer list: a run
of the DPC routine (one hardware expiry), a run of the work routine, the
completion of the signal in user mode, a get, or a set. -/
inductive PIPELINE_EVENT where
  | DpcRun
  | WorkItemRun
  | SignalCompleted
  | GetTimer
  | SetTimer (Env : ENVIRONMENT) (New : TIMER_INFORMATION)
  deriving DecidableEq, Repr

/-- The record together with a history of its pipeline: whether it has been
destroyed, how many times the DPC routine ran, and the overflow counts of the
signals handed to the signal queue and of the signals completed, latest
first. -/
structure PIPELINE_STATE where
  Timer : PROCESS_TIMER
  Destroyed : Bool
  DpcRuns : Nat
  Handed : List Nat
  Completed : List Nat
  deriving DecidableEq, Repr

/-- Modelled from the spec: how the work queue and the signal queue drive the
routines of the file, which are not part of the sources.  The DPC routine can
run at any time; the work routine runs only when the work item is queued, and
the work queue takes the item off the queue to run it; the completion routine
runs only when the signal entry is on the signal queue, and the signal queue
takes the entry off when user mode consumes it; a get or a set can run at any
time while the record is in the list.  Nothing runs on a destroyed record. -/
def PipelineStep (State : PIPELINE_STATE) (Event : PIPELINE_EVENT) : Option PIPELINE_STATE :=
  if State.Destroyed then none
  else
    match Event with
    | .DpcRun =>
      some { State with
             Timer := (PspProcessTimerDpcRoutine State.Timer).1,
             DpcRuns := State.DpcRuns + 1 }
    | .WorkItemRun =>
      if State.Timer.WorkItem.Queued then
        let Ran :=
          (PspProcessTimerWorkRoutine { State.Timer with WorkItem := { Queued := false } }).1
        some { State with
               Timer := Ran,
               Handed := Ran.SignalQueueEntry.Parameters.OverflowCount :: State.Handed }
      else none
    | .SignalCompleted =>
      if State.Timer.SignalQueueEntry.Queued then
        let Done :=
          PspProcessTimerSignalCompletion
            { State.Timer with
              SignalQueueEntry := { State.Timer.SignalQueueEntry with Queued := false } }
        some { State with
               Timer := Done.Timer,
               Destroyed := Done.Destroyed,
               Completed :=
                 State.Timer.SignalQueueEntry.Parameters.OverflowCount :: State.Completed }
      else none
    | .GetTimer => some State
    | .SetTimer Env New =>
      some { State with Timer := (SetProcessTimer Env New State.Timer).Timer }

/-- The state after a sequence of events, when each of them can happen. -/
def PipelineRun : PIPELINE_STATE → List PIPELINE_EVENT → Option PIPELINE_STATE
  | State, [] => some State
  | State, Event :: Rest =>
    match PipelineStep State Event with
    | none => none
    | some Next => PipelineRun Next Rest

/-- The pipeline of a record just created by a create request. -/
def FreshPipeline (Parameters : SYSTEM_CALL_TIMER_CONTROL) (TimerNumber : Int) :
    PIPELINE_STATE :=
  { Timer := NewProcessTimer Parameters TimerNumber CreatedTimer,
    Destroyed := false, DpcRuns := 0, Handed := [], Completed := [] }

/-- Fewer than `2 ^ 32` expiries are ever outstanding along a sequence of
events: no run of the DPC routine finds the expiration count at the largest
`ULONG`. -/
def PipelineBounded : PIPELINE_STATE → List PIPELINE_EVENT → Prop
  | _, [] => True
  | State, Event :: Rest =>
    (Event = .DpcRun → State.Timer.ExpirationCount + 1 < ULONG_MODULUS) ∧
    ∀ Next, PipelineStep State Event = some Next → PipelineBounded Next Rest

/-- The number of expiries accounted for by completed signals: each reported
its overflow count plus the one that raised it. -/
def CompletedExpiries (Completed : List Nat) : Nat :=
  (Completed.map (fun OverflowCount => OverflowCount + 1)).sum

/-- The invariant of the pipeline of a record that is in the timer list: the
record is alive, its expiration count is a `ULONG`, its reference count is 1
plus 1 when the expiration count is not 0, every run of the DPC routine is
accounted for by a completed signal or by the expiration count, a signal on
the signal queue carries the overflow count of the record, is covered by the
expiration count and excludes a queued work item, a queued work item has an
expiry to report, and with neither queued the expiration count is 0. -/
def PipelineInvariant (State : PIPELINE_STATE) : Prop :=
  State.Destroyed = false ∧
  State.Timer.ExpirationCount < ULONG_MODULUS ∧
  State.Timer.ReferenceCount = 1 + (if State.Timer.ExpirationCount ≠ 0 then 1 else 0) ∧
  State.DpcRuns = CompletedExpiries State.Completed + State.Timer.ExpirationCount ∧
  (State.Timer.SignalQueueEntry.Queued = true →
    State.Timer.WorkItem.Queued = false ∧
    State.Timer.OverflowCount + 1 ≤ State.Timer.ExpirationCount ∧
    State.Timer.SignalQueueEntry.Parameters.OverflowCount = State.Timer.OverflowCount) ∧
  (State.Timer.WorkItem.Queued = true → 1 ≤ State.Timer.ExpirationCount) ∧
  (State.Timer.SignalQueueEntry.Queued = false → State.Timer.WorkItem.Queued = false →
    State.Timer.ExpirationCount = 0)

/-- The state after `Count` further runs of the DPC routine that only add to
the expiration count. -/
def AddExpiries (State : PIPELINE_STATE) (Count : Nat) : PIPELINE_STATE :=
  { State with
    Timer := { State.Timer with ExpirationCount := State.Timer.ExpirationCount + Count },
    DpcRuns := State.DpcRuns + Count }

/-- The pipeline state after one run of the DPC routine on the freshly created
record numbered 1: one expiry counted, a second reference taken, the work item
queued. -/
def FirstExpiryPipeline : PIPELINE_STATE :=
  { Timer := { NumberedTimer 1 with
               ReferenceCount := 2, ExpirationCount := 1, WorkItem := { Queued := true } },
    Destroyed := false, DpcRuns := 1, Handed := [], Completed := [] }

/-- The pipeline state after `2 ^ 32` runs of the DPC routine on the freshly
created record numbered 1 with no run of the work routine in between: the
expiration count has wrapped to 0 while the work item is queued and the second
reference is held. -/
def WrappedPipeline : PIPELINE_STATE :=
  { Timer := { NumberedTimer 1 with
               ReferenceCount := 2, ExpirationCount := 0, WorkItem := { Queued := true } },
    Destroyed := false, DpcRuns := 4294967296, Handed := [], Completed := [] }

/-- The events of the record numbered 1 up to and including its first
completion, in a run where two expiries arrive while the first signal is in
flight: one expiry, the work routine, two expiries, the completion. -/
def CarriedEvents : List PIPELINE_EVENT :=
  [.DpcRun, .WorkItemRun, .DpcRun, .DpcRun, .SignalCompleted]

/-- The pipeline state of the freshly created record numbered 1 after the
events `CarriedEvents`: the first completion reported overflow count 0 and
left expiration count 2, with the work item queued again. -/
def CarriedPipeline : PIPELINE_STATE :=
  (PipelineRun (FreshPipeline (Request .TimerOperationCreateTimer 0) 1) CarriedEvents).getD
    (FreshPipeline (Request .TimerOperationCreateTimer 0) 1)

/-! ## Delete against the expiry pipeline -/

/-- How far a delete of the record has got: the record is still in the list,
or the delete has unlinked it, cancelled the kernel timer, cancelled or flushed
the DPC, flushed the work queue, cancelled the queued signal, or released the
reference of the list and returned. -/
inductive DELETE_PHASE where
  | Listed
  | Unlinked
  | TimerCancelled
  | DpcFlushed
  | WorkQueueFlushed
  | SignalCancelled
  | Returned
  deriving DecidableEq, Repr

/-- The position of a phase in the order in which a delete goes through
them. -/
def PhaseRank : DELETE_PHASE → Nat
  | .Listed => 0
  | .Unlinked => 1
  | .TimerCancelled => 2
  | .DpcFlushed => 3
  | .WorkQueueFlushed => 4
  | .SignalCancelled => 5
  | .Returned => 6

/-- An event in the life of one record and its backing objects: a set while
the record is in the list, the expiry of the kernel timer, a run of the queued
DPC, a run of the queued work item, the delivery of the queued signal to user
mode, or the next step of the delete. -/
inductive DELETE_EVENT where
  | SetTimer (Env : ENVIRONMENT) (New : TIMER_INFORMATION)
  | TimerExpires
  | DpcRun
  | WorkItemRun
  | SignalDelivered
  | DeleteStep (Env : ENVIRONMENT)
  deriving DecidableEq, Repr

/-- The record and its backing objects, the phase of the delete, whether the
record has been destroyed, the number of signals delivered to user mode after
the delete returned, and whether a completion that ran after the delete had
flushed the work queue queued the work item again. -/
structure DELETE_STATE where
  Timer : PROCESS_TIMER
  Phase : DELETE_PHASE
  Destroyed : Bool
  DeliveredAfterReturn : Nat
  RequeuedAfterFlush : Bool
  deriving DecidableEq, Repr

/-- Modelled from the spec: the expiry of a queued kernel timer in the
scheduler, which is not part of the sources.  A one-shot timer is no longer
queued; a periodic timer stays queued, due one period later. -/
def KeTimerExpires (Timer : KTIMER) : KTIMER :=
  match Timer.Queue with
  | none => Timer
  | some Queued =>
    if Queued.Period = 0 then { Queue := none }
    else { Queue := some { Queued with DueTime := Queued.DueTime + Queued.Period } }

/-- The next step of the delete case of `PsSysTimerControl` and of
`PspFlushProcessTimer`, in program order: unlink the record, cancel the kernel
timer, cancel the DPC or else flush it, flush the work queue, cancel the queued
signal, release the reference of the list. -/
def DeleteAdvance (Env : ENVIRONMENT) (State : DELETE_STATE) : DELETE_STATE :=
  match State.Phase with
  | .Listed => { State with Phase := .Unlinked }
  | .Unlinked =>
    { State with
      Timer := { State.Timer with Timer := KeCancelTimer State.Timer.Timer },
      Phase := .TimerCancelled }
  | .TimerCancelled =>
    let Cancel := KeCancelDpc Env.CancelDpcSucceeds State.Timer.Dpc
    { State with
      Timer := if Cancel.1 then { State.Timer with Dpc := Cancel.2 }
               else KeFlushDpc State.Timer,
      Phase := .DpcFlushed }
  | .DpcFlushed =>
    { State with Timer := KeFlushWorkQueue State.Timer, Phase := .WorkQueueFlushed }
  | .WorkQueueFlushed =>
    { State with
      Timer := { State.Timer with
                 SignalQueueEntry := PspCancelQueuedSignal State.Timer.SignalQueueEntry },
      Phase := .SignalCancelled }
  | .SignalCancelled =>
    let Released := PspProcessTimerReleaseReference State.Timer
    { State with
      Timer := Released.Timer, Destroyed := Released.Destroyed, Phase := .Returned }
  | .Returned => State

/-- Modelled from the spec: how the scheduler, the DPC queue, the work queue
and the signal queue, which are not part of the sources, drive the routines of
the file while a delete of the record is under way.  A set needs the record in
the list; the kernel timer expires only while it is queued, and queues the DPC;
the DPC, the work item and the signal run only while they are queued and are
taken off their queue to run; the delivery of the signal to user mode runs the
completion routine; the steps of the delete, which runs without the process
lock once the record is unlinked, can be interleaved with the other events.
Nothing runs on a destroyed record. -/
def DeleteStep (State : DELETE_STATE) (Event : DELETE_EVENT) : Option DELETE_STATE :=
  if State.Destroyed then none
  else
    match Event with
    | .SetTimer Env New =>
      if State.Phase = .Listed then
        some { State with Timer := (SetProcessTimer Env New State.Timer).Timer }
      else none
    | .TimerExpires =>
      match State.Timer.Timer.Queue with
      | none => none
      | some _ =>
        some { State with
               Timer := { State.Timer with
                          Timer := KeTimerExpires State.Timer.Timer,
                          Dpc := { Queued := true } } }
    | .DpcRun =>
      if State.Timer.Dpc.Queued then
        some { State with
               Timer :=
                 (PspProcessTimerDpcRoutine { State.Timer with Dpc := { Queued := false } }).1 }
      else none
    | .WorkItemRun =>
      if State.Timer.WorkItem.Queued then
        some { State with
               Timer :=
                 (PspProcessTimerWorkRoutine
                   { State.Timer with WorkItem := { Queued := false } }).1 }
      else none
    | .SignalDelivered =>
      if State.Timer.SignalQueueEntry.Queued then
        let Done :=
          PspProcessTimerSignalCompletion
            { State.Timer with
              SignalQueueEntry := { State.Timer.SignalQueueEntry with Queued := false } }
        some { Timer := Done.Timer,
               Phase := State.Phase,
               Destroyed := Done.Destroyed,
               DeliveredAfterReturn :=
                 if State.Phase = .Returned then State.DeliveredAfterReturn + 1
                 else State.DeliveredAfterReturn,
               RequeuedAfterFlush :=
                 State.RequeuedAfterFlush ||
                   (decide (State.Phase = .WorkQueueFlushed) && Done.Timer.WorkItem.Queued) }
      else none
    | .DeleteStep Env =>
      if State.Phase = .Returned then none else some (DeleteAdvance Env State)

/-- The state after a sequence of events, when each of them can happen. -/
def DeleteRun : DELETE_STATE → List DELETE_EVENT → Option DELETE_STATE
  | State, [] => some State
  | State, Event :: Rest =>
    match DeleteStep State Event with
    | none => none
    | some Next => DeleteRun Next Rest

/-- The freshly created record numbered 1, in the list, with no delete under
way. -/
def FreshDelete : DELETE_STATE :=
  { Timer := NumberedTimer 1, Phase := .Listed, Destroyed := false,
    DeliveredAfterReturn := 0, RequeuedAfterFlush := false }

/-- A periodic timer fires twice and the work routine hands the signal over
after the first expiry; a delete then unlinks the record, cancels the kernel
timer, cancels the DPC and flushes the work queue; user mode consumes the
signal; the delete cancels the queued signal, releases the reference of the
list and returns; the work item queued by the completion runs and its signal
is delivered. -/
def DeleteDuringBurst : List DELETE_EVENT :=
  [.SetTimer (AllSucceed 100) { DueTime := 0, Period := 5, OverflowCount := 0 },
   .TimerExpires, .DpcRun, .WorkItemRun, .TimerExpires, .DpcRun,
   .DeleteStep (AllSucceed 100), .DeleteStep (AllSucceed 100), .DeleteStep (AllSucceed 100),
   .DeleteStep (AllSucceed 100),
   .SignalDelivered,
   .DeleteStep (AllSucceed 100), .DeleteStep (AllSucceed 100),
   .WorkItemRun, .SignalDelivered]

/-- The invariant of a delete: as long as no completion has queued the work
item again after the delete flushed the work queue, no signal has been
delivered after the delete returned, and each step the delete has taken has
left its object quiet: the kernel timer not queued once cancelled, the DPC not
queued once cancelled or flushed, the work item not queued once the work queue
was flushed, and the signal not queued once cancelled. -/
def DeleteInvariant (State : DELETE_STATE) : Prop :=
  State.RequeuedAfterFlush = false →
    State.DeliveredAfterReturn = 0 ∧
    (2 ≤ PhaseRank State.Phase → State.Timer.Timer.Queue = none) ∧
    (3 ≤ PhaseRank State.Phase → State.Timer.Dpc.Queued = false) ∧
    (4 ≤ PhaseRank State.Phase → State.Timer.WorkItem.Queued = false) ∧
    (5 ≤ PhaseRank State.Phase → State.Timer.SignalQueueEntry.Queued = false)

/-! # Theorems -/

/-! ## Creation -/

/-- Adding one to a `LONG` below the largest one does not wrap. -/
theorem toLONG_add_one (Value : Int) (hLow : LONG_MIN ≤ Value) (hHigh : Value < LONG_MAX) :
    toLONG (Value + 1) = Value + 1 := by
  unfold toLONG
  unfold LONG_MIN at hLow
  unfold LONG_MAX at hHigh
  omega

/-- On success `PspCreateProcessTimer` returns the created record and every
backing object was created. -/
theorem PspCreateProcessTimer_success (Env : ENVIRONMENT)
    (h : (PspCreateProcessTimer Env).1 = .STATUS_SUCCESS) :
    PspCreateProcessTimer Env =
      (.STATUS_SUCCESS, some CreatedTimer,
        [.MmAllocateNonPagedPool true, .KeCreateTimer true, .KeCreateDpc true,
         .KeCreateWorkItem true]) ∧
    Env.AllocateSucceeds = true ∧ Env.CreateTimerSucceeds = true ∧
    Env.CreateDpcSucceeds = true ∧ Env.CreateWorkItemSucceeds = true := by
  unfold PspCreateProcessTimer at h ⊢
  cases hA : Env.AllocateSucceeds <;> cases hT : Env.CreateTimerSucceeds <;>
    cases hD : Env.CreateDpcSucceeds <;> cases hW : Env.CreateWorkItemSucceeds <;>
    simp_all [CreatedTimer]

/-- The only failure status of `PspCreateProcessTimer` is insufficient
resources, and no record is returned with it. -/
theorem PspCreateProcessTimer_failure (Env : ENVIRONMENT)
    (h : (PspCreateProcessTimer Env).1 ≠ .STATUS_SUCCESS) :
    (PspCreateProcessTimer Env).1 = .STATUS_INSUFFICIENT_RESOURCES ∧
    (PspCreateProcessTimer Env).2.1 = none := by
  unfold PspCreateProcessTimer at h ⊢
  cases hA : Env.AllocateSucceeds <;> cases hT : Env.CreateTimerSucceeds <;>
    cases hD : Env.CreateDpcSucceeds <;> cases hW : Env.CreateWorkItemSucceeds <;>
    simp_all

/-- The whole result of a create that succeeds. -/
theorem TimerControlCreate_success (Env : ENVIRONMENT) (Process : KPROCESS)
    (Parameters : SYSTEM_CALL_TIMER_CONTROL)
    (h : (TimerControlCreate Env Process Parameters).Parameters.Status = .STATUS_SUCCESS) :
    TimerControlCreate Env Process Parameters =
      { Process :=
          { TimerList := Process.TimerList ++
              [NewProcessTimer Parameters (NextTimerNumber Process.TimerList) CreatedTimer],
            ReferenceCount := Process.ReferenceCount + 1 },
        Parameters :=
          { Parameters with
            TimerNumber := NextTimerNumber Process.TimerList, Status := .STATUS_SUCCESS },
        Calls := [.MmAllocateNonPagedPool true, .KeCreateTimer true, .KeCreateDpc true,
                  .KeCreateWorkItem true, .ObAddReference, .KeAcquireQueuedLock,
                  .KeReleaseQueuedLock],
        Unlinked := none, Destroyed := false } := by
  by_cases hs : (PspCreateProcessTimer Env).1 = .STATUS_SUCCESS
  · have hc := (PspCreateProcessTimer_success Env hs).1
    simp [TimerControlCreate, hc, KSUCCESS, NewProcessTimer]
  · have hf := PspCreateProcessTimer_failure Env hs
    exfalso
    revert h
    unfold TimerControlCreate
    rcases hp : PspCreateProcessTimer Env with ⟨Status, Created, Calls⟩
    rw [hp] at hf
    simp at hf
    rcases hf with ⟨h1, h2⟩
    subst h1; subst h2
    simp

/-- A create that fails leaves the process alone and returns insufficient
resources. -/
theorem TimerControlCreate_failure (Env : ENVIRONMENT) (Process : KPROCESS)
    (Parameters : SYSTEM_CALL_TIMER_CONTROL)
    (h : (TimerControlCreate Env Process Parameters).Parameters.Status ≠ .STATUS_SUCCESS) :
    (TimerControlCreate Env Process Parameters).Process = Process ∧
    (TimerControlCreate Env Process Parameters).Parameters =
      { Parameters with Status := .STATUS_INSUFFICIENT_RESOURCES } := by
  by_cases hs : (PspCreateProcessTimer Env).1 = .STATUS_SUCCESS
  · have hc := (PspCreateProcessTimer_success Env hs).1
    exfalso
    apply h
    simp [TimerControlCreate, hc, KSUCCESS]
  · have hf := PspCreateProcessTimer_failure Env hs
    unfold TimerControlCreate
    rcases hp : PspCreateProcessTimer Env with ⟨Status, Created, Calls⟩
    rw [hp] at hf
    simp at hf
    rcases hf with ⟨h1, h2⟩
    subst h1; subst h2
    simp

/-! ## Lookup -/

/-- A hit of the lookup loop is the first record, in list order, that carries
the requested number. -/
theorem FindTimer_some (TimerList : List PROCESS_TIMER) (TimerNumber : Int) (Index : Nat)
    (Timer : PROCESS_TIMER) (h : FindTimer TimerList TimerNumber = some (Index, Timer)) :
    TimerList[Index]? = some Timer ∧ Timer.TimerNumber = TimerNumber ∧
    ∀ Earlier Other, Earlier < Index → TimerList[Earlier]? = some Other →
      Other.TimerNumber ≠ TimerNumber := by
  induction TimerList generalizing Index with
  | nil => simp [FindTimer] at h
  | cons Current Rest ih =>
    unfold FindTimer at h
    by_cases hc : Current.TimerNumber = TimerNumber
    · simp [hc] at h
      rcases h with ⟨rfl, rfl⟩
      simp [hc]
    · simp [hc] at h
      rcases h with ⟨Found, hFound, hIndex⟩
      subst hIndex
      have ih' := ih Found hFound
      refine ⟨by simpa using ih'.1, ih'.2.1, ?_⟩
      intro Earlier Other hlt hget
      cases Earlier with
      | zero =>
        simp at hget
        subst hget
        exact hc
      | succ Before =>
        simp at hget
        exact ih'.2.2 Before Other (by omega) hget

/-- The lookup loop misses exactly when no record carries the requested
number. -/
theorem FindTimer_none (TimerList : List PROCESS_TIMER) (TimerNumber : Int) :
    FindTimer TimerList TimerNumber = none ↔
      ∀ Timer ∈ TimerList, Timer.TimerNumber ≠ TimerNumber := by
  induction TimerList with
  | nil => simp [FindTimer]
  | cons Current Rest ih =>
    unfold FindTimer
    by_cases hc : Current.TimerNumber = TimerNumber
    · simp [hc]
    · simp [hc, ih]

/-- The lookup loop finds the head of the list when the head carries the
number. -/
theorem FindTimer_head (Current : PROCESS_TIMER) (Rest : List PROCESS_TIMER) :
    FindTimer (Current :: Rest) Current.TimerNumber = some (0, Current) := by
  simp [FindTimer]

/-- The lookup loop finds a record appended to a list none of whose records
carries its number. -/
theorem FindTimer_append_fresh (TimerList : List PROCESS_TIMER) (Timer : PROCESS_TIMER)
    (h : ∀ Other ∈ TimerList, Other.TimerNumber ≠ Timer.TimerNumber) :
    FindTimer (TimerList ++ [Timer]) Timer.TimerNumber = some (TimerList.length, Timer) := by
  induction TimerList with
  | nil => simp [FindTimer]
  | cons Current Rest ih =>
    have hc : Current.TimerNumber ≠ Timer.TimerNumber := h Current (by simp)
    have ih' := ih (fun Other hOther => h Other (by simp [hOther]))
    simp [FindTimer, hc, ih']

/-! ## Effect of one request on the timer list -/

/-- A create is the create case. -/
theorem PsSysTimerControl_create_eq (Env : ENVIRONMENT) (Process : KPROCESS)
    (Parameters : SYSTEM_CALL_TIMER_CONTROL)
    (hOperation : Parameters.Operation = .TimerOperationCreateTimer) :
    PsSysTimerControl Env Process Parameters = TimerControlCreate Env Process Parameters := by
  unfold PsSysTimerControl
  rw [hOperation]

/-- A create in an environment where every allocation succeeds. -/
theorem PsSysTimerControl_create (Env : ENVIRONMENT) (Process : KPROCESS)
    (Parameters : SYSTEM_CALL_TIMER_CONTROL)
    (hOperation : Parameters.Operation = .TimerOperationCreateTimer)
    (hA : Env.AllocateSucceeds = true) (hT : Env.CreateTimerSucceeds = true)
    (hD : Env.CreateDpcSucceeds = true) (hW : Env.CreateWorkItemSucceeds = true) :
    (PsSysTimerControl Env Process Parameters).Process =
      { TimerList := Process.TimerList ++
          [NewProcessTimer Parameters (NextTimerNumber Process.TimerList) CreatedTimer],
        ReferenceCount := Process.ReferenceCount + 1 } ∧
    (PsSysTimerControl Env Process Parameters).Parameters =
      { Parameters with
        TimerNumber := NextTimerNumber Process.TimerList, Status := .STATUS_SUCCESS } := by
  have hs : (TimerControlCreate Env Process Parameters).Parameters.Status = .STATUS_SUCCESS := by
    simp [TimerControlCreate, PspCreateProcessTimer, hA, hT, hD, hW, KSUCCESS]
  have hc := TimerControlCreate_success Env Process Parameters hs
  rw [PsSysTimerControl_create_eq Env Process Parameters hOperation, hc]
  exact ⟨rfl, rfl⟩

/-- A request that is not a create and whose number is found at `Index`. -/
theorem PsSysTimerControl_found (Env : ENVIRONMENT) (Process : KPROCESS)
    (Parameters : SYSTEM_CALL_TIMER_CONTROL) (Index : Nat) (Timer : PROCESS_TIMER)
    (hOperation : Parameters.Operation ≠ .TimerOperationCreateTimer)
    (hFound : FindTimer Process.TimerList Parameters.TimerNumber = some (Index, Timer)) :
    PsSysTimerControl Env Process Parameters =
      match Parameters.Operation with
      | .TimerOperationDeleteTimer => TimerControlDelete Env Process Parameters Index Timer
      | .TimerOperationGetTimer => TimerControlGet Process Parameters Timer
      | .TimerOperationSetTimer => TimerControlSet Env Process Parameters Index Timer
      | _ => TimerControlEnd Process Parameters .STATUS_INVALID_PARAMETER := by
  unfold PsSysTimerControl
  cases hOp : Parameters.Operation <;> simp_all

/-- A request that is not a create and whose number is not found. -/
theorem PsSysTimerControl_missed (Env : ENVIRONMENT) (Process : KPROCESS)
    (Parameters : SYSTEM_CALL_TIMER_CONTROL)
    (hOperation : Parameters.Operation ≠ .TimerOperationCreateTimer)
    (hMissed : FindTimer Process.TimerList Parameters.TimerNumber = none) :
    PsSysTimerControl Env Process Parameters =
      TimerControlEnd Process Parameters .STATUS_INVALID_HANDLE := by
  unfold PsSysTimerControl
  cases hOp : Parameters.Operation <;> simp_all

/-! ## Reaching lists by create and delete -/

/-- Running a sequence of requests followed by two more. -/
theorem RunRequests_append (Process : KPROCESS) (First Second : List REQUEST) :
    RunRequests Process (First ++ Second) = RunRequests (RunRequests Process First) Second := by
  simp [RunRequests, List.foldl_append]

/-- Deleting the head record of a list of freshly created records, in an
environment where every call succeeds, destroys it. -/
theorem delete_head_numbered (TimerNumber : Int) (Rest : List PROCESS_TIMER)
    (ReferenceCount : Nat) :
    (PsSysTimerControl (AllSucceed 0)
        { TimerList := NumberedTimer TimerNumber :: Rest, ReferenceCount := ReferenceCount }
        (Request .TimerOperationDeleteTimer TimerNumber)).Process =
      { TimerList := Rest, ReferenceCount := ReferenceCount - 1 } := by
  have hFound : FindTimer (NumberedTimer TimerNumber :: Rest) TimerNumber
      = some (0, NumberedTimer TimerNumber) := FindTimer_head (NumberedTimer TimerNumber) Rest
  rw [PsSysTimerControl_found (AllSucceed 0) _ _ 0 (NumberedTimer TimerNumber)
    (by simp [Request]) (by simpa [Request] using hFound)]
  simp [Request, TimerControlDelete, PspFlushProcessTimer, PspProcessTimerReleaseReference,
    NumberedTimer, NewProcessTimer, CreatedTimer, ZeroedTimer, KeCancelDpc, KeFlushDpc,
    KeFlushWorkQueue, AllSucceed, KeCancelTimer, PspCancelQueuedSignal]


/-- Running two requests. -/
theorem RunRequests_pair (Process : KPROCESS) (First Second : REQUEST) :
    RunRequests Process [First, Second]
      = ApplyRequest (ApplyRequest Process First) Second := by
  unfold RunRequests
  rw [List.foldl_cons, List.foldl_cons, List.foldl_nil]

/-- Running one request. -/
theorem RunRequests_single (Process : KPROCESS) (First : REQUEST) :
    RunRequests Process [First] = ApplyRequest Process First := by
  unfold RunRequests
  rw [List.foldl_cons, List.foldl_nil]

/-- A timer control request applies the system call. -/
theorem ApplyRequest_control (Process : KPROCESS) (Env : ENVIRONMENT)
    (Parameters : SYSTEM_CALL_TIMER_CONTROL) :
    ApplyRequest Process (.Control Env Parameters)
      = (PsSysTimerControl Env Process Parameters).Process := by
  unfold ApplyRequest
  rfl

/-- A create of a fresh record in an environment where every call succeeds. -/
theorem create_numbered (Process : KPROCESS) :
    (PsSysTimerControl (AllSucceed 0) Process (Request .TimerOperationCreateTimer 0)).Process =
      { TimerList := Process.TimerList ++ [NumberedTimer (NextTimerNumber Process.TimerList)],
        ReferenceCount := Process.ReferenceCount + 1 } := by
  rw [(PsSysTimerControl_create (AllSucceed 0) Process (Request .TimerOperationCreateTimer 0)
    rfl rfl rfl rfl rfl).1]
  unfold NumberedTimer
  rfl

/-- Create then delete of the only record: the list holds the new record
alone. -/
theorem replace_single (TimerNumber : Int) :
    RunRequests { TimerList := [NumberedTimer TimerNumber], ReferenceCount := 2 }
      [.Control (AllSucceed 0) (Request .TimerOperationCreateTimer 0),
       .Control (AllSucceed 0) (Request .TimerOperationDeleteTimer TimerNumber)] =
      { TimerList := [NumberedTimer (toLONG (TimerNumber + 1))], ReferenceCount := 2 } := by
  rw [RunRequests_pair, ApplyRequest_control, ApplyRequest_control, create_numbered]
  simp only [List.singleton_append, List.cons_append, List.nil_append]
  rw [delete_head_numbered]
  have hNext : NextTimerNumber [NumberedTimer TimerNumber] = toLONG (TimerNumber + 1) := by
    simp only [NextTimerNumber, List.getLast?, List.getLast, NumberedTimer, NewProcessTimer]
  rw [hNext]

/-- Every `LONG` obtained from 1 by adding one repeatedly is the number of the
only record of a list reached from the empty process by creates and deletes. -/
theorem reach_single (Count : Nat) :
    ∃ Requests, (∀ Request ∈ Requests, IsCreateOrDelete Request) ∧
      RunRequests EmptyProcess Requests =
      { TimerList := [NumberedTimer (toLONG (1 + Count))], ReferenceCount := 2 } := by
  induction Count with
  | zero =>
    refine ⟨[.Control (AllSucceed 0) (Request .TimerOperationCreateTimer 0)], ?_, ?_⟩
    · intro Request hRequest
      simp at hRequest
      subst hRequest
      exact Or.inl rfl
    · rw [RunRequests_single, ApplyRequest_control, create_numbered]
      have hNumber : toLONG (1 + ((0 : Nat) : Int)) = 1 := by
        unfold toLONG
        norm_num
      rw [hNumber]
      rfl
  | succ Count ih =>
    obtain ⟨Requests, hKind, hRun⟩ := ih
    refine ⟨Requests ++
      [.Control (AllSucceed 0) (Request .TimerOperationCreateTimer 0),
       .Control (AllSucceed 0) (Request .TimerOperationDeleteTimer (toLONG (1 + Count)))],
      ?_, ?_⟩
    · intro Request hRequest
      rcases List.mem_append.mp hRequest with hIn | hIn
      · exact hKind Request hIn
      · simp at hIn
        rcases hIn with rfl | rfl
        · exact Or.inl rfl
        · exact Or.inr rfl
    · rw [RunRequests_append, hRun, replace_single]
      have hNumber : toLONG (toLONG (1 + (Count : Int)) + 1)
          = toLONG (1 + ((Count + 1 : Nat) : Int)) := by
        unfold toLONG
        push_cast
        omega
      rw [hNumber]

/-- C1 (amended): a successful create appends exactly one record at the tail
of the timer list, leaves the existing records and their order unchanged, and
gives the new record, and returns in the parameter block, the number 1 when
the list was empty and the number of the last record plus one otherwise,
provided that number is a `LONG` below the largest one.  In the scenario
create, create, create, delete 2, create from the empty list the calls return
1, 2, 3 and 4 and the numbers finally present are 1, 3 and 4. -/
theorem create_appends_next_number :
    (∀ (Env : ENVIRONMENT) (Process : KPROCESS) (Parameters : SYSTEM_CALL_TIMER_CONTROL),
      Parameters.Operation = .TimerOperationCreateTimer →
      (PsSysTimerControl Env Process Parameters).Parameters.Status = .STATUS_SUCCESS →
      (∀ PreviousTimer, Process.TimerList.getLast? = some PreviousTimer →
        LONG_MIN ≤ PreviousTimer.TimerNumber ∧ PreviousTimer.TimerNumber < LONG_MAX) →
      ∃ NewTimer : PROCESS_TIMER,
        (PsSysTimerControl Env Process Parameters).Process.TimerList
          = Process.TimerList ++ [NewTimer] ∧
        (PsSysTimerControl Env Process Parameters).Parameters.TimerNumber
          = NewTimer.TimerNumber ∧
        NewTimer.TimerNumber =
          (match Process.TimerList.getLast? with
           | none => 1
           | some PreviousTimer => PreviousTimer.TimerNumber + 1)) ∧
    RunReturns EmptyProcess AllocationScenario =
      [(.STATUS_SUCCESS, 1), (.STATUS_SUCCESS, 2), (.STATUS_SUCCESS, 3),
       (.STATUS_SUCCESS, 2), (.STATUS_SUCCESS, 4)] ∧
    TimerNumbers (RunRequests EmptyProcess AllocationScenario).TimerList = [1, 3, 4] := by
  refine ⟨?_, by decide, by decide⟩
  intro Env Process Parameters hOperation hStatus hRange
  rw [PsSysTimerControl_create_eq Env Process Parameters hOperation] at hStatus ⊢
  rw [TimerControlCreate_success Env Process Parameters hStatus]
  refine ⟨NewProcessTimer Parameters (NextTimerNumber Process.TimerList) CreatedTimer,
    rfl, rfl, ?_⟩
  show NextTimerNumber Process.TimerList = _
  unfold NextTimerNumber
  cases hLast : Process.TimerList.getLast? with
  | none => rfl
  | some PreviousTimer =>
    have hBounds := hRange PreviousTimer hLast
    exact toLONG_add_one PreviousTimer.TimerNumber hBounds.1 hBounds.2

/-- C1, witness of the amended statement: a create on the list that holds the
single record numbered 3 appends a record numbered 4. -/
theorem create_appends_next_number_witness :
    ∃ NewTimer : PROCESS_TIMER,
      (PsSysTimerControl (AllSucceed 0)
          { TimerList := [NumberedTimer 3], ReferenceCount := 2 }
          (Request .TimerOperationCreateTimer 0)).Process.TimerList
        = [NumberedTimer 3] ++ [NewTimer] ∧
      (PsSysTimerControl (AllSucceed 0)
          { TimerList := [NumberedTimer 3], ReferenceCount := 2 }
          (Request .TimerOperationCreateTimer 0)).Parameters.TimerNumber
        = NewTimer.TimerNumber ∧
      NewTimer.TimerNumber = 3 + 1 :=
  create_appends_next_number.1 (AllSucceed 0)
    { TimerList := [NumberedTimer 3], ReferenceCount := 2 }
    (Request .TimerOperationCreateTimer 0) rfl (by decide)
    (by
      intro PreviousTimer hLast
      have hEq : PreviousTimer = NumberedTimer 3 := by
        simpa [List.getLast?] using hLast.symm
      subst hEq
      decide)

/-- C1 (as stated) fails: the list whose only record carries the largest
`LONG` is reached from the empty process, and a create on it succeeds and
returns the smallest `LONG`, not the number of the last record plus one. -/
theorem create_after_largest_number_wraps :
    (∃ Requests, (∀ Request ∈ Requests, IsCreateOrDelete Request) ∧
      RunRequests EmptyProcess Requests =
      { TimerList := [NumberedTimer LONG_MAX], ReferenceCount := 2 }) ∧
    (PsSysTimerControl (AllSucceed 0)
        { TimerList := [NumberedTimer LONG_MAX], ReferenceCount := 2 }
        (Request .TimerOperationCreateTimer 0)).Parameters.Status = .STATUS_SUCCESS ∧
    (PsSysTimerControl (AllSucceed 0)
        { TimerList := [NumberedTimer LONG_MAX], ReferenceCount := 2 }
        (Request .TimerOperationCreateTimer 0)).Parameters.TimerNumber = LONG_MIN ∧
    (PsSysTimerControl (AllSucceed 0)
        { TimerList := [NumberedTimer LONG_MAX], ReferenceCount := 2 }
        (Request .TimerOperationCreateTimer 0)).Parameters.TimerNumber
      ≠ (NumberedTimer LONG_MAX).TimerNumber + 1 ∧
    TimerNumbers (PsSysTimerControl (AllSucceed 0)
        { TimerList := [NumberedTimer LONG_MAX], ReferenceCount := 2 }
        (Request .TimerOperationCreateTimer 0)).Process.TimerList = [LONG_MAX, LONG_MIN] := by
  have hResult := PsSysTimerControl_create (AllSucceed 0)
    { TimerList := [NumberedTimer LONG_MAX], ReferenceCount := 2 }
    (Request .TimerOperationCreateTimer 0) rfl rfl rfl rfl rfl
  have hNext : NextTimerNumber [NumberedTimer LONG_MAX] = LONG_MIN := by
    simp only [NextTimerNumber, List.getLast?, List.getLast, NumberedTimer, NewProcessTimer]
    unfold toLONG LONG_MAX LONG_MIN
    norm_num
  have hLast : (NumberedTimer LONG_MAX).TimerNumber = LONG_MAX := rfl
  rw [hResult.1, hResult.2, hNext, hLast]
  refine ⟨?_, rfl, rfl, ?_, ?_⟩
  · obtain ⟨Requests, hKind, hRun⟩ := reach_single 2147483646
    have hNumber : toLONG (1 + ((2147483646 : Nat) : Int)) = LONG_MAX := by
      unfold toLONG LONG_MAX
      norm_num
    rw [hNumber] at hRun
    exact ⟨Requests, hKind, hRun⟩
  · unfold LONG_MIN LONG_MAX
    norm_num
  · simp only [TimerNumbers, List.singleton_append, List.map_cons, List.map_nil,
      NewProcessTimer, NumberedTimer]

/-! ## C2: timer numbers along the list -/


/-- Writing back at a position the element that is already there changes
nothing. -/
theorem set_same {α : Type} (Items : List α) (Index : Nat) (Item : α)
    (h : Items[Index]? = some Item) : Items.set Index Item = Items := by
  induction Items generalizing Index with
  | nil => simp
  | cons Head Rest ih =>
    cases Index with
    | zero =>
      simp at h
      simp [h]
    | succ Before =>
      simp at h
      simp [ih Before h]

/-- The set case leaves the number, the reference count and the expiry
counters of the record alone. -/
theorem SetProcessTimer_keeps (Env : ENVIRONMENT) (New : TIMER_INFORMATION)
    (Timer : PROCESS_TIMER) :
    (SetProcessTimer Env New Timer).Timer.TimerNumber = Timer.TimerNumber ∧
    (SetProcessTimer Env New Timer).Timer.ReferenceCount = Timer.ReferenceCount ∧
    (SetProcessTimer Env New Timer).Timer.ExpirationCount = Timer.ExpirationCount ∧
    (SetProcessTimer Env New Timer).Timer.OverflowCount = Timer.OverflowCount := by
  unfold SetProcessTimer
  simp only
  split <;> split <;> (try split) <;> simp

/-- What one request can do to the timer list: leave a sublist of it (delete,
teardown, or no change), keep every number in place (set), or append one record
numbered by `NextTimerNumber` (create). -/
theorem TimerList_after_request (Process : KPROCESS) (Request : REQUEST) :
    (ApplyRequest Process Request).TimerList.Sublist Process.TimerList ∨
    TimerNumbers (ApplyRequest Process Request).TimerList = TimerNumbers Process.TimerList ∨
    (∃ Env Parameters NewTimer, Request = .Control Env Parameters ∧
      Parameters.Operation = .TimerOperationCreateTimer ∧
      NewTimer.TimerNumber = NextTimerNumber Process.TimerList ∧
      (ApplyRequest Process Request).TimerList = Process.TimerList ++ [NewTimer]) := by
  cases Request with
  | Teardown Env =>
    left
    simp [ApplyRequest, PspDestroyProcessTimers]
  | Control Env Parameters =>
    unfold ApplyRequest
    simp only
    by_cases hOperation : Parameters.Operation = .TimerOperationCreateTimer
    · rw [PsSysTimerControl_create_eq Env Process Parameters hOperation]
      by_cases hStatus :
          (TimerControlCreate Env Process Parameters).Parameters.Status = .STATUS_SUCCESS
      · right; right
        rw [TimerControlCreate_success Env Process Parameters hStatus]
        exact ⟨Env, Parameters, _, rfl, hOperation, rfl, rfl⟩
      · left
        rw [(TimerControlCreate_failure Env Process Parameters hStatus).1]
    · cases hFind : FindTimer Process.TimerList Parameters.TimerNumber with
      | none =>
        left
        rw [PsSysTimerControl_missed Env Process Parameters hOperation hFind]
        exact List.Sublist.refl _
      | some Found =>
        obtain ⟨Index, Timer⟩ := Found
        rw [PsSysTimerControl_found Env Process Parameters Index Timer hOperation hFind]
        have hAt := (FindTimer_some _ _ _ _ hFind).1
        cases hOp : Parameters.Operation with
        | TimerOperationCreateTimer => exact absurd hOp hOperation
        | TimerOperationDeleteTimer =>
          left
          simp only [TimerControlDelete]
          exact List.eraseIdx_sublist _ _
        | TimerOperationGetTimer =>
          left
          exact List.Sublist.refl _
        | TimerOperationSetTimer =>
          right; left
          simp only [TimerControlSet, TimerNumbers, List.map_set]
          apply set_same
          simp [hAt, (SetProcessTimer_keeps Env Parameters.TimerInformation Timer).1]
        | TimerOperationUnrecognized Tag =>
          left
          exact List.Sublist.refl _

/-- In a list with strictly increasing numbers no number exceeds the last. -/
theorem le_last_of_increasing (Numbers : List Int) (Last : Int)
    (hSorted : List.Pairwise (fun A B => A < B) Numbers)
    (hLast : Numbers.getLast? = some Last) : ∀ Value ∈ Numbers, Value ≤ Last := by
  obtain ⟨Front, hFront⟩ := List.getLast?_eq_some_iff.mp hLast
  subst hFront
  intro Value hValue
  rw [List.pairwise_append] at hSorted
  rcases List.mem_append.mp hValue with hIn | hIn
  · exact le_of_lt (hSorted.2.2 Value hIn Last (by simp))
  · simp at hIn
    omega

/-- Along a sequence of requests that never creates a timer after the largest
`LONG`, the numbers stay strictly increasing and at least 1. -/
theorem increasing_preserved (Requests : List REQUEST) (Process : KPROCESS)
    (hSorted : StrictlyIncreasing Process.TimerList)
    (hPositive : ∀ Value ∈ TimerNumbers Process.TimerList, 1 ≤ Value)
    (hNoWrap : NoWrapRun Process Requests) :
    StrictlyIncreasing (RunRequests Process Requests).TimerList ∧
    ∀ Value ∈ TimerNumbers (RunRequests Process Requests).TimerList, 1 ≤ Value := by
  induction Requests generalizing Process with
  | nil => exact ⟨hSorted, hPositive⟩
  | cons Request Rest ih =>
    obtain ⟨hHere, hRest⟩ := hNoWrap
    have hStep : StrictlyIncreasing (ApplyRequest Process Request).TimerList ∧
        ∀ Value ∈ TimerNumbers (ApplyRequest Process Request).TimerList, 1 ≤ Value := by
      rcases TimerList_after_request Process Request with hSub | hSame | hNew
      · have hMap : (TimerNumbers (ApplyRequest Process Request).TimerList).Sublist
            (TimerNumbers Process.TimerList) := List.Sublist.map _ hSub
        exact ⟨List.Pairwise.sublist hMap hSorted,
          fun Value hValue => hPositive Value (hMap.subset hValue)⟩
      · unfold StrictlyIncreasing
        rw [hSame]
        exact ⟨hSorted, hPositive⟩
      · obtain ⟨Env, Parameters, NewTimer, hRequest, hOperation, hNumber, hList⟩ := hNew
        have hNumbers : TimerNumbers (ApplyRequest Process Request).TimerList
            = TimerNumbers Process.TimerList ++ [NewTimer.TimerNumber] := by
          rw [hList]; simp [TimerNumbers]
        unfold StrictlyIncreasing
        rw [hNumbers]
        cases hLast : Process.TimerList.getLast? with
        | none =>
          have hEmpty : Process.TimerList = [] := List.getLast?_eq_none_iff.mp hLast
          have hOne : NewTimer.TimerNumber = 1 := by
            rw [hNumber]; simp [NextTimerNumber, hLast]
          simp [hEmpty, TimerNumbers, hOne]
        | some PreviousTimer =>
          have hBelow := hHere Env Parameters hRequest hOperation PreviousTimer hLast
          have hLastNumber : (TimerNumbers Process.TimerList).getLast?
              = some PreviousTimer.TimerNumber := by
            simp [TimerNumbers, hLast]
          have hMem : PreviousTimer.TimerNumber ∈ TimerNumbers Process.TimerList :=
            List.mem_of_getLast?_eq_some hLastNumber
          have hOne := hPositive _ hMem
          have hNext : NewTimer.TimerNumber = PreviousTimer.TimerNumber + 1 := by
            rw [hNumber]
            simp only [NextTimerNumber, hLast]
            exact toLONG_add_one _ (by unfold LONG_MIN; omega) hBelow
          have hLe := le_last_of_increasing _ _ hSorted hLastNumber
          refine ⟨?_, ?_⟩
          · rw [List.pairwise_append]
            refine ⟨hSorted, by simp, ?_⟩
            intro Value hValue Other hOther
            simp at hOther
            have := hLe Value hValue
            omega
          · intro Value hValue
            rcases List.mem_append.mp hValue with hIn | hIn
            · exact hPositive Value hIn
            · simp at hIn
              omega
    exact ih (ApplyRequest Process Request) hStep.1 hStep.2 hRest

/-- C2 (amended): in every timer list reached from the empty list by a
sequence of timer control calls (create, delete, get, set or an unrecognized
operation) and process teardowns in which no create is issued while the last
record carries the largest `LONG`, timer numbers are strictly increasing along
list order, so they are unique within the process. -/
theorem timer_numbers_strictly_increasing (Process : KPROCESS) (Requests : List REQUEST)
    (hEmpty : Process.TimerList = []) (hNoWrap : NoWrapRun Process Requests) :
    StrictlyIncreasing (RunRequests Process Requests).TimerList ∧
    (TimerNumbers (RunRequests Process Requests).TimerList).Nodup := by
  have hInv := increasing_preserved Requests Process
    (by simp [StrictlyIncreasing, TimerNumbers, hEmpty])
    (by simp [TimerNumbers, hEmpty]) hNoWrap
  refine ⟨hInv.1, ?_⟩
  exact List.Pairwise.imp (fun h => ne_of_lt h) hInv.1


/-- C2, witness of the amended statement: two creates from the empty process
wrap nothing and leave the numbers 1 and 2 in increasing order. -/
theorem timer_numbers_strictly_increasing_witness :
    StrictlyIncreasing (RunRequests EmptyProcess
      [.Control (AllSucceed 0) (Request .TimerOperationCreateTimer 0),
       .Control (AllSucceed 0) (Request .TimerOperationCreateTimer 0)]).TimerList ∧
    (TimerNumbers (RunRequests EmptyProcess
      [.Control (AllSucceed 0) (Request .TimerOperationCreateTimer 0),
       .Control (AllSucceed 0) (Request .TimerOperationCreateTimer 0)]).TimerList).Nodup :=
  timer_numbers_strictly_increasing EmptyProcess
    [.Control (AllSucceed 0) (Request .TimerOperationCreateTimer 0),
     .Control (AllSucceed 0) (Request .TimerOperationCreateTimer 0)]
    rfl
    (by
      refine ⟨?_, ?_, trivial⟩
      · intro Env Parameters _ _ PreviousTimer hLast
        simp [EmptyProcess] at hLast
      · intro Env Parameters _ _ PreviousTimer hLast
        rw [ApplyRequest_control, create_numbered] at hLast
        have hEq : PreviousTimer = NumberedTimer 1 := by
          simpa [EmptyProcess, NextTimerNumber] using hLast.symm
        subst hEq
        show (1 : Int) < LONG_MAX
        unfold LONG_MAX
        norm_num)

/-- C2 (as stated) fails: a sequence of creates and deletes from the empty
process reaches a list whose numbers are the largest `LONG` followed by the
smallest one, which is not increasing. -/
theorem reached_list_not_increasing :
    ∃ Requests, (∀ Request ∈ Requests, IsCreateOrDelete Request) ∧
      TimerNumbers (RunRequests EmptyProcess Requests).TimerList = [LONG_MAX, LONG_MIN] ∧
      ¬ StrictlyIncreasing (RunRequests EmptyProcess Requests).TimerList := by
  obtain ⟨Requests, hKind, hRun⟩ := reach_single 2147483646
  have hNumber : toLONG (1 + ((2147483646 : Nat) : Int)) = LONG_MAX := by
    unfold toLONG LONG_MAX
    norm_num
  rw [hNumber] at hRun
  have hNext : NextTimerNumber [NumberedTimer LONG_MAX] = LONG_MIN := by
    simp only [NextTimerNumber, List.getLast?, List.getLast, NumberedTimer, NewProcessTimer]
    unfold toLONG LONG_MAX LONG_MIN
    norm_num
  have hNumbers : TimerNumbers (RunRequests EmptyProcess
      (Requests ++ [.Control (AllSucceed 0) (Request .TimerOperationCreateTimer 0)])).TimerList
      = [LONG_MAX, LONG_MIN] := by
    rw [RunRequests_append, hRun, RunRequests_single, ApplyRequest_control, create_numbered]
    simp only [List.singleton_append, hNext]
    rfl
  refine ⟨Requests ++ [.Control (AllSucceed 0) (Request .TimerOperationCreateTimer 0)],
    ?_, hNumbers, ?_⟩
  · intro Request hRequest
    rcases List.mem_append.mp hRequest with hIn | hIn
    · exact hKind Request hIn
    · simp at hIn
      subst hIn
      exact Or.inl rfl
  · unfold StrictlyIncreasing
    rw [hNumbers]
    unfold LONG_MAX LONG_MIN
    simp

/-- Deleting the second record of a list of freshly created records whose head
carries another number, in an environment where every call succeeds, destroys
it. -/
theorem delete_second_numbered (First Second : Int) (hDistinct : First ≠ Second)
    (Rest : List PROCESS_TIMER) (ReferenceCount : Nat) :
    (PsSysTimerControl (AllSucceed 0)
        { TimerList := NumberedTimer First :: NumberedTimer Second :: Rest,
          ReferenceCount := ReferenceCount }
        (Request .TimerOperationDeleteTimer Second)).Process =
      { TimerList := NumberedTimer First :: Rest, ReferenceCount := ReferenceCount - 1 } := by
  have hFound : FindTimer (NumberedTimer First :: NumberedTimer Second :: Rest) Second
      = some (1, NumberedTimer Second) := by
    simp [FindTimer, NumberedTimer, NewProcessTimer, hDistinct]
  rw [PsSysTimerControl_found (AllSucceed 0) _ _ 1 (NumberedTimer Second)
    (by simp [Request]) (by simpa [Request] using hFound)]
  simp [Request, TimerControlDelete, PspFlushProcessTimer, PspProcessTimerReleaseReference,
    NumberedTimer, NewProcessTimer, CreatedTimer, ZeroedTimer, KeCancelDpc, KeFlushDpc,
    KeFlushWorkQueue, AllSucceed, KeCancelTimer, PspCancelQueuedSignal]

/-- Create then delete of the second of two records: the list holds the head
and the new record. -/
theorem replace_second (First Second : Int) (hDistinct : First ≠ Second) :
    RunRequests
      { TimerList := [NumberedTimer First, NumberedTimer Second], ReferenceCount := 3 }
      [.Control (AllSucceed 0) (Request .TimerOperationCreateTimer 0),
       .Control (AllSucceed 0) (Request .TimerOperationDeleteTimer Second)] =
      { TimerList := [NumberedTimer First, NumberedTimer (toLONG (Second + 1))],
        ReferenceCount := 3 } := by
  rw [RunRequests_pair, ApplyRequest_control, ApplyRequest_control, create_numbered]
  simp only [List.singleton_append, List.cons_append, List.nil_append]
  rw [delete_second_numbered First Second hDistinct]
  have hNext : NextTimerNumber [NumberedTimer First, NumberedTimer Second]
      = toLONG (Second + 1) := by
    simp only [NextTimerNumber, List.getLast?, List.getLast, NumberedTimer, NewProcessTimer]
  rw [hNext]

/-- Behind the record numbered 5 every other `LONG` is reached as the number
of a second record. -/
theorem reach_pair (Count : Nat) (hCount : Count < 4294967295) :
    ∃ Requests, (∀ Request ∈ Requests, IsCreateOrDelete Request) ∧
      RunRequests EmptyProcess Requests =
      { TimerList := [NumberedTimer 5, NumberedTimer (toLONG (6 + Count))],
        ReferenceCount := 3 } := by
  induction Count with
  | zero =>
    obtain ⟨Requests, hKind, hRun⟩ := reach_single 4
    have hFive : toLONG (1 + ((4 : Nat) : Int)) = 5 := by
      unfold toLONG
      norm_num
    have hSix : toLONG (6 + ((0 : Nat) : Int)) = 6 := by
      unfold toLONG
      norm_num
    rw [hFive] at hRun
    refine ⟨Requests ++ [.Control (AllSucceed 0) (Request .TimerOperationCreateTimer 0)],
      ?_, ?_⟩
    · intro Request hRequest
      rcases List.mem_append.mp hRequest with hIn | hIn
      · exact hKind Request hIn
      · simp at hIn
        subst hIn
        exact Or.inl rfl
    · rw [RunRequests_append, hRun, RunRequests_single, ApplyRequest_control, create_numbered,
        hSix]
      have hNext : NextTimerNumber [NumberedTimer 5] = 6 := by
        simp only [NextTimerNumber, List.getLast?, List.getLast, NumberedTimer,
          NewProcessTimer]
        unfold toLONG
        norm_num
      simp only [hNext, List.singleton_append]
  | succ Count ih =>
    obtain ⟨Requests, hKind, hRun⟩ := ih (by omega)
    have hDistinct : (5 : Int) ≠ toLONG (6 + (Count : Int)) := by
      unfold toLONG
      omega
    refine ⟨Requests ++
      [.Control (AllSucceed 0) (Request .TimerOperationCreateTimer 0),
       .Control (AllSucceed 0) (Request .TimerOperationDeleteTimer (toLONG (6 + Count)))],
      ?_, ?_⟩
    · intro Request hRequest
      rcases List.mem_append.mp hRequest with hIn | hIn
      · exact hKind Request hIn
      · simp at hIn
        rcases hIn with rfl | rfl
        · exact Or.inl rfl
        · exact Or.inr rfl
    · rw [RunRequests_append, hRun, replace_second 5 _ hDistinct]
      have hNumber : toLONG (toLONG (6 + (Count : Int)) + 1)
          = toLONG (6 + ((Count + 1 : Nat) : Int)) := by
        unfold toLONG
        push_cast
        omega
      rw [hNumber]

/-- C3 (amended): for every timer list none of whose records carries the
number k, a successful create that returns k followed by a delete of k
succeeds and leaves the list as it was before the create, the same records in
the same order. -/
theorem create_then_delete_restores_list (CreateEnv DeleteEnv : ENVIRONMENT)
    (Process : KPROCESS) (CreateParameters DeleteParameters : SYSTEM_CALL_TIMER_CONTROL)
    (hCreate : CreateParameters.Operation = .TimerOperationCreateTimer)
    (hStatus : (PsSysTimerControl CreateEnv Process CreateParameters).Parameters.Status
      = .STATUS_SUCCESS)
    (hDelete : DeleteParameters.Operation = .TimerOperationDeleteTimer)
    (hNumber : DeleteParameters.TimerNumber
      = (PsSysTimerControl CreateEnv Process CreateParameters).Parameters.TimerNumber)
    (hFresh : ∀ Timer ∈ Process.TimerList, Timer.TimerNumber
      ≠ (PsSysTimerControl CreateEnv Process CreateParameters).Parameters.TimerNumber) :
    (PsSysTimerControl DeleteEnv
        (PsSysTimerControl CreateEnv Process CreateParameters).Process
        DeleteParameters).Parameters.Status = .STATUS_SUCCESS ∧
    (PsSysTimerControl DeleteEnv
        (PsSysTimerControl CreateEnv Process CreateParameters).Process
        DeleteParameters).Process.TimerList = Process.TimerList := by
  have hCase := PsSysTimerControl_create_eq CreateEnv Process CreateParameters hCreate
  rw [hCase] at hStatus hNumber hFresh ⊢
  have hResult := TimerControlCreate_success CreateEnv Process CreateParameters hStatus
  rw [hResult] at hNumber hFresh ⊢
  simp only at hNumber hFresh ⊢
  have hFound := FindTimer_append_fresh Process.TimerList
    (NewProcessTimer CreateParameters (NextTimerNumber Process.TimerList) CreatedTimer)
    (by simpa [NewProcessTimer] using hFresh)
  have hFound' : FindTimer
      (Process.TimerList ++
        [NewProcessTimer CreateParameters (NextTimerNumber Process.TimerList) CreatedTimer])
      DeleteParameters.TimerNumber = some (Process.TimerList.length,
        NewProcessTimer CreateParameters (NextTimerNumber Process.TimerList) CreatedTimer) := by
    rw [hNumber]
    simpa [NewProcessTimer] using hFound
  rw [PsSysTimerControl_found DeleteEnv _ DeleteParameters _ _ (by simp [hDelete]) hFound']
  simp [hDelete, TimerControlDelete, List.eraseIdx_append_of_length_le]


/-- C3, witness of the amended statement: on the list that holds the single
record numbered 3 a create returns 4, and deleting 4 restores the list. -/
theorem create_then_delete_restores_list_witness :
    (PsSysTimerControl (AllSucceed 0)
        (PsSysTimerControl (AllSucceed 0)
          { TimerList := [NumberedTimer 3], ReferenceCount := 2 }
          (Request .TimerOperationCreateTimer 0)).Process
        (Request .TimerOperationDeleteTimer 4)).Parameters.Status = .STATUS_SUCCESS ∧
    (PsSysTimerControl (AllSucceed 0)
        (PsSysTimerControl (AllSucceed 0)
          { TimerList := [NumberedTimer 3], ReferenceCount := 2 }
          (Request .TimerOperationCreateTimer 0)).Process
        (Request .TimerOperationDeleteTimer 4)).Process.TimerList = [NumberedTimer 3] :=
  create_then_delete_restores_list (AllSucceed 0) (AllSucceed 0)
    { TimerList := [NumberedTimer 3], ReferenceCount := 2 }
    (Request .TimerOperationCreateTimer 0) (Request .TimerOperationDeleteTimer 4)
    rfl (by decide) rfl (by decide) (by decide)

/-- C3 (as stated) fails: the list with the records numbered 5 and 4, in that
order, is reached from the empty process; a create on it succeeds and returns
5, the delete of 5 that follows succeeds and unlinks the older record numbered
5, and the list is left with the numbers 4 and 5, not as it was. -/
theorem create_then_delete_changes_list :
    (∃ Requests, (∀ Request ∈ Requests, IsCreateOrDelete Request) ∧
      RunRequests EmptyProcess Requests =
      { TimerList := [NumberedTimer 5, NumberedTimer 4], ReferenceCount := 3 }) ∧
    (PsSysTimerControl (AllSucceed 0)
        { TimerList := [NumberedTimer 5, NumberedTimer 4], ReferenceCount := 3 }
        (Request .TimerOperationCreateTimer 0)).Parameters.Status = .STATUS_SUCCESS ∧
    (PsSysTimerControl (AllSucceed 0)
        { TimerList := [NumberedTimer 5, NumberedTimer 4], ReferenceCount := 3 }
        (Request .TimerOperationCreateTimer 0)).Parameters.TimerNumber = 5 ∧
    (PsSysTimerControl (AllSucceed 0)
        (PsSysTimerControl (AllSucceed 0)
          { TimerList := [NumberedTimer 5, NumberedTimer 4], ReferenceCount := 3 }
          (Request .TimerOperationCreateTimer 0)).Process
        (Request .TimerOperationDeleteTimer 5)).Parameters.Status = .STATUS_SUCCESS ∧
    TimerNumbers (PsSysTimerControl (AllSucceed 0)
        (PsSysTimerControl (AllSucceed 0)
          { TimerList := [NumberedTimer 5, NumberedTimer 4], ReferenceCount := 3 }
          (Request .TimerOperationCreateTimer 0)).Process
        (Request .TimerOperationDeleteTimer 5)).Process.TimerList = [4, 5] ∧
    (PsSysTimerControl (AllSucceed 0)
        (PsSysTimerControl (AllSucceed 0)
          { TimerList := [NumberedTimer 5, NumberedTimer 4], ReferenceCount := 3 }
          (Request .TimerOperationCreateTimer 0)).Process
        (Request .TimerOperationDeleteTimer 5)).Process.TimerList
      ≠ [NumberedTimer 5, NumberedTimer 4] := by
  refine ⟨?_, by decide, by decide, by decide, by decide, by decide⟩
  obtain ⟨Requests, hKind, hRun⟩ := reach_pair 4294967294 (by omega)
  have hNumber : toLONG (6 + ((4294967294 : Nat) : Int)) = 4 := by
    unfold toLONG
    norm_num
  rw [hNumber] at hRun
  exact ⟨Requests, hKind, hRun⟩


/-! ## C4: a number that is not in the list -/

/-- The set case returns success or the failure status of the scheduler. -/
theorem SetProcessTimer_status (Env : ENVIRONMENT) (New : TIMER_INFORMATION)
    (Timer : PROCESS_TIMER) :
    (SetProcessTimer Env New Timer).Status = .STATUS_SUCCESS ∨
    ∃ Code, Env.QueueTimerRejection = some Code ∧
      (New.DueTime ≠ 0 ∨ New.Period ≠ 0) ∧
      (SetProcessTimer Env New Timer).Status = .STATUS_SCHEDULER_FAILURE Code := by
  unfold SetProcessTimer
  simp only
  by_cases hArm : New.DueTime ≠ 0 ∨ New.Period ≠ 0
  · cases hReject : Env.QueueTimerRejection with
    | none => left; simp [hArm, KeQueueTimer, hReject]
    | some Code => right; exact ⟨Code, rfl, hArm, by simp [hArm, KeQueueTimer, hReject]⟩
  · left
    simp [hArm]

/-- C4: for a delete, get or set request, timer control returns
`STATUS_INVALID_HANDLE` exactly when no record of the list carries the
requested number; then the process with its list and every record, and the
parameter block but for the status, are unchanged, nothing is unlinked, and
the only calls made take and drop the process lock, so no timer is cancelled
or armed.  When a record carries the number, the request is served by the
case of the operation on the first such record in list order. -/
theorem invalid_handle_iff_number_absent (Env : ENVIRONMENT) (Process : KPROCESS)
    (Parameters : SYSTEM_CALL_TIMER_CONTROL)
    (hOperation : Parameters.Operation = .TimerOperationDeleteTimer ∨
      Parameters.Operation = .TimerOperationGetTimer ∨
      Parameters.Operation = .TimerOperationSetTimer) :
    ((PsSysTimerControl Env Process Parameters).Parameters.Status = .STATUS_INVALID_HANDLE ↔
      ∀ Timer ∈ Process.TimerList, Timer.TimerNumber ≠ Parameters.TimerNumber) ∧
    ((∀ Timer ∈ Process.TimerList, Timer.TimerNumber ≠ Parameters.TimerNumber) →
      (PsSysTimerControl Env Process Parameters).Process = Process ∧
      (PsSysTimerControl Env Process Parameters).Parameters
        = { Parameters with Status := .STATUS_INVALID_HANDLE } ∧
      (PsSysTimerControl Env Process Parameters).Parameters.TimerInformation
        = Parameters.TimerInformation ∧
      (PsSysTimerControl Env Process Parameters).Unlinked = none ∧
      (PsSysTimerControl Env Process Parameters).Calls
        = [.KeAcquireQueuedLock, .KeReleaseQueuedLock]) ∧
    ((∃ Timer ∈ Process.TimerList, Timer.TimerNumber = Parameters.TimerNumber) →
      ∃ Index First,
        Process.TimerList[Index]? = some First ∧
        First.TimerNumber = Parameters.TimerNumber ∧
        (∀ Earlier Other, Earlier < Index → Process.TimerList[Earlier]? = some Other →
          Other.TimerNumber ≠ Parameters.TimerNumber) ∧
        (Parameters.Operation = .TimerOperationDeleteTimer →
          PsSysTimerControl Env Process Parameters
            = TimerControlDelete Env Process Parameters Index First) ∧
        (Parameters.Operation = .TimerOperationGetTimer →
          PsSysTimerControl Env Process Parameters
            = TimerControlGet Process Parameters First) ∧
        (Parameters.Operation = .TimerOperationSetTimer →
          PsSysTimerControl Env Process Parameters
            = TimerControlSet Env Process Parameters Index First)) := by
  have hNotCreate : Parameters.Operation ≠ .TimerOperationCreateTimer := by
    rcases hOperation with h | h | h <;> simp [h]
  cases hFind : FindTimer Process.TimerList Parameters.TimerNumber with
  | none =>
    have hAbsent := (FindTimer_none _ _).mp hFind
    have hResult := PsSysTimerControl_missed Env Process Parameters hNotCreate hFind
    refine ⟨?_, ?_, ?_⟩
    · rw [hResult]
      exact ⟨fun _ => hAbsent, fun _ => rfl⟩
    · intro _
      rw [hResult]
      exact ⟨rfl, rfl, rfl, rfl, rfl⟩
    · rintro ⟨Timer, hIn, hNumber⟩
      exact absurd hNumber (hAbsent Timer hIn)
  | some Found =>
    obtain ⟨Index, First⟩ := Found
    have hFirst := FindTimer_some _ _ _ _ hFind
    have hResult := PsSysTimerControl_found Env Process Parameters Index First hNotCreate hFind
    have hIn : First ∈ Process.TimerList := List.getElem?_mem hFirst.1
    have hPresent : ¬ ∀ Timer ∈ Process.TimerList, Timer.TimerNumber ≠ Parameters.TimerNumber :=
      fun hAll => hAll First hIn hFirst.2.1
    have hStatus : (PsSysTimerControl Env Process Parameters).Parameters.Status
        ≠ .STATUS_INVALID_HANDLE := by
      rw [hResult]
      rcases hOperation with h | h | h
      · simp [h, TimerControlDelete]
      · simp [h, TimerControlGet]
      · simp only [h, TimerControlSet]
        rcases SetProcessTimer_status Env Parameters.TimerInformation First with hOk | hFail
        · simp [hOk, KSUCCESS]
        · obtain ⟨Code, _, _, hCode⟩ := hFail
          simp [hCode, KSUCCESS]
    refine ⟨⟨fun h => absurd h hStatus, fun h => absurd h hPresent⟩,
      fun h => absurd h hPresent, ?_⟩
    intro _
    refine ⟨Index, First, hFirst.1, hFirst.2.1, hFirst.2.2, ?_, ?_, ?_⟩
    · intro h; rw [hResult]; simp [h]
    · intro h; rw [hResult]; simp [h]
    · intro h; rw [hResult]; simp [h]

/-- C4, witness: a get of the number 7 on the list that holds the single
record numbered 1 returns `STATUS_INVALID_HANDLE` because no record carries
7. -/
theorem invalid_handle_iff_number_absent_witness :
    (PsSysTimerControl (AllSucceed 0)
        { TimerList := [NumberedTimer 1], ReferenceCount := 2 }
        (Request .TimerOperationGetTimer 7)).Parameters.Status = .STATUS_INVALID_HANDLE ↔
      ∀ Timer ∈ [NumberedTimer 1], Timer.TimerNumber ≠ (7 : Int) :=
  (invalid_handle_iff_number_absent (AllSucceed 0)
    { TimerList := [NumberedTimer 1], ReferenceCount := 2 }
    (Request .TimerOperationGetTimer 7) (Or.inr (Or.inl rfl))).1

/-! ## The set case on the record it found -/

/-- The lookup loop returns the first record that carries the number. -/
theorem FindTimer_of_first (TimerList : List PROCESS_TIMER) (TimerNumber : Int) (Index : Nat)
    (First : PROCESS_TIMER) (h : IsFirstWithNumber TimerList TimerNumber Index First) :
    FindTimer TimerList TimerNumber = some (Index, First) := by
  induction TimerList generalizing Index with
  | nil =>
    obtain ⟨hAt, _, _⟩ := h
    simp at hAt
  | cons Current Rest ih =>
    obtain ⟨hAt, hNumber, hEarlier⟩ := h
    cases Index with
    | zero =>
      simp at hAt
      subst hAt
      simp [FindTimer, hNumber]
    | succ Before =>
      have hHead : Current.TimerNumber ≠ TimerNumber :=
        hEarlier 0 Current (by omega) (by simp)
      have hRest : IsFirstWithNumber Rest TimerNumber Before First := by
        refine ⟨by simpa using hAt, hNumber, ?_⟩
        intro Earlier Other hLt hGet
        exact hEarlier (Earlier + 1) Other (by omega) (by simpa using hGet)
      simp [FindTimer, hHead, ih Before hRest]

/-- Replacing the first record that carries a number by a record with the
same number keeps it the first one. -/
theorem IsFirstWithNumber_set (TimerList : List PROCESS_TIMER) (TimerNumber : Int)
    (Index : Nat) (First After : PROCESS_TIMER)
    (h : IsFirstWithNumber TimerList TimerNumber Index First)
    (hNumber : After.TimerNumber = TimerNumber) :
    IsFirstWithNumber (TimerList.set Index After) TimerNumber Index After := by
  obtain ⟨hAt, _, hEarlier⟩ := h
  have hLength : Index < TimerList.length := (List.getElem?_eq_some_iff.mp hAt).1
  refine ⟨by simp [List.getElem?_set, hLength], hNumber, ?_⟩
  intro Earlier Other hLt hGet
  have hNe : Index ≠ Earlier := by omega
  rw [List.getElem?_set] at hGet
  simp [hNe] at hGet
  exact hEarlier Earlier Other hLt hGet

/-- The record the set case leaves when it queues the kernel timer and the
scheduler accepts. -/
theorem SetProcessTimer_armed (Env : ENVIRONMENT) (New : TIMER_INFORMATION)
    (Timer : PROCESS_TIMER) (hArm : New.DueTime ≠ 0 ∨ New.Period ≠ 0)
    (hAccept : Env.QueueTimerRejection = none) :
    SetProcessTimer Env New Timer =
      { Timer :=
          { Timer with
            DueTime := StoredDueTime Env New, Interval := New.Period,
            Timer := { Queue := some { QueueType := .TimerQueueSoftWake,
                                       DueTime := StoredDueTime Env New,
                                       Period := New.Period, Flags := 0, HasDpc := true } } },
        Status := .STATUS_SUCCESS,
        OriginalInformation :=
          { DueTime := KeGetTimerDueTime Timer.Timer, Period := Timer.Interval,
            OverflowCount := 0 },
        Calls := [.KeGetTimerDueTime] ++ (if Timer.DueTime ≠ 0 then [.KeCancelTimer] else []) ++
          (if New.DueTime = 0 then [.HlQueryTimeCounter] else []) ++
          [.KeQueueTimer .TimerQueueSoftWake (StoredDueTime Env New) New.Period 0 true true] } := by
  unfold SetProcessTimer StoredDueTime
  by_cases hDue : New.DueTime = 0
  · have hPeriod : New.Period ≠ 0 := by
      rcases hArm with h | h
      · exact absurd hDue h
      · exact h
    by_cases hOld : Timer.DueTime = 0 <;>
      simp [hDue, hPeriod, hOld, KeQueueTimer, hAccept, KSUCCESS, KeCancelTimer]
  · by_cases hOld : Timer.DueTime = 0 <;>
      simp [hDue, hOld, KeQueueTimer, hAccept, KSUCCESS, KeCancelTimer]

/-- The record the set case leaves when the scheduler rejects the kernel
timer. -/
theorem SetProcessTimer_rejected (Env : ENVIRONMENT) (New : TIMER_INFORMATION)
    (Timer : PROCESS_TIMER) (hArm : New.DueTime ≠ 0 ∨ New.Period ≠ 0) (Code : Nat)
    (hReject : Env.QueueTimerRejection = some Code) :
    SetProcessTimer Env New Timer =
      { Timer :=
          { Timer with
            DueTime := StoredDueTime Env New, Interval := New.Period,
            Timer := if Timer.DueTime ≠ 0 then { Queue := none } else Timer.Timer },
        Status := .STATUS_SCHEDULER_FAILURE Code,
        OriginalInformation :=
          { DueTime := KeGetTimerDueTime Timer.Timer, Period := Timer.Interval,
            OverflowCount := 0 },
        Calls := [.KeGetTimerDueTime] ++ (if Timer.DueTime ≠ 0 then [.KeCancelTimer] else []) ++
          (if New.DueTime = 0 then [.HlQueryTimeCounter] else []) ++
          [.KeQueueTimer .TimerQueueSoftWake (StoredDueTime Env New) New.Period 0 true
            false] } := by
  unfold SetProcessTimer StoredDueTime
  by_cases hDue : New.DueTime = 0
  · have hPeriod : New.Period ≠ 0 := by
      rcases hArm with h | h
      · exact absurd hDue h
      · exact h
    by_cases hOld : Timer.DueTime = 0 <;>
      simp [hDue, hPeriod, hOld, KeQueueTimer, hReject, KSUCCESS, KeCancelTimer]
  · by_cases hOld : Timer.DueTime = 0 <;>
      simp [hDue, hOld, KeQueueTimer, hReject, KSUCCESS, KeCancelTimer]

/-- The record the set case leaves when the new due time and period are both
0: nothing is queued. -/
theorem SetProcessTimer_disarmed (Env : ENVIRONMENT) (New : TIMER_INFORMATION)
    (Timer : PROCESS_TIMER) (hDue : New.DueTime = 0) (hPeriod : New.Period = 0) :
    SetProcessTimer Env New Timer =
      { Timer :=
          { Timer with
            DueTime := 0, Interval := 0,
            Timer := if Timer.DueTime ≠ 0 then { Queue := none } else Timer.Timer },
        Status := .STATUS_SUCCESS,
        OriginalInformation :=
          { DueTime := KeGetTimerDueTime Timer.Timer, Period := Timer.Interval,
            OverflowCount := 0 },
        Calls := [.KeGetTimerDueTime] ++
          (if Timer.DueTime ≠ 0 then [.KeCancelTimer] else []) } := by
  unfold SetProcessTimer
  by_cases hOld : Timer.DueTime = 0 <;> simp [hDue, hPeriod, hOld, KeCancelTimer]

/-- A set request on a list where `First` at `Index` is the first record with
the requested number is the set case on that record. -/
theorem PsSysTimerControl_set (Env : ENVIRONMENT) (Process : KPROCESS)
    (Parameters : SYSTEM_CALL_TIMER_CONTROL) (Index : Nat) (First : PROCESS_TIMER)
    (hOperation : Parameters.Operation = .TimerOperationSetTimer)
    (hFirst : IsFirstWithNumber Process.TimerList Parameters.TimerNumber Index First) :
    PsSysTimerControl Env Process Parameters
      = TimerControlSet Env Process Parameters Index First := by
  rw [PsSysTimerControl_found Env Process Parameters Index First (by simp [hOperation])
    (FindTimer_of_first _ _ _ _ hFirst)]
  simp [hOperation]

/-- A get request on a list where `First` is the first record with the
requested number is the get case on that record. -/
theorem PsSysTimerControl_get (Env : ENVIRONMENT) (Process : KPROCESS)
    (Parameters : SYSTEM_CALL_TIMER_CONTROL) (Index : Nat) (First : PROCESS_TIMER)
    (hOperation : Parameters.Operation = .TimerOperationGetTimer)
    (hFirst : IsFirstWithNumber Process.TimerList Parameters.TimerNumber Index First) :
    PsSysTimerControl Env Process Parameters = TimerControlGet Process Parameters First := by
  rw [PsSysTimerControl_found Env Process Parameters Index First (by simp [hOperation])
    (FindTimer_of_first _ _ _ _ hFirst)]
  simp [hOperation]

/-! ## C8: what a successful set does -/

/-- C7 (amended): after a successful set of a record with the value v, a get
of the same record with no expiry in between succeeds and returns the period
of v and, as due time, the due time of v, or the value of the time counter
read by the set when the due time of v is 0 and its period is not.  When both
are 0 this needs the record to be consistent before the set: its backing timer
is not queued when its due time is 0. -/
theorem set_then_get_returns_stored (SetEnv GetEnv : ENVIRONMENT) (Process : KPROCESS)
    (SetParameters GetParameters : SYSTEM_CALL_TIMER_CONTROL) (Index : Nat)
    (First : PROCESS_TIMER)
    (hSet : SetParameters.Operation = .TimerOperationSetTimer)
    (hGet : GetParameters.Operation = .TimerOperationGetTimer)
    (hNumber : GetParameters.TimerNumber = SetParameters.TimerNumber)
    (hFirst : IsFirstWithNumber Process.TimerList SetParameters.TimerNumber Index First)
    (hStatus : (PsSysTimerControl SetEnv Process SetParameters).Parameters.Status
      = .STATUS_SUCCESS)
    (hConsistent : SetParameters.TimerInformation.DueTime = 0 →
      SetParameters.TimerInformation.Period = 0 → TimerConsistent First) :
    (PsSysTimerControl GetEnv (PsSysTimerControl SetEnv Process SetParameters).Process
        GetParameters).Parameters.Status = .STATUS_SUCCESS ∧
    (PsSysTimerControl GetEnv (PsSysTimerControl SetEnv Process SetParameters).Process
        GetParameters).Parameters.TimerInformation.Period
      = SetParameters.TimerInformation.Period ∧
    (PsSysTimerControl GetEnv (PsSysTimerControl SetEnv Process SetParameters).Process
        GetParameters).Parameters.TimerInformation.DueTime
      = StoredDueTime SetEnv SetParameters.TimerInformation := by
  rw [PsSysTimerControl_set SetEnv Process SetParameters Index First hSet hFirst] at hStatus ⊢
  have hKeeps := SetProcessTimer_keeps SetEnv SetParameters.TimerInformation First
  have hAfter : IsFirstWithNumber
      (TimerControlSet SetEnv Process SetParameters Index First).Process.TimerList
      GetParameters.TimerNumber Index
      (SetProcessTimer SetEnv SetParameters.TimerInformation First).Timer := by
    rw [hNumber]
    exact IsFirstWithNumber_set _ _ _ _ _ hFirst (by rw [hKeeps.1]; exact hFirst.2.1)
  rw [PsSysTimerControl_get GetEnv _ GetParameters Index _ hGet hAfter]
  unfold TimerControlSet at hStatus
  by_cases hArm :
      SetParameters.TimerInformation.DueTime ≠ 0 ∨ SetParameters.TimerInformation.Period ≠ 0
  · cases hReject : SetEnv.QueueTimerRejection with
    | some Code =>
      exfalso
      rw [SetProcessTimer_rejected SetEnv SetParameters.TimerInformation First hArm Code
        hReject] at hStatus
      simp [KSUCCESS] at hStatus
    | none =>
      rw [SetProcessTimer_armed SetEnv SetParameters.TimerInformation First hArm hReject]
      simp [TimerControlGet, KeGetTimerDueTime]
  · have hDue : SetParameters.TimerInformation.DueTime = 0 := by
      by_contra h; exact hArm (Or.inl h)
    have hPeriod : SetParameters.TimerInformation.Period = 0 := by
      by_contra h; exact hArm (Or.inr h)
    rw [SetProcessTimer_disarmed SetEnv SetParameters.TimerInformation First hDue hPeriod]
    have hQueue := hConsistent hDue hPeriod
    unfold TimerConsistent at hQueue
    by_cases hOld : First.DueTime = 0
    · simp [TimerControlGet, KeGetTimerDueTime, hOld, hQueue hOld, hPeriod, StoredDueTime, hDue]
    · simp [TimerControlGet, KeGetTimerDueTime, hOld, hPeriod, StoredDueTime, hDue]

/-- C7, witness of the amended statement: after a set to due time 0 and period
5 at time counter 100, a get returns period 5 and due time 100. -/
theorem set_then_get_returns_stored_witness :
    (PsSysTimerControl (AllSucceed 200)
        (PsSysTimerControl (AllSucceed 100)
          { TimerList := [NumberedTimer 1], ReferenceCount := 2 } (SetRequest 1 0 5)).Process
        (Request .TimerOperationGetTimer 1)).Parameters.Status = .STATUS_SUCCESS ∧
    (PsSysTimerControl (AllSucceed 200)
        (PsSysTimerControl (AllSucceed 100)
          { TimerList := [NumberedTimer 1], ReferenceCount := 2 } (SetRequest 1 0 5)).Process
        (Request .TimerOperationGetTimer 1)).Parameters.TimerInformation.Period
      = (SetRequest 1 0 5).TimerInformation.Period ∧
    (PsSysTimerControl (AllSucceed 200)
        (PsSysTimerControl (AllSucceed 100)
          { TimerList := [NumberedTimer 1], ReferenceCount := 2 } (SetRequest 1 0 5)).Process
        (Request .TimerOperationGetTimer 1)).Parameters.TimerInformation.DueTime
      = StoredDueTime (AllSucceed 100) (SetRequest 1 0 5).TimerInformation :=
  set_then_get_returns_stored (AllSucceed 100) (AllSucceed 200)
    { TimerList := [NumberedTimer 1], ReferenceCount := 2 }
    (SetRequest 1 0 5) (Request .TimerOperationGetTimer 1) 0 (NumberedTimer 1)
    rfl rfl rfl ⟨rfl, rfl, fun _ _ hLess _ => absurd hLess (Nat.not_lt_zero _)⟩
    (by decide) (fun _ hPeriod => absurd hPeriod (by decide))

/-- C7 (as stated) fails: a set to due time 0 and period 5, issued when the
time counter reads 100, succeeds on the freshly created record numbered 1, and
the get that follows returns due time 100, not the due time 0 of the value
that was set. -/
theorem set_then_get_returns_time_counter :
    (PsSysTimerControl (AllSucceed 100)
        { TimerList := [NumberedTimer 1], ReferenceCount := 2 }
        (SetRequest 1 0 5)).Parameters.Status = .STATUS_SUCCESS ∧
    (PsSysTimerControl (AllSucceed 100)
        (PsSysTimerControl (AllSucceed 100)
          { TimerList := [NumberedTimer 1], ReferenceCount := 2 } (SetRequest 1 0 5)).Process
        (Request .TimerOperationGetTimer 1)).Parameters.Status = .STATUS_SUCCESS ∧
    (PsSysTimerControl (AllSucceed 100)
        (PsSysTimerControl (AllSucceed 100)
          { TimerList := [NumberedTimer 1], ReferenceCount := 2 } (SetRequest 1 0 5)).Process
        (Request .TimerOperationGetTimer 1)).Parameters.TimerInformation
      = { DueTime := 100, Period := 5, OverflowCount := 0 } ∧
    (PsSysTimerControl (AllSucceed 100)
        (PsSysTimerControl (AllSucceed 100)
          { TimerList := [NumberedTimer 1], ReferenceCount := 2 } (SetRequest 1 0 5)).Process
        (Request .TimerOperationGetTimer 1)).Parameters.TimerInformation.DueTime
      ≠ (SetRequest 1 0 5).TimerInformation.DueTime := by
  decide

/-! ## C9: a set the scheduler rejects -/

/-- C9 (amended): when a set on the first record that carries the requested
number has the scheduler reject the kernel timer, timer control returns the
failure status of the scheduler and leaves the information of the parameter
block alone; the record stays in the list, at its position, with its number
and reference count unchanged; its interval holds the requested period and its
due time the requested due time, or the current time counter when the requested
due time is 0; they are not rolled back.  Its backing timer is left as the
cancel at the start of the set left it, so it is not queued when the record was
consistent before the call. -/
theorem set_rejected_keeps_written_values (Env : ENVIRONMENT) (Process : KPROCESS)
    (Parameters : SYSTEM_CALL_TIMER_CONTROL) (Index : Nat) (First : PROCESS_TIMER)
    (Code : Nat)
    (hOperation : Parameters.Operation = .TimerOperationSetTimer)
    (hFirst : IsFirstWithNumber Process.TimerList Parameters.TimerNumber Index First)
    (hArm : Parameters.TimerInformation.DueTime ≠ 0 ∨ Parameters.TimerInformation.Period ≠ 0)
    (hReject : Env.QueueTimerRejection = some Code) :
    (PsSysTimerControl Env Process Parameters).Parameters.Status
      = .STATUS_SCHEDULER_FAILURE Code ∧
    (PsSysTimerControl Env Process Parameters).Parameters.TimerInformation
      = Parameters.TimerInformation ∧
    (PsSysTimerControl Env Process Parameters).Unlinked = none ∧
    ∃ After : PROCESS_TIMER,
      (PsSysTimerControl Env Process Parameters).Process.TimerList
        = Process.TimerList.set Index After ∧
      (PsSysTimerControl Env Process Parameters).Process.TimerList[Index]? = some After ∧
      After.TimerNumber = First.TimerNumber ∧
      After.ReferenceCount = First.ReferenceCount ∧
      After.Interval = Parameters.TimerInformation.Period ∧
      After.DueTime = StoredDueTime Env Parameters.TimerInformation ∧
      After.Timer = (if First.DueTime ≠ 0 then { Queue := none } else First.Timer) ∧
      (TimerConsistent First → After.Timer.Queue = none) := by
  rw [PsSysTimerControl_set Env Process Parameters Index First hOperation hFirst]
  have hLength : Index < Process.TimerList.length :=
    (List.getElem?_eq_some_iff.mp hFirst.1).1
  unfold TimerControlSet
  rw [SetProcessTimer_rejected Env Parameters.TimerInformation First hArm Code hReject]
  refine ⟨by simp [KSUCCESS], by simp [KSUCCESS], rfl, _, rfl, ?_, rfl, rfl, rfl, rfl, rfl, ?_⟩
  · simp [List.getElem?_set, hLength]
  · intro hConsistent
    unfold TimerConsistent at hConsistent
    by_cases hOld : First.DueTime = 0
    · simp [hOld, hConsistent hOld]
    · simp [hOld]

/-- C9, witness of the amended statement: a set to due time 0 and period 5 that
the scheduler rejects with code 7 returns that failure status. -/
theorem set_rejected_keeps_written_values_witness :
    (PsSysTimerControl (Rejecting 100 7)
        { TimerList := [NumberedTimer 1], ReferenceCount := 2 }
        (SetRequest 1 0 5)).Parameters.Status = .STATUS_SCHEDULER_FAILURE 7 :=
  (set_rejected_keeps_written_values (Rejecting 100 7)
    { TimerList := [NumberedTimer 1], ReferenceCount := 2 }
    (SetRequest 1 0 5) 0 (NumberedTimer 1) 7 rfl
    ⟨rfl, rfl, fun _ _ hLess _ => absurd hLess (Nat.not_lt_zero _)⟩
    (Or.inr (by decide)) rfl).1

/-- C9 (as stated) fails: a set to due time 0 and period 5 of the freshly
created record numbered 1, rejected by the scheduler when the time counter
reads 100, returns the failure status and leaves the record with due time 100,
which is not the requested due time 0. -/
theorem set_rejected_stores_time_counter :
    (PsSysTimerControl (Rejecting 100 7)
        { TimerList := [NumberedTimer 1], ReferenceCount := 2 }
        (SetRequest 1 0 5)).Parameters.Status = .STATUS_SCHEDULER_FAILURE 7 ∧
    (PsSysTimerControl (Rejecting 100 7)
        { TimerList := [NumberedTimer 1], ReferenceCount := 2 }
        (SetRequest 1 0 5)).Process.TimerList
      = [{ NumberedTimer 1 with DueTime := 100, Interval := 5 }] ∧
    ({ NumberedTimer 1 with DueTime := 100, Interval := 5 } : PROCESS_TIMER).DueTime
      ≠ (SetRequest 1 0 5).TimerInformation.DueTime := by
  decide

/-! ## C10: failure and success of create -/

/-- C10: a create fails, with `STATUS_INSUFFICIENT_RESOURCES`, exactly when the
allocation of the record or the creation of its kernel timer, DPC or work item
fails.  On failure the process, with its timer list and its reference count,
is unchanged, no reference is taken on the process, and the calls made destroy
every backing object that had been created and free the record when it had
been allocated.  On success the record appended to the list has reference
count 1, expiration count 0, overflow count 0, due time 0 and interval 0. -/
theorem create_fails_iff_resource_fails (Env : ENVIRONMENT) (Process : KPROCESS)
    (Parameters : SYSTEM_CALL_TIMER_CONTROL)
    (hOperation : Parameters.Operation = .TimerOperationCreateTimer) :
    ((PsSysTimerControl Env Process Parameters).Parameters.Status
        = .STATUS_INSUFFICIENT_RESOURCES ↔
      (Env.AllocateSucceeds = false ∨ Env.CreateTimerSucceeds = false ∨
       Env.CreateDpcSucceeds = false ∨ Env.CreateWorkItemSucceeds = false)) ∧
    ((PsSysTimerControl Env Process Parameters).Parameters.Status
        = .STATUS_INSUFFICIENT_RESOURCES ∨
      (PsSysTimerControl Env Process Parameters).Parameters.Status = .STATUS_SUCCESS) ∧
    ((PsSysTimerControl Env Process Parameters).Parameters.Status
        = .STATUS_INSUFFICIENT_RESOURCES →
      (PsSysTimerControl Env Process Parameters).Process = Process ∧
      KCALL.ObAddReference ∉ (PsSysTimerControl Env Process Parameters).Calls ∧
      (PsSysTimerControl Env Process Parameters).Calls.count .MmFreeNonPagedPool
        = (PsSysTimerControl Env Process Parameters).Calls.count
            (.MmAllocateNonPagedPool true) ∧
      (PsSysTimerControl Env Process Parameters).Calls.count .KeDestroyTimer
        = (PsSysTimerControl Env Process Parameters).Calls.count (.KeCreateTimer true) ∧
      (PsSysTimerControl Env Process Parameters).Calls.count .KeDestroyDpc
        = (PsSysTimerControl Env Process Parameters).Calls.count (.KeCreateDpc true) ∧
      (PsSysTimerControl Env Process Parameters).Calls.count .KeDestroyWorkItem
        = (PsSysTimerControl Env Process Parameters).Calls.count (.KeCreateWorkItem true)) ∧
    ((PsSysTimerControl Env Process Parameters).Parameters.Status = .STATUS_SUCCESS →
      ∃ NewTimer : PROCESS_TIMER,
        (PsSysTimerControl Env Process Parameters).Process.TimerList
          = Process.TimerList ++ [NewTimer] ∧
        NewTimer.ReferenceCount = 1 ∧ NewTimer.ExpirationCount = 0 ∧
        NewTimer.OverflowCount = 0 ∧ NewTimer.DueTime = 0 ∧ NewTimer.Interval = 0) := by
  rw [PsSysTimerControl_create_eq Env Process Parameters hOperation]
  refine ⟨?_, ?_, ?_, ?_⟩
  · unfold TimerControlCreate PspCreateProcessTimer
    cases hA : Env.AllocateSucceeds <;> cases hT : Env.CreateTimerSucceeds <;>
      cases hD : Env.CreateDpcSucceeds <;> cases hW : Env.CreateWorkItemSucceeds <;>
      simp [KSUCCESS]
  · unfold TimerControlCreate PspCreateProcessTimer
    cases hA : Env.AllocateSucceeds <;> cases hT : Env.CreateTimerSucceeds <;>
      cases hD : Env.CreateDpcSucceeds <;> cases hW : Env.CreateWorkItemSucceeds <;>
      simp [KSUCCESS]
  · unfold TimerControlCreate PspCreateProcessTimer CreateProcessTimerEnd
    cases hA : Env.AllocateSucceeds <;> cases hT : Env.CreateTimerSucceeds <;>
      cases hD : Env.CreateDpcSucceeds <;> cases hW : Env.CreateWorkItemSucceeds <;>
      simp [KSUCCESS]
  · intro hStatus
    rw [TimerControlCreate_success Env Process Parameters hStatus]
    exact ⟨_, rfl, rfl, rfl, rfl, rfl, rfl⟩

/-- C10, witness: in the environment where the creation of the DPC fails, the
create fails with insufficient resources because one of the four resources
fails. -/
theorem create_fails_iff_resource_fails_witness :
    (PsSysTimerControl DpcCreationFails EmptyProcess
        (Request .TimerOperationCreateTimer 0)).Parameters.Status
        = .STATUS_INSUFFICIENT_RESOURCES ↔
      (DpcCreationFails.AllocateSucceeds = false ∨
       DpcCreationFails.CreateTimerSucceeds = false ∨
       DpcCreationFails.CreateDpcSucceeds = false ∨
       DpcCreationFails.CreateWorkItemSucceeds = false) :=
  (create_fails_iff_resource_fails DpcCreationFails EmptyProcess
    (Request .TimerOperationCreateTimer 0) rfl).1

/-! ## Arithmetic on `ULONG` -/

/-- A value in range is its own reduction. -/
theorem toULONG_of_lt (Value : Nat) (h : Value < ULONG_MODULUS) : toULONG Value = Value := by
  unfold toULONG
  exact Nat.mod_eq_of_lt h

/-- Subtraction on `ULONG` without borrow. -/
theorem subULONG_of_le (Left Right : Nat) (hLe : Right ≤ Left) (hLeft : Left < ULONG_MODULUS) :
    subULONG Left Right = Left - Right := by
  unfold subULONG toULONG negULONG
  unfold ULONG_MODULUS at *
  omega

/-- Adding the negation on `ULONG` without borrow. -/
theorem add_negULONG_of_le (Left Right : Nat) (hLe : Right ≤ Left)
    (hLeft : Left < ULONG_MODULUS) : toULONG (negULONG Right + Left) = Left - Right :=
  subULONG_of_le Left Right hLe hLeft

/-! ## The routines of the pipeline in closed form -/

/-- The release routine on a record with at least one reference. -/
theorem PspProcessTimerReleaseReference_eq (Timer : PROCESS_TIMER)
    (hPositive : 1 ≤ Timer.ReferenceCount) (hRange : Timer.ReferenceCount < ULONG_MODULUS) :
    PspProcessTimerReleaseReference Timer =
      { Timer := { Timer with ReferenceCount := Timer.ReferenceCount - 1 },
        Destroyed := decide (Timer.ReferenceCount = 1),
        Calls := if Timer.ReferenceCount = 1 then PspDestroyProcessTimer else [] } := by
  unfold PspProcessTimerReleaseReference
  simp only [add_negULONG_of_le _ _ hPositive hRange]
  by_cases hOne : Timer.ReferenceCount = 1 <;> simp [hOne]

/-- The completion routine when expiries remain after the drain: the work item
is queued again. -/
theorem PspProcessTimerSignalCompletion_requeue (Timer : PROCESS_TIMER)
    (hDrain : Timer.OverflowCount + 1 ≤ Timer.ExpirationCount)
    (hRange : Timer.ExpirationCount < ULONG_MODULUS)
    (hLeft : Timer.ExpirationCount - (Timer.OverflowCount + 1) ≠ 0) :
    PspProcessTimerSignalCompletion Timer =
      { Timer :=
          { Timer with
            OverflowCount := 0,
            ExpirationCount := Timer.ExpirationCount - (Timer.OverflowCount + 1),
            WorkItem := { Queued := true } },
        Destroyed := false,
        Calls := [.KeQueueWorkItem] } := by
  have hOverflow : toULONG (Timer.OverflowCount + 1) = Timer.OverflowCount + 1 :=
    toULONG_of_lt _ (lt_of_le_of_lt hDrain hRange)
  unfold PspProcessTimerSignalCompletion
  simp only [hOverflow, subULONG_of_le _ _ hDrain hRange,
    add_negULONG_of_le _ _ hDrain hRange]
  simp [hLeft, KeQueueWorkItem]

/-- The completion routine when the drain empties the expiration count: one
reference is released. -/
theorem PspProcessTimerSignalCompletion_release (Timer : PROCESS_TIMER)
    (hDrain : Timer.OverflowCount + 1 ≤ Timer.ExpirationCount)
    (hRange : Timer.ExpirationCount < ULONG_MODULUS)
    (hLeft : Timer.ExpirationCount - (Timer.OverflowCount + 1) = 0) :
    PspProcessTimerSignalCompletion Timer =
      PspProcessTimerReleaseReference
        { Timer with OverflowCount := 0, ExpirationCount := 0 } := by
  have hOverflow : toULONG (Timer.OverflowCount + 1) = Timer.OverflowCount + 1 :=
    toULONG_of_lt _ (lt_of_le_of_lt hDrain hRange)
  unfold PspProcessTimerSignalCompletion
  simp only [hOverflow, subULONG_of_le _ _ hDrain hRange,
    add_negULONG_of_le _ _ hDrain hRange]
  simp [hLeft]

/-! ## C12: the signal completion routine -/

/-- C12: on a record with overflow count o and expiration count e, both
`ULONG`, with o + 1 ≤ e, the signal completion routine leaves overflow count 0
and expiration count e - (o + 1).  When that difference is not 0 it queues the
work item and leaves the reference count unchanged and the record alive;
otherwise it queues nothing and releases one reference: the reference count
drops by one, and the record is destroyed exactly when the count was 1. -/
theorem signal_completion_drains (Timer : PROCESS_TIMER)
    (hDrain : Timer.OverflowCount + 1 ≤ Timer.ExpirationCount)
    (hRange : Timer.ExpirationCount < ULONG_MODULUS)
    (hReference : Timer.ReferenceCount < ULONG_MODULUS) :
    (PspProcessTimerSignalCompletion Timer).Timer.OverflowCount = 0 ∧
    (PspProcessTimerSignalCompletion Timer).Timer.ExpirationCount
      = Timer.ExpirationCount - (Timer.OverflowCount + 1) ∧
    (Timer.ExpirationCount - (Timer.OverflowCount + 1) ≠ 0 →
      (PspProcessTimerSignalCompletion Timer).Calls = [.KeQueueWorkItem] ∧
      (PspProcessTimerSignalCompletion Timer).Timer.WorkItem.Queued = true ∧
      (PspProcessTimerSignalCompletion Timer).Timer.ReferenceCount = Timer.ReferenceCount ∧
      (PspProcessTimerSignalCompletion Timer).Destroyed = false) ∧
    (Timer.ExpirationCount - (Timer.OverflowCount + 1) = 0 →
      KCALL.KeQueueWorkItem ∉ (PspProcessTimerSignalCompletion Timer).Calls ∧
      (PspProcessTimerSignalCompletion Timer).Timer.WorkItem = Timer.WorkItem ∧
      (PspProcessTimerSignalCompletion Timer).Timer.ReferenceCount
        = subULONG Timer.ReferenceCount 1 ∧
      (1 ≤ Timer.ReferenceCount →
        (PspProcessTimerSignalCompletion Timer).Timer.ReferenceCount
          = Timer.ReferenceCount - 1) ∧
      ((PspProcessTimerSignalCompletion Timer).Destroyed = true ↔ Timer.ReferenceCount = 1) ∧
      (PspProcessTimerSignalCompletion Timer).Calls
        = (if Timer.ReferenceCount = 1 then PspDestroyProcessTimer else [])) := by
  by_cases hLeft : Timer.ExpirationCount - (Timer.OverflowCount + 1) = 0
  · rw [PspProcessTimerSignalCompletion_release Timer hDrain hRange hLeft]
    refine ⟨?_, ?_, fun h => absurd hLeft h, fun _ => ?_⟩
    · unfold PspProcessTimerReleaseReference
      by_cases hOne : Timer.ReferenceCount = 1 <;> simp [hOne]
    · unfold PspProcessTimerReleaseReference
      by_cases hOne : Timer.ReferenceCount = 1 <;> simp [hOne, hLeft]
    · unfold PspProcessTimerReleaseReference
      by_cases hOne : Timer.ReferenceCount = 1
      · have hZero : toULONG (negULONG 1 + 1) = 0 := by
          unfold toULONG negULONG ULONG_MODULUS
          norm_num
        simp [hOne, PspDestroyProcessTimer, subULONG, hZero]
      · have hKeep : 1 ≤ Timer.ReferenceCount →
            toULONG (negULONG 1 + Timer.ReferenceCount) = Timer.ReferenceCount - 1 :=
          fun h => add_negULONG_of_le _ _ h hReference
        simp [hOne, subULONG]
        exact hKeep
  · rw [PspProcessTimerSignalCompletion_requeue Timer hDrain hRange hLeft]
    exact ⟨rfl, rfl, fun _ => ⟨rfl, rfl, rfl, rfl⟩, fun h => absurd h hLeft⟩

/-- C12, witness: with overflow count 1, expiration count 3 and reference
count 2 the completion routine leaves overflow count 0. -/
theorem signal_completion_drains_witness :
    (PspProcessTimerSignalCompletion
      { NumberedTimer 1 with
        ReferenceCount := 2, ExpirationCount := 3, OverflowCount := 1 }).Timer.OverflowCount
      = 0 ∧
    (PspProcessTimerSignalCompletion
      { NumberedTimer 1 with
        ReferenceCount := 2, ExpirationCount := 3, OverflowCount := 1 }).Timer.ExpirationCount
      = 3 - (1 + 1) :=
  ⟨(signal_completion_drains
      { NumberedTimer 1 with ReferenceCount := 2, ExpirationCount := 3, OverflowCount := 1 }
      (by decide) (by decide) (by decide)).1,
   (signal_completion_drains
      { NumberedTimer 1 with ReferenceCount := 2, ExpirationCount := 3, OverflowCount := 1 }
      (by decide) (by decide) (by decide)).2.1⟩

/-! ## C11: an unrecognized operation -/

/-- C11 (amended): a request whose operation is none of create, delete, get
and set returns the invalid parameter status when a record of the list carries
its timer number and the invalid handle status when none does; in both cases
the process, with its timer list and every record, is unchanged, nothing is
unlinked, and the only calls made take and drop the process lock. -/
theorem unrecognized_operation_status (Env : ENVIRONMENT) (Process : KPROCESS)
    (Parameters : SYSTEM_CALL_TIMER_CONTROL) (Tag : Nat)
    (hOperation : Parameters.Operation = .TimerOperationUnrecognized Tag) :
    ((∃ Timer ∈ Process.TimerList, Timer.TimerNumber = Parameters.TimerNumber) →
      (PsSysTimerControl Env Process Parameters).Parameters.Status
        = .STATUS_INVALID_PARAMETER) ∧
    ((∀ Timer ∈ Process.TimerList, Timer.TimerNumber ≠ Parameters.TimerNumber) →
      (PsSysTimerControl Env Process Parameters).Parameters.Status
        = .STATUS_INVALID_HANDLE) ∧
    (PsSysTimerControl Env Process Parameters).Process = Process ∧
    (PsSysTimerControl Env Process Parameters).Unlinked = none ∧
    (PsSysTimerControl Env Process Parameters).Calls
      = [.KeAcquireQueuedLock, .KeReleaseQueuedLock] := by
  have hNotCreate : Parameters.Operation ≠ .TimerOperationCreateTimer := by
    simp [hOperation]
  cases hFind : FindTimer Process.TimerList Parameters.TimerNumber with
  | none =>
    have hAbsent := (FindTimer_none _ _).mp hFind
    rw [PsSysTimerControl_missed Env Process Parameters hNotCreate hFind]
    refine ⟨?_, fun _ => rfl, rfl, rfl, rfl⟩
    rintro ⟨Timer, hIn, hNumber⟩
    exact absurd hNumber (hAbsent Timer hIn)
  | some Found =>
    obtain ⟨Index, First⟩ := Found
    have hFirst := FindTimer_some _ _ _ _ hFind
    have hIn : First ∈ Process.TimerList := List.getElem?_mem hFirst.1
    rw [PsSysTimerControl_found Env Process Parameters Index First hNotCreate hFind]
    simp only [hOperation]
    refine ⟨fun _ => rfl, ?_, rfl, rfl, rfl⟩
    intro hAll
    exact absurd hFirst.2.1 (hAll First hIn)

/-- C11, witness of the amended statement: a request with the unrecognized
operation tag 9 for the number 1 on the list that holds the record numbered 1
returns the invalid parameter status. -/
theorem unrecognized_operation_status_witness :
    (PsSysTimerControl (AllSucceed 0)
        { TimerList := [NumberedTimer 1], ReferenceCount := 2 }
        (Request (.TimerOperationUnrecognized 9) 1)).Parameters.Status
      = .STATUS_INVALID_PARAMETER :=
  (unrecognized_operation_status (AllSucceed 0)
    { TimerList := [NumberedTimer 1], ReferenceCount := 2 }
    (Request (.TimerOperationUnrecognized 9) 1) 9 rfl).1
    ⟨NumberedTimer 1, by simp, rfl⟩

/-- C11 (as stated) fails: a request with the unrecognized operation tag 9 for
the number 7, which no record of the list carries, returns the invalid handle
status, not the invalid parameter status. -/
theorem unrecognized_operation_invalid_handle :
    (PsSysTimerControl (AllSucceed 0)
        { TimerList := [NumberedTimer 1], ReferenceCount := 2 }
        (Request (.TimerOperationUnrecognized 9) 7)).Parameters.Status
      = .STATUS_INVALID_HANDLE ∧
    (PsSysTimerControl (AllSucceed 0)
        { TimerList := [NumberedTimer 1], ReferenceCount := 2 }
        (Request (.TimerOperationUnrecognized 9) 7)).Parameters.Status
      ≠ .STATUS_INVALID_PARAMETER := by
  decide

/-! ## The pipeline invariant -/

/-- The DPC routine, in closed form, when the expiration count does not
wrap. -/
theorem PspProcessTimerDpcRoutine_eq (Timer : PROCESS_TIMER)
    (hBound : Timer.ExpirationCount + 1 < ULONG_MODULUS) :
    (PspProcessTimerDpcRoutine Timer).1 =
      if Timer.ExpirationCount = 0 then
        { Timer with
          ExpirationCount := 1,
          ReferenceCount := toULONG (Timer.ReferenceCount + 1),
          WorkItem := { Queued := true } }
      else { Timer with ExpirationCount := Timer.ExpirationCount + 1 } := by
  unfold PspProcessTimerDpcRoutine
  simp only [toULONG_of_lt _ hBound]
  by_cases hZero : Timer.ExpirationCount = 0
  · simp [hZero, PspProcessTimerAddReference, KeQueueWorkItem]
  · simp [hZero]

/-- The work routine, in closed form. -/
theorem PspProcessTimerWorkRoutine_eq (Timer : PROCESS_TIMER) :
    (PspProcessTimerWorkRoutine Timer).1 =
      { Timer with
        OverflowCount := subULONG Timer.ExpirationCount 1,
        SignalQueueEntry :=
          { Parameters :=
              { Timer.SignalQueueEntry.Parameters with
                OverflowCount := subULONG Timer.ExpirationCount 1 },
            HasCompletionRoutine := Timer.SignalQueueEntry.HasCompletionRoutine,
            Queued := true } } := by
  unfold PspProcessTimerWorkRoutine PsSignalProcess
  rfl

/-- The set case leaves the work item and the signal queue entry of the record
alone. -/
theorem SetProcessTimer_keeps_queues (Env : ENVIRONMENT) (New : TIMER_INFORMATION)
    (Timer : PROCESS_TIMER) :
    (SetProcessTimer Env New Timer).Timer.WorkItem = Timer.WorkItem ∧
    (SetProcessTimer Env New Timer).Timer.SignalQueueEntry = Timer.SignalQueueEntry ∧
    (SetProcessTimer Env New Timer).Timer.Dpc = Timer.Dpc := by
  unfold SetProcessTimer
  simp only
  split <;> split <;> (try split) <;> simp

/-- The pipeline of a freshly created record satisfies the invariant. -/
theorem PipelineInvariant_fresh (Parameters : SYSTEM_CALL_TIMER_CONTROL) (TimerNumber : Int) :
    PipelineInvariant (FreshPipeline Parameters TimerNumber) := by
  unfold PipelineInvariant FreshPipeline NewProcessTimer CreatedTimer ZeroedTimer
    CompletedExpiries ULONG_MODULUS
  simp

/-- One event keeps the invariant, provided a run of the DPC routine does not
wrap the expiration count. -/
theorem PipelineInvariant_step (State Next : PIPELINE_STATE) (Event : PIPELINE_EVENT)
    (hInv : PipelineInvariant State)
    (hBound : Event = .DpcRun → State.Timer.ExpirationCount + 1 < ULONG_MODULUS)
    (hStep : PipelineStep State Event = some Next) : PipelineInvariant Next := by
  obtain ⟨hAlive, hRange, hRef, hRuns, hSignal, hWork, hIdle⟩ := hInv
  unfold PipelineStep at hStep
  rw [if_neg (by simp [hAlive])] at hStep
  cases Event with
  | DpcRun =>
    simp only [Option.some.injEq] at hStep
    have hB := hBound rfl
    rw [PspProcessTimerDpcRoutine_eq State.Timer hB] at hStep
    unfold ULONG_MODULUS at hB hRange
    by_cases hZero : State.Timer.ExpirationCount = 0
    · have hNoSignal : State.Timer.SignalQueueEntry.Queued = false := by
        cases hS : State.Timer.SignalQueueEntry.Queued with
        | false => rfl
        | true => have := (hSignal hS).2.1; omega
      have hOne : toULONG (State.Timer.ReferenceCount + 1) = 2 := by
        rw [hRef]
        simp [hZero, toULONG, ULONG_MODULUS]
      rw [if_pos hZero, hOne] at hStep
      subst hStep
      refine ⟨hAlive, ?_, ?_, ?_, ?_, ?_, ?_⟩
      · show (1 : Nat) < ULONG_MODULUS
        unfold ULONG_MODULUS; omega
      · show (2 : Nat) = 1 + (if (1 : Nat) ≠ 0 then 1 else 0)
        simp
      · show State.DpcRuns + 1 = CompletedExpiries State.Completed + 1
        omega
      · intro hS
        have hS' : State.Timer.SignalQueueEntry.Queued = true := hS
        rw [hNoSignal] at hS'
        exact absurd hS' (by simp)
      · intro _
        show 1 ≤ 1
        omega
      · intro _ hW
        have hW' : true = false := hW
        exact absurd hW' (by simp)
    · rw [if_neg hZero] at hStep
      subst hStep
      refine ⟨hAlive, ?_, ?_, ?_, ?_, ?_, ?_⟩
      · show State.Timer.ExpirationCount + 1 < ULONG_MODULUS
        unfold ULONG_MODULUS; omega
      · show State.Timer.ReferenceCount
          = 1 + (if State.Timer.ExpirationCount + 1 ≠ 0 then 1 else 0)
        rw [hRef]; simp [hZero]
      · show State.DpcRuns + 1
          = CompletedExpiries State.Completed + (State.Timer.ExpirationCount + 1)
        omega
      · intro hS
        have h := hSignal hS
        exact ⟨h.1, Nat.le_succ_of_le h.2.1, h.2.2⟩
      · intro _
        show 1 ≤ State.Timer.ExpirationCount + 1
        omega
      · intro hS hW
        exact absurd (hIdle hS hW) hZero
  | WorkItemRun =>
    cases hW : State.Timer.WorkItem.Queued with
    | false => simp [hW] at hStep
    | true =>
      simp only [hW, if_true, Option.some.injEq] at hStep
      have hPositive := hWork hW
      have hSub : subULONG State.Timer.ExpirationCount 1 = State.Timer.ExpirationCount - 1 :=
        subULONG_of_le _ _ hPositive hRange
      rw [PspProcessTimerWorkRoutine_eq] at hStep
      simp only [hSub] at hStep
      subst hStep
      refine ⟨hAlive, hRange, hRef, hRuns, ?_, ?_, ?_⟩
      · intro _
        refine ⟨rfl, ?_, rfl⟩
        show State.Timer.ExpirationCount - 1 + 1 ≤ State.Timer.ExpirationCount
        omega
      · intro hQ
        have hQ' : false = true := hQ
        exact absurd hQ' (by simp)
      · intro hQ
        have hQ' : true = false := hQ
        exact absurd hQ' (by simp)
  | SignalCompleted =>
    cases hS : State.Timer.SignalQueueEntry.Queued with
    | false => simp [hS] at hStep
    | true =>
      simp only [hS, if_true, Option.some.injEq] at hStep
      obtain ⟨hNoWork, hDrain, hReported⟩ := hSignal hS
      have hRefTwo : State.Timer.ReferenceCount = 2 := by
        rw [hRef]
        have : State.Timer.ExpirationCount ≠ 0 := by omega
        simp [this]
      generalize hInput : ({ State.Timer with
        SignalQueueEntry := { State.Timer.SignalQueueEntry with Queued := false } }
          : PROCESS_TIMER) = Input at hStep
      have hInputExp : Input.ExpirationCount = State.Timer.ExpirationCount := by
        rw [← hInput]
      have hInputOv : Input.OverflowCount = State.Timer.OverflowCount := by rw [← hInput]
      have hInputRef : Input.ReferenceCount = 2 := by rw [← hInput]; exact hRefTwo
      have hInputWork : Input.WorkItem.Queued = false := by rw [← hInput]; exact hNoWork
      have hInputSignal : Input.SignalQueueEntry.Queued = false := by rw [← hInput]
      have hDrain' : Input.OverflowCount + 1 ≤ Input.ExpirationCount := by
        rw [hInputExp, hInputOv]; exact hDrain
      have hRange' : Input.ExpirationCount < ULONG_MODULUS := by rw [hInputExp]; exact hRange
      by_cases hLeft : Input.ExpirationCount - (Input.OverflowCount + 1) = 0
      · rw [PspProcessTimerSignalCompletion_release Input hDrain' hRange' hLeft,
          PspProcessTimerReleaseReference_eq _ (by show 1 ≤ Input.ReferenceCount; omega)
            (by show Input.ReferenceCount < ULONG_MODULUS; unfold ULONG_MODULUS; omega)]
          at hStep
        subst hStep
        refine ⟨?_, ?_, ?_, ?_, ?_, ?_, ?_⟩
        · show decide (Input.ReferenceCount = 1) = false
          simp [hInputRef]
        · show (0 : Nat) < ULONG_MODULUS
          unfold ULONG_MODULUS; omega
        · show Input.ReferenceCount - 1 = 1 + (if (0 : Nat) ≠ 0 then 1 else 0)
          simp [hInputRef]
        · show State.DpcRuns = CompletedExpiries
            (State.Timer.SignalQueueEntry.Parameters.OverflowCount :: State.Completed) + 0
          simp only [CompletedExpiries, List.map_cons, List.sum_cons] at hRuns ⊢
          rw [hRuns, hReported]
          rw [hInputExp, hInputOv] at hLeft
          omega
        · intro hQ
          have hQ' : Input.SignalQueueEntry.Queued = true := hQ
          rw [hInputSignal] at hQ'
          exact absurd hQ' (by simp)
        · intro hQ
          have hQ' : Input.WorkItem.Queued = true := hQ
          rw [hInputWork] at hQ'
          exact absurd hQ' (by simp)
        · intro _ _
          rfl
      · rw [PspProcessTimerSignalCompletion_requeue Input hDrain' hRange' hLeft] at hStep
        subst hStep
        refine ⟨rfl, ?_, ?_, ?_, ?_, ?_, ?_⟩
        · show Input.ExpirationCount - (Input.OverflowCount + 1) < ULONG_MODULUS
          unfold ULONG_MODULUS at hRange' ⊢; omega
        · show Input.ReferenceCount
            = 1 + (if Input.ExpirationCount - (Input.OverflowCount + 1) ≠ 0 then 1 else 0)
          simp [hInputRef, hLeft]
        · show State.DpcRuns = CompletedExpiries
            (State.Timer.SignalQueueEntry.Parameters.OverflowCount :: State.Completed)
              + (Input.ExpirationCount - (Input.OverflowCount + 1))
          simp only [CompletedExpiries, List.map_cons, List.sum_cons] at hRuns ⊢
          rw [hRuns, hReported, hInputExp, hInputOv]
          omega
        · intro hQ
          have hQ' : Input.SignalQueueEntry.Queued = true := hQ
          rw [hInputSignal] at hQ'
          exact absurd hQ' (by simp)
        · intro _
          show 1 ≤ Input.ExpirationCount - (Input.OverflowCount + 1)
          omega
        · intro _ hQ
          have hQ' : true = false := hQ
          exact absurd hQ' (by simp)
  | GetTimer =>
    simp only [Option.some.injEq] at hStep
    subst hStep
    exact ⟨hAlive, hRange, hRef, hRuns, hSignal, hWork, hIdle⟩
  | SetTimer Env New =>
    simp only [Option.some.injEq] at hStep
    subst hStep
    have hKeeps := SetProcessTimer_keeps Env New State.Timer
    have hQueues := SetProcessTimer_keeps_queues Env New State.Timer
    unfold PipelineInvariant
    simp only [hKeeps.1, hKeeps.2.1, hKeeps.2.2.1, hKeeps.2.2.2, hQueues.1, hQueues.2.1]
    exact ⟨hAlive, hRange, hRef, hRuns, hSignal, hWork, hIdle⟩

/-- Running a sequence of events followed by another. -/
theorem PipelineRun_append (State : PIPELINE_STATE) (First Second : List PIPELINE_EVENT) :
    PipelineRun State (First ++ Second)
      = (PipelineRun State First).bind (fun Middle => PipelineRun Middle Second) := by
  induction First generalizing State with
  | nil => rfl
  | cons Event Rest ih =>
    simp only [List.cons_append, PipelineRun]
    cases hStep : PipelineStep State Event with
    | none => rfl
    | some Next => exact ih Next

/-- The bound on a sequence of events splits over an append. -/
theorem PipelineBounded_append (State : PIPELINE_STATE) (First Second : List PIPELINE_EVENT)
    (h : PipelineBounded State (First ++ Second)) :
    PipelineBounded State First ∧
    ∀ Middle, PipelineRun State First = some Middle → PipelineBounded Middle Second := by
  induction First generalizing State with
  | nil =>
    refine ⟨trivial, ?_⟩
    intro Middle hRun
    simp only [PipelineRun, Option.some.injEq] at hRun
    subst hRun
    exact h
  | cons Event Rest ih =>
    obtain ⟨hHere, hRest⟩ := h
    refine ⟨⟨hHere, fun Next hNext => (ih Next (hRest Next hNext)).1⟩, ?_⟩
    intro Middle hRun
    simp only [PipelineRun] at hRun
    cases hStep : PipelineStep State Event with
    | none => rw [hStep] at hRun; exact absurd hRun (by simp)
    | some Next =>
      rw [hStep] at hRun
      exact (ih Next (hRest Next hStep)).2 Middle hRun

/-- A bounded sequence of events keeps the invariant. -/
theorem PipelineInvariant_run (Events : List PIPELINE_EVENT) (State Final : PIPELINE_STATE)
    (hInv : PipelineInvariant State) (hBounded : PipelineBounded State Events)
    (hRun : PipelineRun State Events = some Final) : PipelineInvariant Final := by
  induction Events generalizing State with
  | nil =>
    simp only [PipelineRun, Option.some.injEq] at hRun
    subst hRun
    exact hInv
  | cons Event Rest ih =>
    obtain ⟨hHere, hRest⟩ := hBounded
    simp only [PipelineRun] at hRun
    cases hStep : PipelineStep State Event with
    | none => rw [hStep] at hRun; exact absurd hRun (by simp)
    | some Next =>
      rw [hStep] at hRun
      exact ih Next (PipelineInvariant_step State Next Event hInv hHere hStep)
        (hRest Next hStep) hRun

/-- Runs of the DPC routine on a record whose expiration count is not 0 only
add to the count. -/
theorem PipelineRun_expiries (Count : Nat) (State : PIPELINE_STATE)
    (hAlive : State.Destroyed = false) (hPositive : 1 ≤ State.Timer.ExpirationCount)
    (hBound : State.Timer.ExpirationCount + Count < ULONG_MODULUS) :
    PipelineRun State (List.replicate Count .DpcRun) = some (AddExpiries State Count) := by
  induction Count generalizing State with
  | zero => rfl
  | succ Count ih =>
    have hOne : State.Timer.ExpirationCount + 1 < ULONG_MODULUS := by omega
    have hNonzero : State.Timer.ExpirationCount ≠ 0 := by omega
    have hStep : PipelineStep State .DpcRun = some (AddExpiries State 1) := by
      unfold PipelineStep
      rw [if_neg (by simp [hAlive]), PspProcessTimerDpcRoutine_eq State.Timer hOne,
        if_neg hNonzero]
      rfl
    simp only [List.replicate_succ, PipelineRun, hStep]
    rw [ih (AddExpiries State 1) hAlive
      (by show 1 ≤ State.Timer.ExpirationCount + 1; omega)
      (by show State.Timer.ExpirationCount + 1 + Count < ULONG_MODULUS; omega)]
    simp only [AddExpiries, Nat.add_assoc, Nat.add_comm 1 Count]

/-- What a run of the work routine does to a state that satisfies the
invariant: the signal is handed over with the expiration count minus one as
overflow count, and the expiration count is not touched. -/
theorem work_run_result (State Next : PIPELINE_STATE) (hInv : PipelineInvariant State)
    (hStep : PipelineStep State .WorkItemRun = some Next) :
    State.Timer.WorkItem.Queued = true ∧
    1 ≤ State.Timer.ExpirationCount ∧
    Next.Timer.SignalQueueEntry.Queued = true ∧
    Next.Timer.WorkItem.Queued = false ∧
    Next.Timer.ExpirationCount = State.Timer.ExpirationCount ∧
    Next.Timer.OverflowCount = State.Timer.ExpirationCount - 1 ∧
    Next.Timer.SignalQueueEntry.Parameters.OverflowCount = State.Timer.ExpirationCount - 1 ∧
    Next.Timer.ReferenceCount = State.Timer.ReferenceCount ∧
    Next.Handed = (State.Timer.ExpirationCount - 1) :: State.Handed ∧
    Next.Completed = State.Completed ∧
    Next.DpcRuns = State.DpcRuns ∧
    Next.Destroyed = false := by
  obtain ⟨hAlive, hRange, _, _, _, hWork, _⟩ := hInv
  unfold PipelineStep at hStep
  rw [if_neg (by simp [hAlive])] at hStep
  cases hW : State.Timer.WorkItem.Queued with
  | false => simp [hW] at hStep
  | true =>
    simp only [hW, if_true, Option.some.injEq] at hStep
    have hPositive := hWork hW
    have hSub : subULONG State.Timer.ExpirationCount 1 = State.Timer.ExpirationCount - 1 :=
      subULONG_of_le _ _ hPositive hRange
    rw [PspProcessTimerWorkRoutine_eq] at hStep
    simp only [hSub] at hStep
    subst hStep
    exact ⟨rfl, hPositive, rfl, rfl, rfl, rfl, rfl, rfl, rfl, rfl, rfl, hAlive⟩

/-- What the completion of a signal does to a state that satisfies the
invariant: the reported overflow count is recorded and the expiration count
loses that count plus one; the work item is queued again exactly when
expiries remain. -/
theorem completion_result (State Next : PIPELINE_STATE) (hInv : PipelineInvariant State)
    (hStep : PipelineStep State .SignalCompleted = some Next) :
    State.Timer.SignalQueueEntry.Queued = true ∧
    State.Timer.OverflowCount + 1 ≤ State.Timer.ExpirationCount ∧
    Next.Timer.ExpirationCount
      = State.Timer.ExpirationCount - (State.Timer.OverflowCount + 1) ∧
    Next.Timer.OverflowCount = 0 ∧
    Next.Timer.SignalQueueEntry.Queued = false ∧
    (Next.Timer.WorkItem.Queued = true ↔ Next.Timer.ExpirationCount ≠ 0) ∧
    Next.Handed = State.Handed ∧
    Next.Completed = State.Timer.OverflowCount :: State.Completed ∧
    Next.DpcRuns = State.DpcRuns := by
  obtain ⟨hAlive, hRange, hRef, _, hSignal, _, _⟩ := hInv
  unfold PipelineStep at hStep
  rw [if_neg (by simp [hAlive])] at hStep
  cases hS : State.Timer.SignalQueueEntry.Queued with
  | false => simp [hS] at hStep
  | true =>
    simp only [hS, if_true, Option.some.injEq] at hStep
    obtain ⟨hNoWork, hDrain, hReported⟩ := hSignal hS
    generalize hInput : ({ State.Timer with
      SignalQueueEntry := { State.Timer.SignalQueueEntry with Queued := false } }
        : PROCESS_TIMER) = Input at hStep
    have hInputExp : Input.ExpirationCount = State.Timer.ExpirationCount := by
      rw [← hInput]
    have hInputOv : Input.OverflowCount = State.Timer.OverflowCount := by rw [← hInput]
    have hInputRef : Input.ReferenceCount = State.Timer.ReferenceCount := by rw [← hInput]
    have hInputWork : Input.WorkItem.Queued = false := by rw [← hInput]; exact hNoWork
    have hInputSignal : Input.SignalQueueEntry.Queued = false := by rw [← hInput]
    have hRefTwo : State.Timer.ReferenceCount = 2 := by
      rw [hRef]
      have : State.Timer.ExpirationCount ≠ 0 := by omega
      simp [this]
    have hDrain' : Input.OverflowCount + 1 ≤ Input.ExpirationCount := by
      rw [hInputExp, hInputOv]; exact hDrain
    have hRange' : Input.ExpirationCount < ULONG_MODULUS := by rw [hInputExp]; exact hRange
    by_cases hLeft : Input.ExpirationCount - (Input.OverflowCount + 1) = 0
    · rw [PspProcessTimerSignalCompletion_release Input hDrain' hRange' hLeft,
        PspProcessTimerReleaseReference_eq _
          (by show 1 ≤ Input.ReferenceCount; omega)
          (by show Input.ReferenceCount < ULONG_MODULUS; unfold ULONG_MODULUS; omega)]
        at hStep
      subst hStep
      rw [hInputExp, hInputOv] at hLeft
      refine ⟨rfl, hDrain, ?_, rfl, hInputSignal, ?_, rfl, ?_, rfl⟩
      · show 0 = State.Timer.ExpirationCount - (State.Timer.OverflowCount + 1)
        omega
      · show Input.WorkItem.Queued = true ↔ (0 : Nat) ≠ 0
        simp [hInputWork]
      · show State.Timer.SignalQueueEntry.Parameters.OverflowCount :: State.Completed = _
        rw [hReported]
    · rw [PspProcessTimerSignalCompletion_requeue Input hDrain' hRange' hLeft] at hStep
      subst hStep
      refine ⟨rfl, hDrain, ?_, rfl, hInputSignal, ?_, rfl, ?_, rfl⟩
      · show Input.ExpirationCount - (Input.OverflowCount + 1) = _
        rw [hInputExp, hInputOv]
      · show true = true ↔ Input.ExpirationCount - (Input.OverflowCount + 1) ≠ 0
        simp [hLeft]
      · show State.Timer.SignalQueueEntry.Parameters.OverflowCount :: State.Completed = _
        rw [hReported]

/-! ## C13: no expiry is lost -/

/-- C13: in every state reached from a freshly created record by runs of the
DPC routine, runs of the work routine (only when the work item is queued),
signal completions (only when the signal is queued), gets and sets, with fewer
than `2 ^ 32` expiries outstanding, the number of runs of the DPC routine is
the sum over the completed signals of their reported overflow count plus one,
plus the current expiration count.  In particular, when F > 0 expiries arrive
between a run of the work routine and the completion of its signal, that
completion happens, leaves expiration count F and queues the work item
again. -/
theorem no_expiry_lost (Parameters : SYSTEM_CALL_TIMER_CONTROL) (TimerNumber : Int) :
    (∀ Events Final,
      PipelineBounded (FreshPipeline Parameters TimerNumber) Events →
      PipelineRun (FreshPipeline Parameters TimerNumber) Events = some Final →
      Final.DpcRuns = CompletedExpiries Final.Completed + Final.Timer.ExpirationCount) ∧
    (∀ Events BeforeWork AfterWork Further,
      PipelineBounded (FreshPipeline Parameters TimerNumber) Events →
      PipelineRun (FreshPipeline Parameters TimerNumber) Events = some BeforeWork →
      PipelineStep BeforeWork .WorkItemRun = some AfterWork →
      0 < Further →
      AfterWork.Timer.ExpirationCount + Further < ULONG_MODULUS →
      ∃ Final,
        PipelineRun AfterWork (List.replicate Further .DpcRun ++ [.SignalCompleted])
          = some Final ∧
        Final.Timer.ExpirationCount = Further ∧
        Final.Timer.WorkItem.Queued = true ∧
        Final.Completed = (AfterWork.Timer.ExpirationCount - 1) :: AfterWork.Completed) := by
  refine ⟨?_, ?_⟩
  · intro Events Final hBounded hRun
    exact (PipelineInvariant_run Events _ Final
      (PipelineInvariant_fresh Parameters TimerNumber) hBounded hRun).2.2.2.1
  · intro Events BeforeWork AfterWork Further hBounded hRun hWork hFurther hBound
    have hBefore := PipelineInvariant_run Events _ BeforeWork
      (PipelineInvariant_fresh Parameters TimerNumber) hBounded hRun
    have hAfter := PipelineInvariant_step BeforeWork AfterWork .WorkItemRun hBefore
      (fun h => absurd h (by simp)) hWork
    obtain ⟨_, hPositive, hQueued, hNoWork, hExp, hOv, hReported, _, _, _, _, hAlive⟩ :=
      work_run_result BeforeWork AfterWork hBefore hWork
    have hExpiries := PipelineRun_expiries Further AfterWork hAlive
      (by rw [hExp]; exact hPositive) hBound
    have hMiddle : PipelineInvariant (AddExpiries AfterWork Further) := by
      obtain ⟨h1, h2, h3, h4, h5, h6, h7⟩ := hAfter
      have hNonzero : AfterWork.Timer.ExpirationCount ≠ 0 := by omega
      refine ⟨h1, hBound, ?_, ?_, ?_, ?_, ?_⟩
      · show AfterWork.Timer.ReferenceCount
          = 1 + (if AfterWork.Timer.ExpirationCount + Further ≠ 0 then 1 else 0)
        rw [h3]
        have : AfterWork.Timer.ExpirationCount + Further ≠ 0 := by omega
        simp [hNonzero, this]
      · show AfterWork.DpcRuns + Further
          = CompletedExpiries AfterWork.Completed + (AfterWork.Timer.ExpirationCount + Further)
        omega
      · intro hS
        have h := h5 hS
        exact ⟨h.1, Nat.le_trans h.2.1 (Nat.le_add_right _ _), h.2.2⟩
      · intro _
        show 1 ≤ AfterWork.Timer.ExpirationCount + Further
        omega
      · intro hS _
        have hS' : AfterWork.Timer.SignalQueueEntry.Queued = false := hS
        rw [hQueued] at hS'
        exact absurd hS' (by simp)
    rw [PipelineRun_append, hExpiries]
    simp only [Option.bind, PipelineRun]
    cases hStep : PipelineStep (AddExpiries AfterWork Further) .SignalCompleted with
    | none =>
      exfalso
      unfold PipelineStep at hStep
      rw [if_neg (by show ¬ (AfterWork.Destroyed = true); simp [hAlive])] at hStep
      have hS : (AddExpiries AfterWork Further).Timer.SignalQueueEntry.Queued = true := hQueued
      simp [hS] at hStep
    | some Final =>
      obtain ⟨_, _, hFinalExp, _, _, hFinalWork, _, hFinalCompleted, _⟩ :=
        completion_result (AddExpiries AfterWork Further) Final hMiddle hStep
      have hCount : Final.Timer.ExpirationCount = Further := by
        rw [hFinalExp]
        show AfterWork.Timer.ExpirationCount + Further - (AfterWork.Timer.OverflowCount + 1)
          = Further
        rw [hOv, hExp]
        omega
      refine ⟨Final, rfl, hCount, ?_, ?_⟩
      · rw [hFinalWork, hCount]
        omega
      · rw [hFinalCompleted]
        show AfterWork.Timer.OverflowCount :: AfterWork.Completed = _
        rw [hOv, hExp]

/-- C13, witness: after one run of the DPC routine and one run of the work
routine on a fresh record the single run is accounted for by the expiration
count. -/
theorem no_expiry_lost_witness :
    ∃ Final,
      PipelineRun (FreshPipeline (Request .TimerOperationCreateTimer 0) 1)
        [.DpcRun, .WorkItemRun] = some Final ∧
      Final.DpcRuns = CompletedExpiries Final.Completed + Final.Timer.ExpirationCount := by
  obtain ⟨Final, hRun⟩ := Option.isSome_iff_exists.mp
    (show (PipelineRun (FreshPipeline (Request .TimerOperationCreateTimer 0) 1)
      [.DpcRun, .WorkItemRun]).isSome = true by decide)
  refine ⟨Final, hRun, ?_⟩
  exact (no_expiry_lost (Request .TimerOperationCreateTimer 0) 1).1
    [.DpcRun, .WorkItemRun] Final
    ⟨fun _ => by show (0 : Nat) + 1 < ULONG_MODULUS; unfold ULONG_MODULUS; omega,
     fun _ _ => ⟨fun h => absurd h (by simp), fun _ _ => trivial⟩⟩
    hRun

/-! ## The expiration count wraps after `2 ^ 32` expiries -/

/-- The first run of the DPC routine on the freshly created record numbered
1. -/
theorem first_expiry :
    PipelineStep (FreshPipeline (Request .TimerOperationCreateTimer 0) 1) .DpcRun
      = some FirstExpiryPipeline := by
  decide

/-- After `2 ^ 32` runs of the DPC routine on a fresh record, with no run of
the work routine in between, the expiration count is 0 again. -/
theorem wrapped_after_expiries (Count : Nat) (hCount : Count + 2 = 4294967296) :
    PipelineRun (FreshPipeline (Request .TimerOperationCreateTimer 0) 1)
      (List.replicate (Count + 2) .DpcRun) = some WrappedPipeline := by
  rw [List.replicate_succ, List.replicate_succ']
  simp only [PipelineRun, first_expiry]
  rw [PipelineRun_append, PipelineRun_expiries Count FirstExpiryPipeline rfl
    (by show 1 ≤ 1; omega)
    (by show 1 + Count < ULONG_MODULUS; unfold ULONG_MODULUS; omega)]
  simp only [Option.bind, PipelineRun]
  have hStep : PipelineStep (AddExpiries FirstExpiryPipeline Count) .DpcRun
      = some WrappedPipeline := by
    unfold PipelineStep PspProcessTimerDpcRoutine
    have hPrevious : (AddExpiries FirstExpiryPipeline Count).Timer.ExpirationCount
        = 1 + Count := rfl
    have hWrap : toULONG (1 + Count + 1) = 0 := by
      unfold toULONG ULONG_MODULUS
      omega
    have hRuns : (AddExpiries FirstExpiryPipeline Count).DpcRuns + 1 = 4294967296 := by
      show 1 + Count + 1 = 4294967296
      omega
    rw [if_neg (by show ¬ (false = true); simp)]
    simp only [hPrevious, hWrap, hRuns,
      if_neg (show ¬ (1 + Count = 0) by omega)]
    rfl
  rw [hStep]

/-! ## C14: the reference count while the record is in the list -/

/-- C14 (amended): in every state reached from a freshly created record by
runs of the DPC routine, runs of the work routine, signal completions, gets
and sets while the record is in the timer list, with fewer than `2 ^ 32`
expiries outstanding, the reference count is 1 plus 1 when the expiration
count is not 0; so it is never 0, the record is not destroyed, and the work
item and the signal are never queued at the same time. -/
theorem reference_count_tracks_expiries (Parameters : SYSTEM_CALL_TIMER_CONTROL)
    (TimerNumber : Int) (Events : List PIPELINE_EVENT) (Final : PIPELINE_STATE)
    (hBounded : PipelineBounded (FreshPipeline Parameters TimerNumber) Events)
    (hRun : PipelineRun (FreshPipeline Parameters TimerNumber) Events = some Final) :
    Final.Timer.ReferenceCount = 1 + (if Final.Timer.ExpirationCount ≠ 0 then 1 else 0) ∧
    Final.Timer.ReferenceCount ≠ 0 ∧
    Final.Destroyed = false ∧
    ¬ (Final.Timer.WorkItem.Queued = true ∧ Final.Timer.SignalQueueEntry.Queued = true) := by
  obtain ⟨hAlive, _, hRef, _, hSignal, _, _⟩ := PipelineInvariant_run Events _ Final
    (PipelineInvariant_fresh Parameters TimerNumber) hBounded hRun
  refine ⟨hRef, by rw [hRef]; omega, hAlive, ?_⟩
  rintro ⟨hW, hS⟩
  have hNoWork := (hSignal hS).1
  rw [hW] at hNoWork
  exact absurd hNoWork (by simp)

/-- C14, witness of the amended statement: after one run of the DPC routine
and one run of the work routine on a fresh record the reference count is 1
plus 1 for the expiration count that is not 0. -/
theorem reference_count_tracks_expiries_witness :
    ∃ Final,
      PipelineRun (FreshPipeline (Request .TimerOperationCreateTimer 0) 1)
        [.DpcRun, .WorkItemRun] = some Final ∧
      Final.Timer.ReferenceCount
        = 1 + (if Final.Timer.ExpirationCount ≠ 0 then 1 else 0) := by
  obtain ⟨Final, hRun⟩ := Option.isSome_iff_exists.mp
    (show (PipelineRun (FreshPipeline (Request .TimerOperationCreateTimer 0) 1)
      [.DpcRun, .WorkItemRun]).isSome = true by decide)
  refine ⟨Final, hRun, ?_⟩
  exact (reference_count_tracks_expiries (Request .TimerOperationCreateTimer 0) 1
    [.DpcRun, .WorkItemRun] Final
    ⟨fun _ => by show (0 : Nat) + 1 < ULONG_MODULUS; unfold ULONG_MODULUS; omega,
     fun _ _ => ⟨fun h => absurd h (by simp), fun _ _ => trivial⟩⟩
    hRun).1

/-- C14 (as stated) fails: `2 ^ 32` runs of the DPC routine on the freshly
created record numbered 1, with no run of the work routine in between, reach a
state with expiration count 0 and reference count 2, which is not 1. -/
theorem reference_count_after_wrap :
    PipelineRun (FreshPipeline (Request .TimerOperationCreateTimer 0) 1)
      (List.replicate 4294967296 .DpcRun) = some WrappedPipeline ∧
    WrappedPipeline.Timer.ExpirationCount = 0 ∧
    WrappedPipeline.Timer.ReferenceCount = 2 ∧
    WrappedPipeline.Timer.ReferenceCount
      ≠ 1 + (if WrappedPipeline.Timer.ExpirationCount ≠ 0 then 1 else 0) := by
  refine ⟨wrapped_after_expiries 4294967294 (by norm_num), rfl, rfl, by decide⟩

/-! ## C15: the assertions of the work routine and of the completion -/

/-- What a run of the DPC routine does to a state: one more expiry counted,
the signal queue entry, the overflow count and the history of signals
untouched. -/
theorem dpc_run_result (State Next : PIPELINE_STATE)
    (hBound : State.Timer.ExpirationCount + 1 < ULONG_MODULUS)
    (hStep : PipelineStep State .DpcRun = some Next) :
    Next.Timer.ExpirationCount = State.Timer.ExpirationCount + 1 ∧
    Next.Timer.SignalQueueEntry = State.Timer.SignalQueueEntry ∧
    Next.Timer.OverflowCount = State.Timer.OverflowCount ∧
    Next.Handed = State.Handed ∧
    Next.Completed = State.Completed := by
  unfold PipelineStep at hStep
  cases hAlive : State.Destroyed with
  | true => simp [hAlive] at hStep
  | false =>
    rw [if_neg (by simp [hAlive]), PspProcessTimerDpcRoutine_eq State.Timer hBound] at hStep
    simp only [Option.some.injEq] at hStep
    subst hStep
    by_cases hZero : State.Timer.ExpirationCount = 0 <;> simp [hZero]

/-- What a get or a set does to a state: the counters, the queues and the
history of signals are untouched. -/
theorem get_set_result (State Next : PIPELINE_STATE) (Event : PIPELINE_EVENT)
    (hKind : Event = .GetTimer ∨ ∃ Env New, Event = .SetTimer Env New)
    (hStep : PipelineStep State Event = some Next) :
    Next.Timer.ExpirationCount = State.Timer.ExpirationCount ∧
    Next.Timer.OverflowCount = State.Timer.OverflowCount ∧
    Next.Timer.SignalQueueEntry = State.Timer.SignalQueueEntry ∧
    Next.Timer.WorkItem = State.Timer.WorkItem ∧
    Next.Handed = State.Handed ∧
    Next.Completed = State.Completed ∧
    Next.Destroyed = State.Destroyed := by
  unfold PipelineStep at hStep
  cases hAlive : State.Destroyed with
  | true => simp [hAlive] at hStep
  | false =>
    rw [if_neg (by simp [hAlive])] at hStep
    rcases hKind with hGet | ⟨Env, New, hSet⟩
    · subst hGet
      simp only [Option.some.injEq] at hStep
      subst hStep
      exact ⟨rfl, rfl, rfl, rfl, rfl, rfl, hAlive⟩
    · subst hSet
      simp only [Option.some.injEq] at hStep
      subst hStep
      have hKeeps := SetProcessTimer_keeps Env New State.Timer
      have hQueues := SetProcessTimer_keeps_queues Env New State.Timer
      exact ⟨hKeeps.2.2.1, hKeeps.2.2.2, hQueues.2.1, hQueues.1, rfl, rfl, hAlive⟩

/-- While the signal is on the signal queue and no completion happens, the
work routine cannot run: nothing is handed over, and every expiry only adds to
the expiration count. -/
theorem signal_pending_run (Events : List PIPELINE_EVENT) (State Final : PIPELINE_STATE)
    (hInv : PipelineInvariant State)
    (hSignal : State.Timer.SignalQueueEntry.Queued = true)
    (hNoCompletion : PIPELINE_EVENT.SignalCompleted ∉ Events)
    (hBounded : PipelineBounded State Events)
    (hRun : PipelineRun State Events = some Final) :
    Final.Timer.SignalQueueEntry.Queued = true ∧
    Final.Timer.ExpirationCount = State.Timer.ExpirationCount + Events.count .DpcRun ∧
    Final.Timer.OverflowCount = State.Timer.OverflowCount ∧
    Final.Handed = State.Handed ∧
    Final.Completed = State.Completed ∧
    PIPELINE_EVENT.WorkItemRun ∉ Events := by
  induction Events generalizing State with
  | nil =>
    simp only [PipelineRun, Option.some.injEq] at hRun
    subst hRun
    exact ⟨hSignal, rfl, rfl, rfl, rfl, List.not_mem_nil _⟩
  | cons Event Rest ih =>
    obtain ⟨hHere, hRest⟩ := hBounded
    simp only [PipelineRun] at hRun
    cases hStep : PipelineStep State Event with
    | none => rw [hStep] at hRun; exact absurd hRun (by simp)
    | some Next =>
      rw [hStep] at hRun
      have hNext := PipelineInvariant_step State Next Event hInv hHere hStep
      have hRestCompletion : PIPELINE_EVENT.SignalCompleted ∉ Rest :=
        fun h => hNoCompletion (List.mem_cons_of_mem _ h)
      cases Event with
      | SignalCompleted => exact absurd (List.mem_cons_self _ _) hNoCompletion
      | WorkItemRun =>
        exfalso
        have hNoWork := (hInv.2.2.2.2.1 hSignal).1
        unfold PipelineStep at hStep
        split at hStep
        · simp at hStep
        · simp [hNoWork] at hStep
      | DpcRun =>
        obtain ⟨hExp, hEntry, hOv, hHanded, hCompleted⟩ :=
          dpc_run_result State Next (hHere rfl) hStep
        obtain ⟨h1, h2, h3, h4, h5, h6⟩ := ih Next hNext (by rw [hEntry]; exact hSignal)
          hRestCompletion (hRest Next hStep) hRun
        have hCount : (PIPELINE_EVENT.DpcRun :: Rest).count .DpcRun
            = Rest.count .DpcRun + 1 := by simp [List.count_cons]
        refine ⟨h1, ?_, by rw [h3, hOv], by rw [h4, hHanded], by rw [h5, hCompleted], ?_⟩
        · rw [h2, hExp, hCount]
          omega
        · simp [h6]
      | GetTimer =>
        obtain ⟨hExp, hOv, hEntry, _, hHanded, hCompleted, _⟩ :=
          get_set_result State Next .GetTimer (Or.inl rfl) hStep
        obtain ⟨h1, h2, h3, h4, h5, h6⟩ := ih Next hNext (by rw [hEntry]; exact hSignal)
          hRestCompletion (hRest Next hStep) hRun
        have hCount : (PIPELINE_EVENT.GetTimer :: Rest).count .DpcRun
            = Rest.count .DpcRun := by simp [List.count_cons]
        refine ⟨h1, ?_, by rw [h3, hOv], by rw [h4, hHanded], by rw [h5, hCompleted], ?_⟩
        · rw [h2, hExp, hCount]
        · simp [h6]
      | SetTimer Env New =>
        obtain ⟨hExp, hOv, hEntry, _, hHanded, hCompleted, _⟩ :=
          get_set_result State Next (.SetTimer Env New) (Or.inr ⟨Env, New, rfl⟩) hStep
        obtain ⟨h1, h2, h3, h4, h5, h6⟩ := ih Next hNext (by rw [hEntry]; exact hSignal)
          hRestCompletion (hRest Next hStep) hRun
        have hCount : (PIPELINE_EVENT.SetTimer Env New :: Rest).count .DpcRun
            = Rest.count .DpcRun := by simp [List.count_cons]
        refine ⟨h1, ?_, by rw [h3, hOv], by rw [h4, hHanded], by rw [h5, hCompleted], ?_⟩
        · rw [h2, hExp, hCount]
        · simp [h6]

/-- From a state with no signal on the signal queue, a sequence of events with
no completion either ends with no signal on the signal queue, or contains
exactly one run of the work routine, which hands over exactly one signal; its
overflow count is the expiration count at the start plus the number of
expiries before that run, minus one, and the expiries after that run are added
to the expiration count. -/
theorem expiries_around_work (Events : List PIPELINE_EVENT) (State Final : PIPELINE_STATE)
    (hInv : PipelineInvariant State)
    (hNoSignal : State.Timer.SignalQueueEntry.Queued = false)
    (hNoCompletion : PIPELINE_EVENT.SignalCompleted ∉ Events)
    (hBounded : PipelineBounded State Events)
    (hRun : PipelineRun State Events = some Final) :
    Final.Timer.SignalQueueEntry.Queued = false ∨
    ∃ Pre Post, Events = Pre ++ PIPELINE_EVENT.WorkItemRun :: Post ∧
      PIPELINE_EVENT.WorkItemRun ∉ Pre ∧ PIPELINE_EVENT.WorkItemRun ∉ Post ∧
      Final.Timer.SignalQueueEntry.Queued = true ∧
      1 ≤ State.Timer.ExpirationCount + Pre.count .DpcRun ∧
      Final.Handed = (State.Timer.ExpirationCount + Pre.count .DpcRun - 1) :: State.Handed ∧
      Final.Completed = State.Completed ∧
      Final.Timer.ExpirationCount
        = State.Timer.ExpirationCount + Pre.count .DpcRun + Post.count .DpcRun ∧
      Final.Timer.OverflowCount = State.Timer.ExpirationCount + Pre.count .DpcRun - 1 := by
  induction Events generalizing State with
  | nil =>
    simp only [PipelineRun, Option.some.injEq] at hRun
    subst hRun
    exact Or.inl hNoSignal
  | cons Event Rest ih =>
    obtain ⟨hHere, hRest⟩ := hBounded
    simp only [PipelineRun] at hRun
    cases hStep : PipelineStep State Event with
    | none => rw [hStep] at hRun; exact absurd hRun (by simp)
    | some Next =>
      rw [hStep] at hRun
      have hNext := PipelineInvariant_step State Next Event hInv hHere hStep
      have hRestCompletion : PIPELINE_EVENT.SignalCompleted ∉ Rest :=
        fun h => hNoCompletion (List.mem_cons_of_mem _ h)
      cases Event with
      | SignalCompleted => exact absurd (List.mem_cons_self _ _) hNoCompletion
      | WorkItemRun =>
        obtain ⟨_, hPositive, hQueued, _, hExp, hOv, _, _, hHanded, hCompleted, _, _⟩ :=
          work_run_result State Next hInv hStep
        obtain ⟨h1, h2, h3, h4, h5, h6⟩ :=
          signal_pending_run Rest Next Final hNext hQueued hRestCompletion (hRest Next hStep) hRun
        refine Or.inr ⟨[], Rest, rfl, List.not_mem_nil _, h6, h1, ?_, ?_, ?_, ?_, ?_⟩
        · simpa using hPositive
        · rw [h4, hHanded]
          simp
        · rw [h5, hCompleted]
        · rw [h2, hExp]
          simp
        · rw [h3, hOv]
          simp
      | DpcRun =>
        obtain ⟨hExp, hEntry, _, hHanded, hCompleted⟩ :=
          dpc_run_result State Next (hHere rfl) hStep
        rcases ih Next hNext (by rw [hEntry]; exact hNoSignal) hRestCompletion
          (hRest Next hStep) hRun with h | ⟨Pre, Post, hEq, hPre, hPost, h1, h2, h3, h4, h5, h6⟩
        · exact Or.inl h
        · have hCount : (PIPELINE_EVENT.DpcRun :: Pre).count .DpcRun
              = Pre.count .DpcRun + 1 := by simp [List.count_cons]
          rw [hExp] at h2 h3 h5 h6
          refine Or.inr ⟨.DpcRun :: Pre, Post, by rw [hEq]; rfl, by simp [hPre], hPost, h1,
            ?_, ?_, by rw [h4, hCompleted], ?_, ?_⟩
          · rw [hCount]; omega
          · rw [h3, hHanded, hCount]
            congr 1
            omega
          · rw [h5, hCount]; omega
          · rw [h6, hCount]; omega
      | GetTimer =>
        obtain ⟨hExp, _, hEntry, _, hHanded, hCompleted, _⟩ :=
          get_set_result State Next .GetTimer (Or.inl rfl) hStep
        rcases ih Next hNext (by rw [hEntry]; exact hNoSignal) hRestCompletion
          (hRest Next hStep) hRun with h | ⟨Pre, Post, hEq, hPre, hPost, h1, h2, h3, h4, h5, h6⟩
        · exact Or.inl h
        · have hCount : (PIPELINE_EVENT.GetTimer :: Pre).count .DpcRun
              = Pre.count .DpcRun := by simp [List.count_cons]
          rw [hExp] at h2 h3 h5 h6
          refine Or.inr ⟨.GetTimer :: Pre, Post, by rw [hEq]; rfl, by simp [hPre], hPost, h1,
            ?_, ?_, by rw [h4, hCompleted], ?_, ?_⟩
          · rw [hCount]; exact h2
          · rw [h3, hHanded, hCount]
          · rw [h5, hCount]
          · rw [h6, hCount]
      | SetTimer Env New =>
        obtain ⟨hExp, _, hEntry, _, hHanded, hCompleted, _⟩ :=
          get_set_result State Next (.SetTimer Env New) (Or.inr ⟨Env, New, rfl⟩) hStep
        rcases ih Next hNext (by rw [hEntry]; exact hNoSignal) hRestCompletion
          (hRest Next hStep) hRun with h | ⟨Pre, Post, hEq, hPre, hPost, h1, h2, h3, h4, h5, h6⟩
        · exact Or.inl h
        · have hCount : (PIPELINE_EVENT.SetTimer Env New :: Pre).count .DpcRun
              = Pre.count .DpcRun := by simp [List.count_cons]
          rw [hExp] at h2 h3 h5 h6
          refine Or.inr ⟨.SetTimer Env New :: Pre, Post, by rw [hEq]; rfl, by simp [hPre],
            hPost, h1, ?_, ?_, by rw [h4, hCompleted], ?_, ?_⟩
          · rw [hCount]; exact h2
          · rw [h3, hHanded, hCount]
          · rw [h5, hCount]
          · rw [h6, hCount]

/-- A sequence of events from a state that satisfies the invariant is bounded
when the expiration count plus the number of events stays below `2 ^ 32`. -/
theorem PipelineBounded_of_length (Events : List PIPELINE_EVENT) (State : PIPELINE_STATE)
    (hInv : PipelineInvariant State)
    (hLength : State.Timer.ExpirationCount + Events.length < ULONG_MODULUS) :
    PipelineBounded State Events := by
  induction Events generalizing State with
  | nil => trivial
  | cons Event Rest ih =>
    simp only [List.length_cons] at hLength
    have hHere : Event = .DpcRun → State.Timer.ExpirationCount + 1 < ULONG_MODULUS := by
      intro _
      omega
    refine ⟨hHere, ?_⟩
    intro Next hStep
    have hNext := PipelineInvariant_step State Next Event hInv hHere hStep
    have hGrow : Next.Timer.ExpirationCount ≤ State.Timer.ExpirationCount + 1 := by
      cases Event with
      | DpcRun =>
        have h := (dpc_run_result State Next (hHere rfl) hStep).1
        omega
      | WorkItemRun =>
        have h := (work_run_result State Next hInv hStep).2.2.2.2.1
        omega
      | SignalCompleted =>
        have h := (completion_result State Next hInv hStep).2.2.1
        omega
      | GetTimer =>
        have h := (get_set_result State Next .GetTimer (Or.inl rfl) hStep).1
        omega
      | SetTimer Env New =>
        have h := (get_set_result State Next (.SetTimer Env New)
          (Or.inr ⟨Env, New, rfl⟩) hStep).1
        omega
    exact ih Next hNext (by omega)

/-- C5 (amended): take a run of events of one record between two successive
signal completions, or between the creation of the record and its first
completion, with fewer than `2 ^ 32` expiries outstanding.  In it the work
routine runs exactly once and exactly one signal is handed to the signal
queue.  The overflow count that signal reports is c + p - 1, where c is the
expiration count the earlier completion left (0 for a fresh record) and p is
the number of hardware expiries of the run that precede the run of the work
routine; the expiries that follow it are what the later completion leaves in
the expiration count, to be reported by the next signal.  With n the number of
expiries of the run, n at least 1, the overflow count is n - 1 exactly when c
is the number of expiries that follow the work routine; in particular when c
is 0 and every expiry precedes the work routine, and then n is at least 1 and
the later completion leaves expiration count 0. -/
theorem coalesced_signal_reports_expiries (Parameters : SYSTEM_CALL_TIMER_CONTROL)
    (TimerNumber : Int) (Before Events : List PIPELINE_EVENT)
    (State Final : PIPELINE_STATE)
    (hBefore : PipelineBounded (FreshPipeline Parameters TimerNumber) Before)
    (hState : PipelineRun (FreshPipeline Parameters TimerNumber) Before = some State)
    (hBoundary : Before = [] ∨ ∃ Prior, Before = Prior ++ [PIPELINE_EVENT.SignalCompleted])
    (hNoCompletion : PIPELINE_EVENT.SignalCompleted ∉ Events)
    (hBounded : PipelineBounded State Events)
    (hRun : PipelineRun State (Events ++ [.SignalCompleted]) = some Final) :
    Events.count .WorkItemRun = 1 ∧
    ∃ Pre Post, Events = Pre ++ PIPELINE_EVENT.WorkItemRun :: Post ∧
      1 ≤ State.Timer.ExpirationCount + Pre.count .DpcRun ∧
      Final.Handed = (State.Timer.ExpirationCount + Pre.count .DpcRun - 1) :: State.Handed ∧
      Final.Completed
        = (State.Timer.ExpirationCount + Pre.count .DpcRun - 1) :: State.Completed ∧
      Final.Timer.ExpirationCount = Post.count .DpcRun ∧
      (1 ≤ Events.count .DpcRun →
        (State.Timer.ExpirationCount + Pre.count .DpcRun - 1 = Events.count .DpcRun - 1 ↔
          State.Timer.ExpirationCount = Post.count .DpcRun)) ∧
      (State.Timer.ExpirationCount = 0 → Post.count .DpcRun = 0 →
        1 ≤ Events.count .DpcRun ∧
        Final.Handed = (Events.count .DpcRun - 1) :: State.Handed ∧
        Final.Timer.ExpirationCount = 0) := by
  have hInv := PipelineInvariant_run Before _ State
    (PipelineInvariant_fresh Parameters TimerNumber) hBefore hState
  have hNoSignal : State.Timer.SignalQueueEntry.Queued = false := by
    rcases hBoundary with hEmpty | ⟨Prior, hPrior⟩
    · subst hEmpty
      simp only [PipelineRun, Option.some.injEq] at hState
      subst hState
      rfl
    · subst hPrior
      have hPriorBounded := (PipelineBounded_append _ Prior _ hBefore).1
      rw [PipelineRun_append] at hState
      cases hEarlier : PipelineRun (FreshPipeline Parameters TimerNumber) Prior with
      | none => rw [hEarlier] at hState; exact absurd hState (by simp)
      | some Earlier =>
        rw [hEarlier] at hState
        simp only [Option.bind, PipelineRun] at hState
        cases hStep : PipelineStep Earlier .SignalCompleted with
        | none => rw [hStep] at hState; exact absurd hState (by simp)
        | some Left =>
          rw [hStep] at hState
          simp only [Option.some.injEq] at hState
          subst hState
          have hEarlierInv := PipelineInvariant_run Prior _ Earlier
            (PipelineInvariant_fresh Parameters TimerNumber) hPriorBounded hEarlier
          exact (completion_result Earlier Left hEarlierInv hStep).2.2.2.2.1
  rw [PipelineRun_append] at hRun
  cases hMiddle : PipelineRun State Events with
  | none => rw [hMiddle] at hRun; exact absurd hRun (by simp)
  | some Middle =>
    rw [hMiddle] at hRun
    simp only [Option.bind, PipelineRun] at hRun
    cases hStep : PipelineStep Middle .SignalCompleted with
    | none => rw [hStep] at hRun; exact absurd hRun (by simp)
    | some Last =>
      rw [hStep] at hRun
      simp only [Option.some.injEq] at hRun
      subst hRun
      have hMiddleInv := PipelineInvariant_run Events State Middle hInv hBounded hMiddle
      obtain ⟨hQueued, _, hExp, _, _, _, hHanded, hCompleted, _⟩ :=
        completion_result Middle Last hMiddleInv hStep
      rcases expiries_around_work Events State Middle hInv hNoSignal hNoCompletion
        hBounded hMiddle with h | ⟨Pre, Post, hEq, hPre, hPost, _, h2, h3, h4, h5, h6⟩
      · rw [h] at hQueued
        exact absurd hQueued (by simp)
      · have hWorkCount : Events.count .WorkItemRun = 1 := by
          rw [hEq]
          simp [List.count_append, List.count_cons, List.count_eq_zero_of_not_mem hPre,
            List.count_eq_zero_of_not_mem hPost]
        have hCount : Events.count .DpcRun = Pre.count .DpcRun + Post.count .DpcRun := by
          rw [hEq]
          simp [List.count_append, List.count_cons]
        have hLeft : Last.Timer.ExpirationCount = Post.count .DpcRun := by
          rw [hExp, h5, h6]
          omega
        refine ⟨hWorkCount, Pre, Post, hEq, h2, by rw [hHanded, h3], ?_, hLeft, ?_, ?_⟩
        · rw [hCompleted, h6, h4]
        · intro hSome
          rw [hCount]
          omega
        · intro hZero hNone
          refine ⟨by omega, ?_, by rw [hLeft, hNone]⟩
          rw [hHanded, h3, hCount, hZero, hNone]
          simp

/-- C5, witness of the amended statement: the first completion on the record
numbered 1 left expiration count 2; in the run up to the second completion one
expiry and then the work routine happen.  The work routine runs once and one
signal is handed over. -/
theorem coalesced_signal_reports_expiries_witness :
    ∃ Final,
      PipelineRun CarriedPipeline
        ([PIPELINE_EVENT.DpcRun, .WorkItemRun] ++ [.SignalCompleted]) = some Final ∧
      ([PIPELINE_EVENT.DpcRun, .WorkItemRun] : List PIPELINE_EVENT).count .WorkItemRun = 1 ∧
      ∃ Pre Post,
        [PIPELINE_EVENT.DpcRun, .WorkItemRun] = Pre ++ PIPELINE_EVENT.WorkItemRun :: Post ∧
        Final.Handed
          = (CarriedPipeline.Timer.ExpirationCount + Pre.count .DpcRun - 1)
              :: CarriedPipeline.Handed ∧
        Final.Timer.ExpirationCount = Post.count .DpcRun := by
  have hState : PipelineRun (FreshPipeline (Request .TimerOperationCreateTimer 0) 1)
      CarriedEvents = some CarriedPipeline := by decide
  have hFresh := PipelineInvariant_fresh (Request .TimerOperationCreateTimer 0) 1
  have hBefore : PipelineBounded (FreshPipeline (Request .TimerOperationCreateTimer 0) 1)
      CarriedEvents :=
    PipelineBounded_of_length _ _ hFresh (by
      show (0 : Nat) + 5 < ULONG_MODULUS
      unfold ULONG_MODULUS
      omega)
  have hInv := PipelineInvariant_run _ _ _ hFresh hBefore hState
  have hCarried : CarriedPipeline.Timer.ExpirationCount = 2 := by decide
  have hBounded : PipelineBounded CarriedPipeline [.DpcRun, .WorkItemRun] :=
    PipelineBounded_of_length _ _ hInv (by
      rw [hCarried]
      show (2 : Nat) + 2 < ULONG_MODULUS
      unfold ULONG_MODULUS
      omega)
  obtain ⟨Final, hRun⟩ := Option.isSome_iff_exists.mp
    (show (PipelineRun CarriedPipeline
      ([PIPELINE_EVENT.DpcRun, .WorkItemRun] ++ [.SignalCompleted])).isSome = true by decide)
  obtain ⟨hWork, Pre, Post, hEq, _, hHanded, _, hLeft, _, _⟩ :=
    coalesced_signal_reports_expiries (Request .TimerOperationCreateTimer 0) 1
      CarriedEvents [.DpcRun, .WorkItemRun] CarriedPipeline Final
      hBefore hState
      (Or.inr ⟨[.DpcRun, .WorkItemRun, .DpcRun, .DpcRun], rfl⟩)
      (by decide) hBounded hRun
  exact ⟨Final, hRun, hWork, Pre, Post, hEq, hHanded, hLeft⟩

/-- C5 (as stated) fails: on a fresh record let one expiry, the work routine,
two more expiries and the first completion happen; that completion reported
overflow count 0.  Between it and the second completion there is exactly one
expiry and exactly one signal is handed over, and that signal reports overflow
count 2, not 1 - 1. -/
theorem overflow_counts_carried_expiries :
    (PipelineRun (FreshPipeline (Request .TimerOperationCreateTimer 0) 1)
        [.DpcRun, .WorkItemRun, .DpcRun, .DpcRun, .SignalCompleted]).bind
      (fun Middle =>
        (PipelineRun Middle [.DpcRun, .WorkItemRun, .SignalCompleted]).map
          (fun Final => (Middle.Completed, Middle.Handed, Final.Handed, Final.Completed)))
      = some ([0], [0], [2, 0], [2, 0]) ∧
    ([.DpcRun, .WorkItemRun] : List PIPELINE_EVENT).count .DpcRun = 1 ∧
    (2 : Nat) ≠ 1 - 1 := by
  decide

/-! ## C6: delivery after delete -/

/-- The four middle steps of a delete, taken with nothing in between, are
`PspFlushProcessTimer`. -/
theorem DeleteAdvance_flush (Env : ENVIRONMENT) (State : DELETE_STATE)
    (hPhase : State.Phase = .Unlinked) :
    (DeleteAdvance Env (DeleteAdvance Env (DeleteAdvance Env (DeleteAdvance Env State)))).Timer
      = (PspFlushProcessTimer Env State.Timer).1 ∧
    (DeleteAdvance Env (DeleteAdvance Env (DeleteAdvance Env (DeleteAdvance Env State)))).Phase
      = .SignalCancelled := by
  unfold PspFlushProcessTimer
  simp [DeleteAdvance, hPhase]

/-- C6 fails on the code: in the run `DeleteDuringBurst` every event can
happen, the delete returns, and one signal of the record is delivered to user
mode after that return. -/
theorem signal_delivered_after_delete_returned :
    (DeleteRun FreshDelete DeleteDuringBurst).map
        (fun Final => (Final.Phase, Final.DeliveredAfterReturn, Final.RequeuedAfterFlush))
      = some (.Returned, 1, true) ∧
    (DeleteRun FreshDelete (DeleteDuringBurst.take 13)).map
        (fun AtReturn =>
          (AtReturn.Phase, AtReturn.DeliveredAfterReturn, AtReturn.Timer.WorkItem.Queued,
           AtReturn.Timer.ExpirationCount, AtReturn.Timer.ReferenceCount, AtReturn.Destroyed))
      = some (.Returned, 0, true, 1, 1, false) := by
  decide

/-- The DPC routine leaves the kernel timer, the DPC and the signal queue
entry of the record alone. -/
theorem PspProcessTimerDpcRoutine_keeps (Timer : PROCESS_TIMER) :
    (PspProcessTimerDpcRoutine Timer).1.Timer = Timer.Timer ∧
    (PspProcessTimerDpcRoutine Timer).1.Dpc = Timer.Dpc ∧
    (PspProcessTimerDpcRoutine Timer).1.SignalQueueEntry = Timer.SignalQueueEntry := by
  unfold PspProcessTimerDpcRoutine
  by_cases hZero : Timer.ExpirationCount = 0 <;>
    simp [hZero, PspProcessTimerAddReference, KeQueueWorkItem]

/-- The work routine leaves the kernel timer, the DPC and the work item of the
record alone. -/
theorem PspProcessTimerWorkRoutine_keeps (Timer : PROCESS_TIMER) :
    (PspProcessTimerWorkRoutine Timer).1.Timer = Timer.Timer ∧
    (PspProcessTimerWorkRoutine Timer).1.Dpc = Timer.Dpc ∧
    (PspProcessTimerWorkRoutine Timer).1.WorkItem = Timer.WorkItem := by
  unfold PspProcessTimerWorkRoutine
  exact ⟨rfl, rfl, rfl⟩

/-- The release routine changes nothing but the reference count. -/
theorem PspProcessTimerReleaseReference_keeps (Timer : PROCESS_TIMER) :
    (PspProcessTimerReleaseReference Timer).Timer.Timer = Timer.Timer ∧
    (PspProcessTimerReleaseReference Timer).Timer.Dpc = Timer.Dpc ∧
    (PspProcessTimerReleaseReference Timer).Timer.WorkItem = Timer.WorkItem ∧
    (PspProcessTimerReleaseReference Timer).Timer.SignalQueueEntry
      = Timer.SignalQueueEntry := by
  unfold PspProcessTimerReleaseReference
  simp only
  split <;> exact ⟨rfl, rfl, rfl, rfl⟩

/-- The completion routine leaves the kernel timer, the DPC and the signal
queue entry of the record alone. -/
theorem PspProcessTimerSignalCompletion_keeps (Timer : PROCESS_TIMER) :
    (PspProcessTimerSignalCompletion Timer).Timer.Timer = Timer.Timer ∧
    (PspProcessTimerSignalCompletion Timer).Timer.Dpc = Timer.Dpc ∧
    (PspProcessTimerSignalCompletion Timer).Timer.SignalQueueEntry
      = Timer.SignalQueueEntry := by
  unfold PspProcessTimerSignalCompletion
  simp only
  split
  · exact ⟨rfl, rfl, rfl⟩
  · generalize toULONG (negULONG (toULONG (Timer.OverflowCount + 1)) + Timer.ExpirationCount)
      = Drained
    have h := PspProcessTimerReleaseReference_keeps
      { Timer with OverflowCount := 0, ExpirationCount := Drained }
    exact ⟨h.1, h.2.1, h.2.2.2⟩

/-- One event keeps the invariant of a delete. -/
theorem DeleteInvariant_step (State Next : DELETE_STATE) (Event : DELETE_EVENT)
    (hInv : DeleteInvariant State) (hStep : DeleteStep State Event = some Next) :
    DeleteInvariant Next := by
  unfold DeleteStep at hStep
  cases hAlive : State.Destroyed with
  | true => simp [hAlive] at hStep
  | false =>
    rw [if_neg (by simp [hAlive])] at hStep
    cases Event with
    | SetTimer Env New =>
      by_cases hPhase : State.Phase = .Listed
      · simp only [hPhase, if_true, Option.some.injEq] at hStep
        subst hStep
        intro hFlag
        have h := hInv hFlag
        refine ⟨h.1, ?_, ?_, ?_, ?_⟩ <;>
          · intro hLe
            simp [PhaseRank] at hLe
      · simp [hPhase] at hStep
    | TimerExpires =>
      cases hQueue : State.Timer.Timer.Queue with
      | none => simp [hQueue] at hStep
      | some Queued =>
        simp only [hQueue, Option.some.injEq] at hStep
        subst hStep
        intro hFlag
        have h := hInv hFlag
        have hRank : PhaseRank State.Phase < 2 := by
          by_contra hNot
          have := h.2.1 (by omega)
          rw [hQueue] at this
          exact absurd this (by simp)
        refine ⟨h.1, ?_, ?_, ?_, ?_⟩ <;>
          · intro hLe
            have hLe' : _ ≤ PhaseRank State.Phase := hLe
            omega
    | DpcRun =>
      cases hDpc : State.Timer.Dpc.Queued with
      | false => simp [hDpc] at hStep
      | true =>
        simp only [hDpc, if_true, Option.some.injEq] at hStep
        subst hStep
        intro hFlag
        have h := hInv hFlag
        have hRank : PhaseRank State.Phase < 3 := by
          by_contra hNot
          have := h.2.2.1 (by omega)
          rw [hDpc] at this
          exact absurd this (by simp)
        have hKeeps := PspProcessTimerDpcRoutine_keeps
          { State.Timer with Dpc := { Queued := false } }
        refine ⟨h.1, ?_, ?_, ?_, ?_⟩
        · intro hLe
          show (PspProcessTimerDpcRoutine _).1.Timer.Queue = none
          rw [hKeeps.1]
          exact h.2.1 hLe
        all_goals
          intro hLe
          have hLe' : _ ≤ PhaseRank State.Phase := hLe
          omega
    | WorkItemRun =>
      cases hWork : State.Timer.WorkItem.Queued with
      | false => simp [hWork] at hStep
      | true =>
        simp only [hWork, if_true, Option.some.injEq] at hStep
        subst hStep
        intro hFlag
        have h := hInv hFlag
        have hRank : PhaseRank State.Phase < 4 := by
          by_contra hNot
          have := h.2.2.2.1 (by omega)
          rw [hWork] at this
          exact absurd this (by simp)
        have hKeeps := PspProcessTimerWorkRoutine_keeps
          { State.Timer with WorkItem := { Queued := false } }
        refine ⟨h.1, ?_, ?_, ?_, ?_⟩
        · intro hLe
          show (PspProcessTimerWorkRoutine _).1.Timer.Queue = none
          rw [hKeeps.1]
          exact h.2.1 hLe
        · intro hLe
          show (PspProcessTimerWorkRoutine _).1.Dpc.Queued = false
          rw [hKeeps.2.1]
          exact h.2.2.1 hLe
        all_goals
          intro hLe
          have hLe' : _ ≤ PhaseRank State.Phase := hLe
          omega
    | SignalDelivered =>
      cases hSignal : State.Timer.SignalQueueEntry.Queued with
      | false => simp [hSignal] at hStep
      | true =>
        simp only [hSignal, if_true, Option.some.injEq] at hStep
        generalize hInput : ({ State.Timer with
          SignalQueueEntry := { State.Timer.SignalQueueEntry with Queued := false } }
            : PROCESS_TIMER) = Input at hStep
        have hKeeps := PspProcessTimerSignalCompletion_keeps Input
        have hInputTimer : Input.Timer = State.Timer.Timer := by rw [← hInput]
        have hInputDpc : Input.Dpc = State.Timer.Dpc := by rw [← hInput]
        subst hStep
        intro hFlag
        have hFlag' : (State.RequeuedAfterFlush ||
            (decide (State.Phase = .WorkQueueFlushed) &&
              (PspProcessTimerSignalCompletion Input).Timer.WorkItem.Queued)) = false := hFlag
        rw [Bool.or_eq_false_iff] at hFlag'
        obtain ⟨hOld, hWindow⟩ := hFlag'
        have h := hInv hOld
        have hRank : PhaseRank State.Phase < 5 := by
          by_contra hNot
          have := h.2.2.2.2 (by omega)
          rw [hSignal] at this
          exact absurd this (by simp)
        have hNotReturned : State.Phase ≠ .Returned := by
          intro hEq
          rw [hEq] at hRank
          exact absurd hRank (by decide)
        refine ⟨?_, ?_, ?_, ?_, ?_⟩
        · show (if State.Phase = .Returned then State.DeliveredAfterReturn + 1
            else State.DeliveredAfterReturn) = 0
          rw [if_neg hNotReturned]
          exact h.1
        · intro hLe
          show (PspProcessTimerSignalCompletion Input).Timer.Timer.Queue = none
          rw [hKeeps.1, hInputTimer]
          exact h.2.1 hLe
        · intro hLe
          show (PspProcessTimerSignalCompletion Input).Timer.Dpc.Queued = false
          rw [hKeeps.2.1, hInputDpc]
          exact h.2.2.1 hLe
        · intro hLe
          have hLe' : 4 ≤ PhaseRank State.Phase := hLe
          have hPhase : State.Phase = .WorkQueueFlushed := by
            cases hP : State.Phase <;> rw [hP] at hLe' hRank <;>
              first
                | rfl
                | exact absurd hLe' (by decide)
                | exact absurd hRank (by decide)
          rw [hPhase] at hWindow
          simpa using hWindow
        · intro hLe
          have hLe' : 5 ≤ PhaseRank State.Phase := hLe
          omega
    | DeleteStep Env =>
      by_cases hReturned : State.Phase = .Returned
      · simp [hReturned] at hStep
      · simp only [hReturned, if_false, Option.some.injEq] at hStep
        subst hStep
        cases hP : State.Phase with
        | Returned => exact absurd hP hReturned
        | Listed =>
          unfold DeleteAdvance
          simp only [hP]
          intro hFlag
          have h := hInv hFlag
          refine ⟨h.1, ?_, ?_, ?_, ?_⟩ <;>
            · intro hLe
              simp [PhaseRank] at hLe
        | Unlinked =>
          unfold DeleteAdvance
          simp only [hP]
          intro hFlag
          have h := hInv hFlag
          refine ⟨h.1, fun _ => rfl, ?_, ?_, ?_⟩ <;>
            · intro hLe
              simp [PhaseRank] at hLe
        | TimerCancelled =>
          unfold DeleteAdvance
          simp only [hP]
          intro hFlag
          have h := hInv hFlag
          have hQueue := h.2.1 (by rw [hP]; decide)
          refine ⟨h.1, ?_, ?_, ?_, ?_⟩
          · intro _
            show (if (KeCancelDpc Env.CancelDpcSucceeds State.Timer.Dpc).1 = true then _
              else KeFlushDpc State.Timer).Timer.Queue = none
            split
            · exact hQueue
            · unfold KeFlushDpc
              split
              · rw [(PspProcessTimerDpcRoutine_keeps _).1]
                exact hQueue
              · exact hQueue
          · intro _
            show (if (KeCancelDpc Env.CancelDpcSucceeds State.Timer.Dpc).1 = true then _
              else KeFlushDpc State.Timer).Dpc.Queued = false
            unfold KeCancelDpc
            cases hDpc : State.Timer.Dpc.Queued <;> cases hCan : Env.CancelDpcSucceeds <;>
              simp [KeFlushDpc, hDpc, (PspProcessTimerDpcRoutine_keeps _).2.1]
          · intro hLe
            simp [PhaseRank] at hLe
          · intro hLe
            simp [PhaseRank] at hLe
        | DpcFlushed =>
          unfold DeleteAdvance
          simp only [hP]
          intro hFlag
          have h := hInv hFlag
          have hQueue := h.2.1 (by rw [hP]; decide)
          have hDpc := h.2.2.1 (by rw [hP]; decide)
          refine ⟨h.1, ?_, ?_, ?_, ?_⟩
          · intro _
            show (KeFlushWorkQueue State.Timer).Timer.Queue = none
            unfold KeFlushWorkQueue
            split
            · rw [(PspProcessTimerWorkRoutine_keeps _).1]
              exact hQueue
            · exact hQueue
          · intro _
            show (KeFlushWorkQueue State.Timer).Dpc.Queued = false
            unfold KeFlushWorkQueue
            split
            · rw [(PspProcessTimerWorkRoutine_keeps _).2.1]
              exact hDpc
            · exact hDpc
          · intro _
            show (KeFlushWorkQueue State.Timer).WorkItem.Queued = false
            unfold KeFlushWorkQueue
            cases hWork : State.Timer.WorkItem.Queued with
            | true =>
              simp only [if_true]
              rw [(PspProcessTimerWorkRoutine_keeps _).2.2]
            | false =>
              simp only [Bool.false_eq_true, if_false]
              exact hWork
          · intro hLe
            simp [PhaseRank] at hLe
        | WorkQueueFlushed =>
          unfold DeleteAdvance
          simp only [hP]
          intro hFlag
          have h := hInv hFlag
          exact ⟨h.1, fun _ => h.2.1 (by rw [hP]; decide),
            fun _ => h.2.2.1 (by rw [hP]; decide),
            fun _ => h.2.2.2.1 (by rw [hP]; decide), fun _ => rfl⟩
        | SignalCancelled =>
          unfold DeleteAdvance
          simp only [hP]
          intro hFlag
          have h := hInv hFlag
          have hKeeps := PspProcessTimerReleaseReference_keeps State.Timer
          refine ⟨h.1, ?_, ?_, ?_, ?_⟩
          · intro _
            show (PspProcessTimerReleaseReference State.Timer).Timer.Timer.Queue = none
            rw [hKeeps.1]
            exact h.2.1 (by rw [hP]; decide)
          · intro _
            show (PspProcessTimerReleaseReference State.Timer).Timer.Dpc.Queued = false
            rw [hKeeps.2.1]
            exact h.2.2.1 (by rw [hP]; decide)
          · intro _
            show (PspProcessTimerReleaseReference State.Timer).Timer.WorkItem.Queued = false
            rw [hKeeps.2.2.1]
            exact h.2.2.2.1 (by rw [hP]; decide)
          · intro _
            show (PspProcessTimerReleaseReference State.Timer).Timer.SignalQueueEntry.Queued
              = false
            rw [hKeeps.2.2.2]
            exact h.2.2.2.2 (by rw [hP]; decide)

/-- A sequence of events keeps the invariant of a delete. -/
theorem DeleteInvariant_run (Events : List DELETE_EVENT) (State Final : DELETE_STATE)
    (hInv : DeleteInvariant State) (hRun : DeleteRun State Events = some Final) :
    DeleteInvariant Final := by
  induction Events generalizing State with
  | nil =>
    simp only [DeleteRun, Option.some.injEq] at hRun
    subst hRun
    exact hInv
  | cons Event Rest ih =>
    simp only [DeleteRun] at hRun
    cases hStep : DeleteStep State Event with
    | none => rw [hStep] at hRun; exact absurd hRun (by simp)
    | some Next =>
      rw [hStep] at hRun
      exact ih Next (DeleteInvariant_step State Next Event hInv hStep) hRun

/-- The only way to a delivery after the delete returned: from any state in
which the record is in the list and no delete is under way, every run in which
no completion queued the work item again after the delete flushed the work
queue ends with no signal delivered after the return of the delete, and, once
the delete has returned, with the kernel timer, the DPC, the work item and the
signal all off their queues. -/
theorem no_delivery_after_delete_unless_requeued (Events : List DELETE_EVENT)
    (State Final : DELETE_STATE)
    (hListed : State.Phase = .Listed)
    (hNone : State.DeliveredAfterReturn = 0)
    (hRun : DeleteRun State Events = some Final)
    (hFlag : Final.RequeuedAfterFlush = false) :
    Final.DeliveredAfterReturn = 0 ∧
    (Final.Phase = .Returned →
      Final.Timer.Timer.Queue = none ∧ Final.Timer.Dpc.Queued = false ∧
      Final.Timer.WorkItem.Queued = false ∧
      Final.Timer.SignalQueueEntry.Queued = false) := by
  have hStart : DeleteInvariant State := by
    intro _
    refine ⟨hNone, ?_, ?_, ?_, ?_⟩ <;>
      · intro hLe
        rw [hListed] at hLe
        simp [PhaseRank] at hLe
  have h := DeleteInvariant_run Events State Final hStart hRun hFlag
  refine ⟨h.1, ?_⟩
  intro hReturned
  exact ⟨h.2.1 (by rw [hReturned]; decide), h.2.2.1 (by rw [hReturned]; decide),
    h.2.2.2.1 (by rw [hReturned]; decide), h.2.2.2.2 (by rw [hReturned]; decide)⟩

/-! ## Consistency of the due time with the backing timer -/

/-- The set case leaves a consistent record consistent when the time counter
it reads is not 0. -/
theorem SetProcessTimer_consistent (Env : ENVIRONMENT) (New : TIMER_INFORMATION)
    (Timer : PROCESS_TIMER) (hCounter : Env.TimeCounter ≠ 0)
    (hConsistent : TimerConsistent Timer) :
    TimerConsistent (SetProcessTimer Env New Timer).Timer := by
  by_cases hArm : New.DueTime ≠ 0 ∨ New.Period ≠ 0
  · have hStored : StoredDueTime Env New ≠ 0 := by
      unfold StoredDueTime
      by_cases hDue : New.DueTime = 0
      · have hPeriod : New.Period ≠ 0 := by
          rcases hArm with h | h
          · exact absurd hDue h
          · exact h
        simp [hDue, hPeriod, hCounter]
      · simp [hDue]
    cases hReject : Env.QueueTimerRejection with
    | none =>
      rw [SetProcessTimer_armed Env New Timer hArm hReject]
      intro hZero
      exact absurd hZero hStored
    | some Code =>
      rw [SetProcessTimer_rejected Env New Timer hArm Code hReject]
      intro hZero
      exact absurd hZero hStored
  · have hDue : New.DueTime = 0 := by
      by_contra h; exact hArm (Or.inl h)
    have hPeriod : New.Period = 0 := by
      by_contra h; exact hArm (Or.inr h)
    rw [SetProcessTimer_disarmed Env New Timer hDue hPeriod]
    intro _
    show (if Timer.DueTime ≠ 0 then ({ Queue := none } : KTIMER) else Timer.Timer).Queue = none
    by_cases hOld : Timer.DueTime = 0
    · rw [if_neg (by simp [hOld])]
      exact hConsistent hOld
    · rw [if_pos hOld]

/-- Every record of a list reached from a list of consistent records, by
requests that never read 0 from the time counter, is consistent: a record
whose due time is 0 has no queued backing timer. -/
theorem TimerConsistent_preserved (Requests : List REQUEST) (Process : KPROCESS)
    (hAll : ∀ Timer ∈ Process.TimerList, TimerConsistent Timer)
    (hCounter : ∀ Env Parameters, REQUEST.Control Env Parameters ∈ Requests →
      Env.TimeCounter ≠ 0) :
    ∀ Timer ∈ (RunRequests Process Requests).TimerList, TimerConsistent Timer := by
  induction Requests generalizing Process with
  | nil => exact hAll
  | cons Request Rest ih =>
    have hRest : ∀ Env Parameters, REQUEST.Control Env Parameters ∈ Rest →
        Env.TimeCounter ≠ 0 :=
      fun Env Parameters h => hCounter Env Parameters (List.mem_cons_of_mem _ h)
    have hStep : ∀ Timer ∈ (ApplyRequest Process Request).TimerList, TimerConsistent Timer := by
      cases Request with
      | Teardown Env =>
        intro Timer hIn
        simp [ApplyRequest, PspDestroyProcessTimers] at hIn
      | Control Env Parameters =>
        have hTime := hCounter Env Parameters (List.mem_cons_self _ _)
        rw [ApplyRequest_control]
        by_cases hOperation : Parameters.Operation = .TimerOperationCreateTimer
        · rw [PsSysTimerControl_create_eq Env Process Parameters hOperation]
          by_cases hStatus :
              (TimerControlCreate Env Process Parameters).Parameters.Status = .STATUS_SUCCESS
          · rw [TimerControlCreate_success Env Process Parameters hStatus]
            intro Timer hIn
            rcases List.mem_append.mp hIn with hOld | hNew
            · exact hAll Timer hOld
            · simp only [List.mem_singleton] at hNew
              subst hNew
              intro _
              rfl
          · rw [(TimerControlCreate_failure Env Process Parameters hStatus).1]
            exact hAll
        · cases hFind : FindTimer Process.TimerList Parameters.TimerNumber with
          | none =>
            rw [PsSysTimerControl_missed Env Process Parameters hOperation hFind]
            exact hAll
          | some Found =>
            obtain ⟨Index, First⟩ := Found
            rw [PsSysTimerControl_found Env Process Parameters Index First hOperation hFind]
            have hAt := (FindTimer_some _ _ _ _ hFind).1
            have hFirst : TimerConsistent First := hAll First (List.getElem?_mem hAt)
            cases hOp : Parameters.Operation with
            | TimerOperationCreateTimer => exact absurd hOp hOperation
            | TimerOperationDeleteTimer =>
              intro Timer hIn
              exact hAll Timer ((List.eraseIdx_sublist _ _).subset hIn)
            | TimerOperationGetTimer => exact hAll
            | TimerOperationSetTimer =>
              intro Timer hIn
              rcases List.mem_or_eq_of_mem_set hIn with hOld | hNew
              · exact hAll Timer hOld
              · rw [hNew]
                exact SetProcessTimer_consistent Env _ First hTime hFirst
            | TimerOperationUnrecognized Tag => exact hAll
    exact ih (ApplyRequest Process Request) hStep hRest

end Utimer
